import Mathlib

/-! The reconcile loop of the CCS controller.

A shallow embedding of `ReconcileCCS.Reconcile` and `GetCCS` from
`pkg/controller/ccs/ccs_controller.go`.

One invocation of `Reconcile` is a pure function of
* the receiver `ReconcileCCS` (its flags and constants),
* a `World`: what every collaborator (cluster client, certificate manager,
  license helper, status manager, component handler) answers when asked, and
* the `Request`.

It yields an `Outcome`: the `reconcile.Result`, the returned `error`, and the
chronological list of the calls made on the collaborators (`Event`).  A Go
`return` is a leaf of the nested conditionals; the deferred
`r.status.SetMetaData` is appended to the trace of every path that passes the
`defer` statement.
-/

namespace CCS

/-! ## Data model -/

/-- A Go `error` value: its text and whether `errors.IsNotFound` holds of it. -/
structure GoError where
  msg : String
  notFound : Bool
deriving DecidableEq, Repr

/-- The function `errors.IsNotFound`; it is false of the nil error. -/
def IsNotFound : Option GoError → Bool
  | some e => e.notFound
  | none => false

/-- The values of `operatorv1.TigeraStatusReason` used by the controller; the
constants are declared in another file of the package and are taken to be
pairwise distinct. -/
inductive TigeraStatusReason where
  | ResourceNotFound
  | ResourceNotReady
  | ResourceReadError
  | ResourceUpdateError
  | ResourceCreateError
  | ResourceValidationError
deriving DecidableEq, Repr

/-- The struct `reconcile.Result`; `RequeueAfter` is a duration. -/
structure Result where
  Requeue : Bool
  RequeueAfter : Nat
deriving DecidableEq, Repr

/-- The value `reconcile.Result{}`. -/
def Result.empty : Result := { Requeue := false, RequeueAfter := 0 }

/-- The struct `reconcile.Request` (a namespaced name). -/
structure Request where
  Name : String
  Namespace : String
deriving DecidableEq, Repr

/-- The struct `client.ObjectKey`. -/
structure ObjectKey where
  Name : String
  Namespace : String
deriving DecidableEq, Repr

/-- The part of `metav1.ObjectMeta` the status manager reads. -/
structure ObjectMeta where
  Name : String
  Namespace : String
  Generation : Nat
deriving DecidableEq, Repr

/-- The struct `ComplianceConfigurationSecurityStatus`. -/
structure ComplianceConfigurationSecurityStatus where
  State : String
deriving DecidableEq, Repr

/-- The struct `ComplianceConfigurationSecurity` (its spec is empty). -/
structure ComplianceConfigurationSecurity where
  ObjectMeta : ObjectMeta
  Status : ComplianceConfigurationSecurityStatus
deriving DecidableEq, Repr

/-- The struct `AuthenticationStatus`. -/
structure AuthenticationStatus where
  State : String
deriving DecidableEq, Repr

/-- The struct `Authentication`, reduced to its name and status. -/
structure Authentication where
  Name : String
  Status : AuthenticationStatus
deriving DecidableEq, Repr

/-- A tenant, identified by its id. -/
structure Tenant where
  ID : String
deriving DecidableEq, Repr

/-- A license key, identified by the features it carries. -/
structure LicenseKey where
  Features : List String
deriving DecidableEq, Repr

/-- The installation spec, reduced to the provider it names. -/
structure InstallationSpec where
  KubernetesProvider : String
deriving DecidableEq, Repr

/-- A `ManagementCluster` resource. -/
structure ManagementCluster where
  Address : String
deriving DecidableEq, Repr

/-- A `ManagementClusterConnection` resource. -/
structure ManagementClusterConnection where
  ManagementClusterAddr : String
deriving DecidableEq, Repr

/-- A certificate held by the certificate manager, identified by its secret. -/
structure Certificate where
  SecretName : String
deriving DecidableEq, Repr

/-- A trusted bundle: the certificates it was built from. -/
structure TrustedBundle where
  Certificates : List Certificate
deriving DecidableEq, Repr

/-- A key pair, identified by its secret and the names it is valid for. -/
structure KeyPair where
  SecretName : String
  DNSNames : List String
deriving DecidableEq, Repr

/-- The key validator configuration derived from an `Authentication`. -/
structure KeyValidatorConfig where
  Issuer : String
deriving DecidableEq, Repr

/-- The struct `ccsrender.Config` assembled at lines 423-439. -/
structure Config where
  TrustedBundle : TrustedBundle
  Installation : InstallationSpec
  APIKeyPair : KeyPair
  PullSecrets : List String
  OpenShift : Bool
  ManagementCluster : Option ManagementCluster
  ManagementClusterConnection : Option ManagementClusterConnection
  KeyValidatorConfig : Option KeyValidatorConfig
  ClusterDomain : String
  HasNoLicense : Bool
  Namespace : String
  BindingNamespaces : List String
  Tenant : Option Tenant
  ComplianceConfigurationSecurity : ComplianceConfigurationSecurity
  ExternalElastic : Bool
deriving DecidableEq, Repr

/-- The struct `rcertificatemanagement.Config` assembled at lines 447-455;
`TrustedBundle` is the bundle maker, nil in multi-tenant mode. -/
structure CertificateManagementConfig where
  Namespace : String
  TruthNamespace : String
  ServiceAccounts : List String
  KeyPairOptions : List KeyPair
  TrustedBundle : Option TrustedBundle
deriving DecidableEq, Repr

/-- The three components handed to the component handler. -/
inductive Component where
  | namespaceComp (installNamespace : String) (provider : String)
  | certificateComponent (cfg : CertificateManagementConfig)
  | ccsComponent (cfg : Config)
deriving DecidableEq, Repr

/-- A call made by `Reconcile` on one of its collaborators. -/
inductive Event where
  | GetTenant (ns : String)
  | ClientGetCCS (key : ObjectKey)
  | OnCRFound
  | OnCRNotFound
  | SetMetaData (om : ObjectMeta)
  | SetDegraded (reason : TigeraStatusReason) (msg : String) (err : Option GoError)
  | ClearDegraded
  | IsAvailable
  | ClientGetTigeraStatus (name : String)
  | StatusUpdate (inst : ComplianceConfigurationSecurity)
  | IsAPIServerReady
  | TierWatchIsReady
  | LicenseAPIIsReady
  | ClientGetTier (name : String)
  | FetchLicenseKey
  | GetInstallation
  | GetNetworkingPullSecrets
  | GetManagementCluster
  | GetManagementClusterConnection
  | CertificateManagerCreate (truthNamespace : String)
  | GetCertificate (name : String) (ns : String)
  | CreateTrustedBundle
  | LoadMultiTenantTrustedBundle (ns : String)
  | GetOrCreateKeyPair (name : String) (ns : String)
  | AddToStatusManager (ns : String)
  | GetAuthentication
  | TenantNamespaces
  | GetKeyValidatorConfig
  | ApplyImageSet
  | CreateOrUpdateOrDelete (c : Component)
deriving DecidableEq, Repr

/-- The constants of other packages that `Reconcile` names; their values are
not fixed by this file, so they are parameters of the receiver. -/
structure Constants where
  StandardRetry : Nat
  TigeraStatusReady : String
  ComplianceFeature : String
  CCSNamespace : String
  TigeraComponentTierName : String
  ManagerInternalTLSSecretName : String
  TigeraLinseedSecret : String
  VoltronLinseedPublicCert : String
  APICertSecretName : String
  APIResourceName : String

/-- The receiver `ReconcileCCS`: the two ready flags are read through
`IsReady`, the client and the status manager answer through the `World`. -/
structure ReconcileCCS where
  openshift : Bool
  clusterDomain : String
  licenseAPIReady : Bool
  tierWatchReady : Bool
  multiTenant : Bool
  externalElastic : Bool
  consts : Constants

/-- What every collaborator answers during one invocation.  A Go function
returning `(value, error)` answers with a pair; a pointer is an `Option`. -/
structure World where
  installNamespace : Bool → String → String → String
  truthNamespace : Bool → String → String → String
  getTenant : Bool → String → Option Tenant × Option GoError
  clientGetCCS : ObjectKey → Except GoError ComplianceConfigurationSecurity
  clientGetTigeraStatus : String → Option GoError
  statusUpdate : Nat → ComplianceConfigurationSecurity → Option GoError
  isAPIServerReady : Bool
  clientGetTier : String → Option GoError
  fetchLicenseKey : LicenseKey × Option GoError
  getInstallation : String × InstallationSpec × Option GoError
  getNetworkingPullSecrets : InstallationSpec → List String × Option GoError
  getManagementCluster : Option ManagementCluster × Option GoError
  getManagementClusterConnection : Option ManagementClusterConnection × Option GoError
  certificateManagerCreate : InstallationSpec → String → String → Option GoError
  getCertificate : String → String → Option Certificate × Option GoError
  createTrustedBundle : Option Certificate → Certificate → TrustedBundle
  loadMultiTenantTrustedBundle : String → TrustedBundle × Option GoError
  getServiceDNSNames : String → String → String → List String
  getOrCreateKeyPair : String → String → List String → KeyPair × Option GoError
  getAuthentication : Option Authentication × Option GoError
  tenantNamespaces : List String × Option GoError
  getKeyValidatorConfig :
    Option Authentication → String → Option KeyValidatorConfig × Option GoError
  isFeatureActive : LicenseKey → String → Bool
  applyImageSet : String → Component → Option GoError
  createOrUpdateOrDelete : Component → Option GoError
  isAvailable : Bool

deriving instance DecidableEq for Except

/-- What one invocation returns and does. -/
structure Outcome where
  result : Result
  err : Option GoError
  trace : List Event
deriving DecidableEq, Repr

/-- The constant `ResourceName`. -/
def ResourceName : String := "complianceconfigurationsecurity"

/-- The effect of `defer r.status.SetMetaData(&instance.ObjectMeta)`: the call
runs when the function returns, after everything else on the path. -/
def deferSetMetaData (om : ObjectMeta) (o : Outcome) : Outcome :=
  { o with trace := o.trace ++ [Event.SetMetaData om] }

/-! ## `GetCCS` -/

/-- The key of lines 188-191: named `tigera-secure`, namespaced only in
multi-tenant mode. -/
def ccsKey (mt : Bool) (ns : String) : ObjectKey :=
  { Name := "tigera-secure", Namespace := if mt then ns else "" }

/-- The function `GetCCS`: it returns `(nil, err)` when the client fails and
`(instance, nil)` otherwise, so its two results are one `Except` value. -/
def GetCCS (w : World) (mt : Bool) (ns : String) :
    Except GoError ComplianceConfigurationSecurity :=
  let key : ObjectKey := ccsKey mt ns
  match w.clientGetCCS key with
  | Except.error err => Except.error err
  | Except.ok inst => Except.ok inst

/-! ## `Reconcile`, last part first

The body of `Reconcile` is cut at the points where a conditional block rejoins
the main path; each part ends by calling the next one.  `tr` is the trace so
far, `updates` the number of status updates already issued (the argument of
the `World.statusUpdate` answer), and `err` the current value of the
function-level variable `err` where the code reads it before assigning it.
-/

/-- The loop of lines 458-463 over the components: it stops at the first
component whose `CreateOrUpdateOrDelete` fails and yields that error. -/
def applyComponents (w : World) : List Component → List Event → Option GoError × List Event
  | [], tr => (none, tr)
  | c :: cs, tr =>
    match w.createOrUpdateOrDelete c with
    | some err => (some err, tr ++ [Event.CreateOrUpdateOrDelete c])
    | none => applyComponents w cs (tr ++ [Event.CreateOrUpdateOrDelete c])

/-- Lines 457-486: the apply loop over `components`, the license gate, the
availability check and the final status update. -/
def reconcileApply (r : ReconcileCCS) (w : World)
    (inst : ComplianceConfigurationSecurity) (updates : Nat) (hasNoLicense : Bool)
    (components : List Component) (tr : List Event) : Outcome :=
  let applied := applyComponents w components tr
  if applied.1 ≠ none then
    { result := Result.empty, err := applied.1,
      trace := applied.2 ++ [Event.SetDegraded TigeraStatusReason.ResourceUpdateError
        "Error creating / updating / deleting resource" applied.1] }
  else
  let tr := applied.2
  if hasNoLicense then
    { result := Result.empty, err := none,
      trace := tr ++ [Event.SetDegraded TigeraStatusReason.ResourceValidationError
        "Feature is not active - License does not support this feature" none] }
  else
  let tr := tr ++ [Event.ClearDegraded]
  let tr := tr ++ [Event.IsAvailable]
  if !w.isAvailable then
    { result := { Requeue := false, RequeueAfter := r.consts.StandardRetry }, err := none,
      trace := tr }
  else
  let inst : ComplianceConfigurationSecurity :=
    { inst with Status := { State := r.consts.TigeraStatusReady } }
  let tr := tr ++ [Event.StatusUpdate inst]
  let err := w.statusUpdate updates inst
  if err ≠ none then
    { result := Result.empty, err := err, trace := tr }
  else
    { result := Result.empty, err := none, trace := tr }

/-- Lines 404-455: the binding namespaces, the key validator configuration,
the rendering of the three components and the image set. -/
def reconcileRender (r : ReconcileCCS) (w : World) (request : Request)
    (tenant : Option Tenant) (inst : ComplianceConfigurationSecurity) (updates : Nat)
    (license : LicenseKey) (variant : String) (network : InstallationSpec)
    (pullSecrets : List String) (managementCluster : Option ManagementCluster)
    (managementClusterConnection : Option ManagementClusterConnection)
    (trustedBundle : TrustedBundle) (bundleMaker : Option TrustedBundle)
    (apiKeyPair : KeyPair) (authenticationCR : Option Authentication)
    (tr : List Event) : Outcome :=
  let installNS := w.installNamespace r.multiTenant r.consts.CCSNamespace request.Namespace
  let truthNS := w.truthNamespace r.multiTenant r.consts.CCSNamespace request.Namespace
  let tr := tr ++ [Event.TenantNamespaces]
  let bindNamespaces := w.tenantNamespaces.1
  let err := w.tenantNamespaces.2
  if err ≠ none then
    { result := Result.empty, err := err, trace := tr }
  else
  let tr := tr ++ [Event.GetKeyValidatorConfig]
  let keyValidatorConfig := (w.getKeyValidatorConfig authenticationCR r.clusterDomain).1
  let err := (w.getKeyValidatorConfig authenticationCR r.clusterDomain).2
  if err ≠ none then
    { result := Result.empty, err := err,
      trace := tr ++ [Event.SetDegraded TigeraStatusReason.ResourceValidationError
        "Failed to process the authentication CR." err] }
  else
  let namespaceComp := Component.namespaceComp installNS network.KubernetesProvider
  let hasNoLicense := !w.isFeatureActive license r.consts.ComplianceFeature
  let cfg : Config :=
    { TrustedBundle := trustedBundle,
      Installation := network,
      APIKeyPair := apiKeyPair,
      PullSecrets := pullSecrets,
      OpenShift := r.openshift,
      ManagementCluster := managementCluster,
      ManagementClusterConnection := managementClusterConnection,
      KeyValidatorConfig := keyValidatorConfig,
      ClusterDomain := r.clusterDomain,
      HasNoLicense := hasNoLicense,
      Namespace := installNS,
      BindingNamespaces := bindNamespaces,
      Tenant := tenant,
      ComplianceConfigurationSecurity := inst,
      ExternalElastic := r.externalElastic }
  let ccsComponent := Component.ccsComponent cfg
  let tr := tr ++ [Event.ApplyImageSet]
  let err := w.applyImageSet variant ccsComponent
  if err ≠ none then
    { result := Result.empty, err := err,
      trace := tr ++ [Event.SetDegraded TigeraStatusReason.ResourceUpdateError
        "Error with images from ImageSet" err] }
  else
  let certificateComponent := Component.certificateComponent
    { Namespace := installNS,
      TruthNamespace := truthNS,
      ServiceAccounts := [r.consts.APIResourceName],
      KeyPairOptions := [apiKeyPair],
      TrustedBundle := bundleMaker }
  reconcileApply r w inst updates hasNoLicense
    [namespaceComp, certificateComponent, ccsComponent] tr

/-- Lines 378-402: the API key pair and the Authentication resource. -/
def reconcileKeyPairAuth (r : ReconcileCCS) (w : World) (request : Request)
    (tenant : Option Tenant) (inst : ComplianceConfigurationSecurity) (updates : Nat)
    (license : LicenseKey) (variant : String) (network : InstallationSpec)
    (pullSecrets : List String) (managementCluster : Option ManagementCluster)
    (managementClusterConnection : Option ManagementClusterConnection)
    (trustedBundle : TrustedBundle) (bundleMaker : Option TrustedBundle)
    (tr : List Event) : Outcome :=
  let installNS := w.installNamespace r.multiTenant r.consts.CCSNamespace request.Namespace
  let truthNS := w.truthNamespace r.multiTenant r.consts.CCSNamespace request.Namespace
  let dnsNames := w.getServiceDNSNames r.consts.APIResourceName installNS r.clusterDomain
  let tr := tr ++ [Event.GetOrCreateKeyPair r.consts.APICertSecretName truthNS]
  let apiKeyPair := (w.getOrCreateKeyPair r.consts.APICertSecretName truthNS dnsNames).1
  let err := (w.getOrCreateKeyPair r.consts.APICertSecretName truthNS dnsNames).2
  if err ≠ none then
    { result := Result.empty, err := err,
      trace := tr ++ [Event.SetDegraded TigeraStatusReason.ResourceValidationError
        ("failed to retrieve / validate  " ++ r.consts.APICertSecretName) err] }
  else
  let tr := tr ++ [Event.AddToStatusManager installNS]
  let tr := tr ++ [Event.GetAuthentication]
  let authenticationCR := w.getAuthentication.1
  let err := w.getAuthentication.2
  if err ≠ none ∧ IsNotFound err = false then
    { result := Result.empty, err := err,
      trace := tr ++ [Event.SetDegraded TigeraStatusReason.ResourceReadError
        "Error querying Authentication" err] }
  else
  match authenticationCR with
  | some auth =>
    if auth.Status.State ≠ r.consts.TigeraStatusReady then
      { result := Result.empty, err := none,
        trace := tr ++ [Event.SetDegraded TigeraStatusReason.ResourceNotReady
          ("Authentication is not ready - authenticationCR status: " ++ auth.Status.State)
          none] }
    else
      reconcileRender r w request tenant inst updates license variant network pullSecrets
        managementCluster managementClusterConnection trustedBundle bundleMaker apiKeyPair
        (some auth) tr
  | none =>
    reconcileRender r w request tenant inst updates license variant network pullSecrets
      managementCluster managementClusterConnection trustedBundle bundleMaker apiKeyPair
      none tr

/-- Lines 348-376: the Linseed certificate and the trusted bundle. -/
def reconcileLinseed (r : ReconcileCCS) (w : World) (request : Request)
    (tenant : Option Tenant) (inst : ComplianceConfigurationSecurity) (updates : Nat)
    (license : LicenseKey) (variant : String) (network : InstallationSpec)
    (pullSecrets : List String) (managementCluster : Option ManagementCluster)
    (managementClusterConnection : Option ManagementClusterConnection)
    (managerInternalTLSSecret : Option Certificate) (tr : List Event) : Outcome :=
  let installNS := w.installNamespace r.multiTenant r.consts.CCSNamespace request.Namespace
  let truthNS := w.truthNamespace r.multiTenant r.consts.CCSNamespace request.Namespace
  let linseedCertLocation :=
    if managementClusterConnection ≠ none then r.consts.VoltronLinseedPublicCert
    else r.consts.TigeraLinseedSecret
  let tr := tr ++ [Event.GetCertificate linseedCertLocation truthNS]
  let err := (w.getCertificate linseedCertLocation truthNS).2
  if err ≠ none then
    { result := Result.empty, err := err,
      trace := tr ++ [Event.SetDegraded TigeraStatusReason.ResourceValidationError
        ("Failed to retrieve / validate  " ++ r.consts.TigeraLinseedSecret) err] }
  else
  match (w.getCertificate linseedCertLocation truthNS).1 with
  | none =>
    { result := Result.empty, err := none,
      trace := tr ++ [Event.SetDegraded TigeraStatusReason.ResourceNotReady
        "Linseed certificate is not available yet, waiting until it becomes available" none] }
  | some linseedCertificate =>
    let tr := tr ++ [Event.CreateTrustedBundle]
    let bundleMaker := w.createTrustedBundle managerInternalTLSSecret linseedCertificate
    if r.multiTenant then
      let tr := tr ++ [Event.LoadMultiTenantTrustedBundle installNS]
      let trustedBundle := (w.loadMultiTenantTrustedBundle installNS).1
      let err := (w.loadMultiTenantTrustedBundle installNS).2
      if err ≠ none then
        { result := Result.empty, err := err,
          trace := tr ++ [Event.SetDegraded TigeraStatusReason.ResourceReadError
            "Error getting trusted bundle" err] }
      else
        reconcileKeyPairAuth r w request tenant inst updates license variant network
          pullSecrets managementCluster managementClusterConnection trustedBundle none tr
    else
      reconcileKeyPairAuth r w request tenant inst updates license variant network
        pullSecrets managementCluster managementClusterConnection bundleMaker
        (some bundleMaker) tr

/-- Lines 332-346: the certificate manager and, on a management cluster, the
manager's internal TLS secret. -/
def reconcileCertificates (r : ReconcileCCS) (w : World) (request : Request)
    (tenant : Option Tenant) (inst : ComplianceConfigurationSecurity) (updates : Nat)
    (license : LicenseKey) (variant : String) (network : InstallationSpec)
    (pullSecrets : List String) (managementCluster : Option ManagementCluster)
    (managementClusterConnection : Option ManagementClusterConnection)
    (tr : List Event) : Outcome :=
  let truthNS := w.truthNamespace r.multiTenant r.consts.CCSNamespace request.Namespace
  let tr := tr ++ [Event.CertificateManagerCreate truthNS]
  let err := w.certificateManagerCreate network r.clusterDomain truthNS
  if err ≠ none then
    { result := Result.empty, err := err,
      trace := tr ++ [Event.SetDegraded TigeraStatusReason.ResourceCreateError
        "Unable to create the Tigera CA" err] }
  else
  if managementCluster ≠ none then
    let tr := tr ++ [Event.GetCertificate r.consts.ManagerInternalTLSSecretName truthNS]
    let managerInternalTLSSecret :=
      (w.getCertificate r.consts.ManagerInternalTLSSecretName truthNS).1
    let err := (w.getCertificate r.consts.ManagerInternalTLSSecretName truthNS).2
    if err ≠ none then
      { result := Result.empty, err := err,
        trace := tr ++ [Event.SetDegraded TigeraStatusReason.ResourceValidationError
          ("failed to retrieve / validate  " ++ r.consts.ManagerInternalTLSSecretName) err] }
    else
      reconcileLinseed r w request tenant inst updates license variant network pullSecrets
        managementCluster managementClusterConnection managerInternalTLSSecret tr
  else
    reconcileLinseed r w request tenant inst updates license variant network pullSecrets
      managementCluster managementClusterConnection none tr

/-- Lines 259-330: the API server, the tier, the license, the installation,
the pull secrets and the management-cluster topology.  `err` is the value of
the variable `err` on entry (read at lines 261 and 266). -/
def reconcileGate (r : ReconcileCCS) (w : World) (request : Request)
    (tenant : Option Tenant) (inst : ComplianceConfigurationSecurity) (updates : Nat)
    (err : Option GoError) (tr : List Event) : Outcome :=
  let tr := tr ++ [Event.IsAPIServerReady]
  if !w.isAPIServerReady then
    { result := Result.empty, err := err,
      trace := tr ++ [Event.SetDegraded TigeraStatusReason.ResourceNotReady
        "Waiting for Tigera API server to be ready" none] }
  else
  let tr := tr ++ [Event.TierWatchIsReady]
  if !r.tierWatchReady then
    { result := { Requeue := false, RequeueAfter := r.consts.StandardRetry }, err := none,
      trace := tr ++ [Event.SetDegraded TigeraStatusReason.ResourceNotReady
        "Waiting for Tier watch to be established" err] }
  else
  let tr := tr ++ [Event.ClientGetTier r.consts.TigeraComponentTierName]
  let tierErr := w.clientGetTier r.consts.TigeraComponentTierName
  if tierErr ≠ none then
    if IsNotFound tierErr then
      { result := { Requeue := false, RequeueAfter := r.consts.StandardRetry }, err := none,
        trace := tr ++ [Event.SetDegraded TigeraStatusReason.ResourceNotReady
          ("Waiting for allow-tigera tier to be created, see the \x27tiers\x27 " ++
            "TigeraStatus for more information") tierErr] }
    else
      { result := Result.empty, err := tierErr,
        trace := tr ++ [Event.SetDegraded TigeraStatusReason.ResourceReadError
          "Error querying allow-tigera tier" tierErr] }
  else
  let tr := tr ++ [Event.LicenseAPIIsReady]
  if !r.licenseAPIReady then
    { result := { Requeue := false, RequeueAfter := r.consts.StandardRetry }, err := none,
      trace := tr ++ [Event.SetDegraded TigeraStatusReason.ResourceNotReady
        "Waiting for LicenseKeyAPI to be ready" none] }
  else
  let tr := tr ++ [Event.FetchLicenseKey]
  let license := w.fetchLicenseKey.1
  let err := w.fetchLicenseKey.2
  if err ≠ none then
    if IsNotFound err then
      { result := { Requeue := false, RequeueAfter := r.consts.StandardRetry }, err := none,
        trace := tr ++ [Event.SetDegraded TigeraStatusReason.ResourceNotFound
          "License not found" err] }
    else
      { result := { Requeue := false, RequeueAfter := r.consts.StandardRetry }, err := none,
        trace := tr ++ [Event.SetDegraded TigeraStatusReason.ResourceReadError
          "Error querying license" err] }
  else
  let tr := tr ++ [Event.GetInstallation]
  let variant := w.getInstallation.1
  let network := w.getInstallation.2.1
  let err := w.getInstallation.2.2
  if err ≠ none then
    if IsNotFound err then
      { result := Result.empty, err := err,
        trace := tr ++ [Event.SetDegraded TigeraStatusReason.ResourceNotFound
          "Installation not found" err] }
    else
      { result := Result.empty, err := err,
        trace := tr ++ [Event.SetDegraded TigeraStatusReason.ResourceReadError
          "Error querying installation" err] }
  else
  let tr := tr ++ [Event.GetNetworkingPullSecrets]
  let pullSecrets := (w.getNetworkingPullSecrets network).1
  let err := (w.getNetworkingPullSecrets network).2
  if err ≠ none then
    { result := Result.empty, err := err,
      trace := tr ++ [Event.SetDegraded TigeraStatusReason.ResourceReadError
        "Failed to retrieve pull secrets" err] }
  else
  let tr := tr ++ [Event.GetManagementCluster]
  let managementCluster := w.getManagementCluster.1
  let err := w.getManagementCluster.2
  if err ≠ none then
    { result := Result.empty, err := err,
      trace := tr ++ [Event.SetDegraded TigeraStatusReason.ResourceReadError
        "Error reading ManagementCluster" err] }
  else
  let tr := tr ++ [Event.GetManagementClusterConnection]
  let managementClusterConnection := w.getManagementClusterConnection.1
  let err := w.getManagementClusterConnection.2
  if err ≠ none then
    { result := Result.empty, err := err,
      trace := tr ++ [Event.SetDegraded TigeraStatusReason.ResourceReadError
        "Error reading ManagementClusterConnection" err] }
  else
  if managementClusterConnection ≠ none ∧ managementCluster ≠ none then
    let err : Option GoError := some
      { msg := "having both a ManagementCluster and a ManagementClusterConnection " ++
          "is not supported",
        notFound := false }
    { result := Result.empty, err := err,
      trace := tr ++ [Event.SetDegraded TigeraStatusReason.ResourceValidationError "" err] }
  else
    reconcileCertificates r w request tenant inst updates license variant network pullSecrets
      managementCluster managementClusterConnection tr

/-- Lines 245-257: for the request named `ResourceName` without a namespace,
the TigeraStatus is read and the instance status is written before the gate.
The `err` of this block shadows the function-level one. -/
def reconcileStatusConditions (r : ReconcileCCS) (w : World) (request : Request)
    (tenant : Option Tenant) (inst : ComplianceConfigurationSecurity)
    (err : Option GoError) (tr : List Event) : Outcome :=
  if request.Name = ResourceName ∧ request.Namespace = "" then
    let tr := tr ++ [Event.ClientGetTigeraStatus ResourceName]
    let blockErr := w.clientGetTigeraStatus ResourceName
    if blockErr ≠ none then
      { result := Result.empty, err := blockErr, trace := tr }
    else
    let tr := tr ++ [Event.StatusUpdate inst]
    let updateErr := w.statusUpdate 0 inst
    if updateErr ≠ none then
      { result := Result.empty, err := updateErr, trace := tr }
    else
      reconcileGate r w request tenant inst 1 err tr
  else
    reconcileGate r w request tenant inst 0 err tr

/-- The method `ReconcileCCS.Reconcile` (lines 205-486). -/
def Reconcile (r : ReconcileCCS) (w : World) (request : Request) : Outcome :=
  if r.multiTenant ∧ request.Namespace = "" then
    { result := Result.empty, err := none, trace := [] }
  else
  let tr := [Event.GetTenant request.Namespace]
  let tenant := (w.getTenant r.multiTenant request.Namespace).1
  let err := (w.getTenant r.multiTenant request.Namespace).2
  if IsNotFound err then
    { result := Result.empty, err := none, trace := tr }
  else if err ≠ none then
    { result := Result.empty, err := err,
      trace := tr ++ [Event.SetDegraded TigeraStatusReason.ResourceReadError
        "An error occurred while querying Tenant" err] }
  else
  let tr := tr ++ [Event.ClientGetCCS (ccsKey r.multiTenant request.Namespace)]
  match GetCCS w r.multiTenant request.Namespace with
  | Except.error e =>
    if IsNotFound (some e) then
      { result := Result.empty, err := none, trace := tr ++ [Event.OnCRNotFound] }
    else
      { result := Result.empty, err := some e,
        trace := tr ++ [Event.SetDegraded TigeraStatusReason.ResourceReadError
          "Error querying ccs" (some e)] }
  | Except.ok inst =>
    let tr := tr ++ [Event.OnCRFound]
    deferSetMetaData inst.ObjectMeta
      (reconcileStatusConditions r w request tenant inst none tr)

/-! ## Observations on an outcome -/

/-- The `(reason, message)` of every `SetDegraded` call of a trace, in order. -/
def degradedCalls : List Event → List (TigeraStatusReason × String)
  | [] => []
  | Event.SetDegraded reason msg _ :: es => (reason, msg) :: degradedCalls es
  | _ :: es => degradedCalls es

/-- The components handed to `CreateOrUpdateOrDelete` in a trace, in order. -/
def appliedComponents : List Event → List Component
  | [] => []
  | Event.CreateOrUpdateOrDelete c :: es => c :: appliedComponents es
  | _ :: es => appliedComponents es

/-- The instances written through `client.Status().Update` in a trace. -/
def statusUpdates : List Event → List ComplianceConfigurationSecurity
  | [] => []
  | Event.StatusUpdate inst :: es => inst :: statusUpdates es
  | _ :: es => statusUpdates es

/-- Whether the event is a call on the status manager. -/
def Event.isStatusManagerCall : Event → Bool
  | Event.OnCRFound => true
  | Event.OnCRNotFound => true
  | Event.SetMetaData _ => true
  | Event.SetDegraded _ _ _ => true
  | Event.ClearDegraded => true
  | Event.IsAvailable => true
  | Event.AddToStatusManager _ => true
  | _ => false

/-! ## A concrete cluster

A single-tenant cluster in which every dependency is present and ready; the
other concrete worlds below change one or two answers of it. -/

/-- Concrete values for the constants of the other packages. -/
def sampleConstants : Constants :=
  { StandardRetry := 30000000000,
    TigeraStatusReady := "Ready",
    ComplianceFeature := "compliance-reports",
    CCSNamespace := "tigera-compliance",
    TigeraComponentTierName := "allow-tigera",
    ManagerInternalTLSSecretName := "internal-manager-tls",
    TigeraLinseedSecret := "tigera-secure-linseed-cert",
    VoltronLinseedPublicCert := "tigera-voltron-linseed-certs-public",
    APICertSecretName := "tigera-ccs-api-tls",
    APIResourceName := "tigera-ccs-api" }

/-- A single-tenant reconciler whose two watches are established. -/
def readyReconciler : ReconcileCCS :=
  { openshift := false,
    clusterDomain := "cluster.local",
    licenseAPIReady := true,
    tierWatchReady := true,
    multiTenant := false,
    externalElastic := false,
    consts := sampleConstants }

/-- The instance stored in the concrete cluster. -/
def sampleInstance : ComplianceConfigurationSecurity :=
  { ObjectMeta := { Name := "tigera-secure", Namespace := "", Generation := 1 },
    Status := { State := "" } }

/-- An error that is not a NotFound. -/
def boom : GoError := { msg := "connection refused", notFound := false }

/-- A NotFound error. -/
def missing : GoError := { msg := "not found", notFound := true }

/-- A cluster in which every dependency is present and ready and the license
carries the compliance feature. -/
def readyWorld : World :=
  { installNamespace := fun _ single _ => single,
    truthNamespace := fun _ _ _ => "tigera-operator",
    getTenant := fun _ _ => (none, none),
    clientGetCCS := fun _ => Except.ok sampleInstance,
    clientGetTigeraStatus := fun _ => none,
    statusUpdate := fun _ _ => none,
    isAPIServerReady := true,
    clientGetTier := fun _ => none,
    fetchLicenseKey := ({ Features := ["compliance-reports"] }, none),
    getInstallation := ("TigeraSecureEnterprise", { KubernetesProvider := "" }, none),
    getNetworkingPullSecrets := fun _ => ([], none),
    getManagementCluster := (none, none),
    getManagementClusterConnection := (none, none),
    certificateManagerCreate := fun _ _ _ => none,
    getCertificate := fun name _ => (some { SecretName := name }, none),
    createTrustedBundle := fun m l =>
      { Certificates := (match m with | some c => [c] | none => []) ++ [l] },
    loadMultiTenantTrustedBundle := fun _ => ({ Certificates := [] }, none),
    getServiceDNSNames := fun svc ns dom =>
      [svc, svc ++ "." ++ ns, svc ++ "." ++ ns ++ ".svc." ++ dom],
    getOrCreateKeyPair := fun name _ dns => ({ SecretName := name, DNSNames := dns }, none),
    getAuthentication := (none, some missing),
    tenantNamespaces := (["tigera-compliance"], none),
    getKeyValidatorConfig := fun _ _ => (none, none),
    isFeatureActive := fun l f => decide (f ∈ l.Features),
    applyImageSet := fun _ _ => none,
    createOrUpdateOrDelete := fun _ => none,
    isAvailable := true }

/-- A request for the default instance. -/
def sampleRequest : Request := { Name := "tigera-secure", Namespace := "" }

/-- The ready cluster with both a ManagementCluster and a
ManagementClusterConnection, and an API server that is not ready. -/
def conflictNotReadyWorld : World :=
  { readyWorld with
    getManagementCluster := (some { Address := "mgmt:9449" }, none),
    getManagementClusterConnection := (some { ManagementClusterAddr := "mgmt:9449" }, none),
    isAPIServerReady := false }

/-! ## How far an invocation gets

Each predicate says, in terms of the answers of the collaborators, that the
invocation passes every check before a given line of `Reconcile`. -/

/-- The request passes the tenant checks of lines 210-223: it is not a
multi-tenant request without a namespace, and the tenant lookup succeeds. -/
def passesTenantChecks (r : ReconcileCCS) (w : World) (request : Request) : Prop :=
  ¬ (r.multiTenant = true ∧ request.Namespace = "") ∧
  (w.getTenant r.multiTenant request.Namespace).2 = none

/-- The calls made before the API-server check when the instance `inst` is
found: the status-conditions block runs only for the request named
`ResourceName` without a namespace. -/
def gateEntryTrace (r : ReconcileCCS) (request : Request)
    (inst : ComplianceConfigurationSecurity) : List Event :=
  [Event.GetTenant request.Namespace,
   Event.ClientGetCCS (ccsKey r.multiTenant request.Namespace),
   Event.OnCRFound] ++
  (if request.Name = ResourceName ∧ request.Namespace = "" then
    [Event.ClientGetTigeraStatus ResourceName, Event.StatusUpdate inst]
  else [])

/-- The number of status updates issued before the API-server check. -/
def gateEntryUpdates (request : Request) : Nat :=
  if request.Name = ResourceName ∧ request.Namespace = "" then 1 else 0

/-- The invocation reaches line 259: the tenant checks pass, the instance is
fetched and, for the request named `ResourceName` without a namespace, the
TigeraStatus read and the status update both succeed. -/
def reachesAPIServerCheck (r : ReconcileCCS) (w : World) (request : Request)
    (inst : ComplianceConfigurationSecurity) : Prop :=
  passesTenantChecks r w request ∧
  GetCCS w r.multiTenant request.Namespace = Except.ok inst ∧
  (request.Name = ResourceName ∧ request.Namespace = "" →
    w.clientGetTigeraStatus ResourceName = none ∧ w.statusUpdate 0 inst = none)

/-- The invocation reaches line 265, the tier-watch check. -/
def reachesTierWatchCheck (r : ReconcileCCS) (w : World) (request : Request)
    (inst : ComplianceConfigurationSecurity) : Prop :=
  reachesAPIServerCheck r w request inst ∧ w.isAPIServerReady = true

/-- The invocation reaches line 287, the license fetch: it has passed the
checks up to and including the license-watch flag. -/
def reachesLicenseFetch (r : ReconcileCCS) (w : World) (request : Request)
    (inst : ComplianceConfigurationSecurity) : Prop :=
  reachesTierWatchCheck r w request inst ∧ r.tierWatchReady = true ∧
  w.clientGetTier r.consts.TigeraComponentTierName = none ∧ r.licenseAPIReady = true

/-- The invocation reaches line 298, the installation query. -/
def reachesInstallationQuery (r : ReconcileCCS) (w : World) (request : Request)
    (inst : ComplianceConfigurationSecurity) : Prop :=
  reachesLicenseFetch r w request inst ∧ w.fetchLicenseKey.2 = none

/-- The invocation reaches line 326, the topology check: the installation, the
pull secrets, the ManagementCluster and the ManagementClusterConnection were
all read without error. -/
def reachesTopologyCheck (r : ReconcileCCS) (w : World) (request : Request)
    (inst : ComplianceConfigurationSecurity) : Prop :=
  reachesInstallationQuery r w request inst ∧ w.getInstallation.2.2 = none ∧
  (w.getNetworkingPullSecrets w.getInstallation.2.1).2 = none ∧
  w.getManagementCluster.2 = none ∧ w.getManagementClusterConnection.2 = none

/-- The calls made from the API-server check to the topology check when all
of them succeed. -/
def gateTrace (r : ReconcileCCS) : List Event :=
  [Event.IsAPIServerReady, Event.TierWatchIsReady,
   Event.ClientGetTier r.consts.TigeraComponentTierName, Event.LicenseAPIIsReady,
   Event.FetchLicenseKey, Event.GetInstallation, Event.GetNetworkingPullSecrets,
   Event.GetManagementCluster, Event.GetManagementClusterConnection]

/-- The error built at line 327. -/
def topologyConflict : GoError :=
  { msg := "having both a ManagementCluster and a ManagementClusterConnection " ++
      "is not supported",
    notFound := false }

/-! ## Further concrete reconcilers, requests and clusters -/

/-- A multi-tenant reconciler whose two watches are established. -/
def multiTenantReconciler : ReconcileCCS :=
  { readyReconciler with multiTenant := true }

/-- A reconciler at cold start: neither watch is established yet. -/
def coldStartReconciler : ReconcileCCS :=
  { readyReconciler with tierWatchReady := false, licenseAPIReady := false }

/-- A request in the namespace of a tenant. -/
def tenantRequest : Request := { Name := "tigera-secure", Namespace := "tenant-a" }

/-- The request named `ResourceName` without a namespace, which the
TigeraStatus watch enqueues. -/
def statusRequest : Request := { Name := ResourceName, Namespace := "" }

/-- The ready cluster without a Tenant in the namespace of the request. -/
def tenantMissingWorld : World :=
  { readyWorld with getTenant := fun _ _ => (none, some missing) }

/-- The ready cluster without the ComplianceConfigurationSecurity instance. -/
def instanceMissingWorld : World :=
  { readyWorld with clientGetCCS := fun _ => Except.error missing }

/-- The ready cluster with an API server that is not ready. -/
def apiServerNotReadyWorld : World :=
  { readyWorld with isAPIServerReady := false }

/-- The ready cluster without a license. -/
def licenseMissingWorld : World :=
  { readyWorld with fetchLicenseKey := ({ Features := [] }, some missing) }

/-- The ready cluster without an Installation. -/
def installationMissingWorld : World :=
  { readyWorld with getInstallation := ("", { KubernetesProvider := "" }, some missing) }

/-- The ready cluster with both a ManagementCluster and a
ManagementClusterConnection. -/
def conflictWorld : World :=
  { readyWorld with
    getManagementCluster := (some { Address := "mgmt:9449" }, none),
    getManagementClusterConnection := (some { ManagementClusterAddr := "mgmt:9449" }, none) }

/-! ## The values in scope past the topology check

Each definition names the value a local variable of `Reconcile` holds on the
path that reaches its use, as a function of the answers of the collaborators. -/

/-- The value of `helper.InstallNamespace()`. -/
def installNS (r : ReconcileCCS) (w : World) (request : Request) : String :=
  w.installNamespace r.multiTenant r.consts.CCSNamespace request.Namespace

/-- The value of `helper.TruthNamespace()`. -/
def truthNS (r : ReconcileCCS) (w : World) (request : Request) : String :=
  w.truthNamespace r.multiTenant r.consts.CCSNamespace request.Namespace

/-- The variable `managerInternalTLSSecret` at line 356: it is fetched only on
a management cluster and is nil otherwise. -/
def managerInternalTLSSecretOf (r : ReconcileCCS) (w : World) (request : Request) :
    Option Certificate :=
  if w.getManagementCluster.1 ≠ none then
    (w.getCertificate r.consts.ManagerInternalTLSSecretName (truthNS r w request)).1
  else none

/-- The variable `linseedCertLocation` at line 356. -/
def linseedCertLocationOf (r : ReconcileCCS) (w : World) : String :=
  if w.getManagementClusterConnection.1 ≠ none then r.consts.VoltronLinseedPublicCert
  else r.consts.TigeraLinseedSecret

/-- The answer of the Linseed certificate lookup of line 356. -/
def linseedLookup (r : ReconcileCCS) (w : World) (request : Request) :
    Option Certificate × Option GoError :=
  w.getCertificate (linseedCertLocationOf r w) (truthNS r w request)

/-- The calls made between the topology check and the Linseed lookup. -/
def certificateTrace (r : ReconcileCCS) (w : World) (request : Request) : List Event :=
  [Event.CertificateManagerCreate (truthNS r w request)] ++
  (if w.getManagementCluster.1 ≠ none then
    [Event.GetCertificate r.consts.ManagerInternalTLSSecretName (truthNS r w request)]
  else [])

/-- The invocation reaches line 356, the Linseed certificate lookup: the
topology check passes, the certificate manager is created and, on a management
cluster, the manager's internal TLS secret is read without error. -/
def reachesCertificateStep (r : ReconcileCCS) (w : World) (request : Request)
    (inst : ComplianceConfigurationSecurity) : Prop :=
  reachesTopologyCheck r w request inst ∧
  ¬ (w.getManagementClusterConnection.1 ≠ none ∧ w.getManagementCluster.1 ≠ none) ∧
  w.certificateManagerCreate w.getInstallation.2.1 r.clusterDomain (truthNS r w request) =
    none ∧
  (w.getManagementCluster.1 ≠ none →
    (w.getCertificate r.consts.ManagerInternalTLSSecretName (truthNS r w request)).2 = none)

/-- The variable `trustedBundle` at line 424, given the Linseed certificate. -/
def trustedBundleOf (r : ReconcileCCS) (w : World) (request : Request)
    (linseed : Certificate) : TrustedBundle :=
  if r.multiTenant then (w.loadMultiTenantTrustedBundle (installNS r w request)).1
  else w.createTrustedBundle (managerInternalTLSSecretOf r w request) linseed

/-- The variable `bundleMaker` at line 454: nil in multi-tenant mode. -/
def bundleMakerOf (r : ReconcileCCS) (w : World) (request : Request)
    (linseed : Certificate) : Option TrustedBundle :=
  if r.multiTenant then none
  else some (w.createTrustedBundle (managerInternalTLSSecretOf r w request) linseed)

/-- The answer of `GetOrCreateKeyPair` at line 382. -/
def keyPairLookup (r : ReconcileCCS) (w : World) (request : Request) :
    KeyPair × Option GoError :=
  w.getOrCreateKeyPair r.consts.APICertSecretName (truthNS r w request)
    (w.getServiceDNSNames r.consts.APIResourceName (installNS r w request) r.clusterDomain)

/-- The calls made from the Linseed lookup to the Authentication read when
the certificate is found and the bundle and the key pair are obtained. -/
def authenticationTrace (r : ReconcileCCS) (w : World) (request : Request) : List Event :=
  [Event.GetCertificate (linseedCertLocationOf r w) (truthNS r w request),
   Event.CreateTrustedBundle] ++
  (if r.multiTenant then [Event.LoadMultiTenantTrustedBundle (installNS r w request)]
   else []) ++
  [Event.GetOrCreateKeyPair r.consts.APICertSecretName (truthNS r w request),
   Event.AddToStatusManager (installNS r w request),
   Event.GetAuthentication]

/-- The invocation reaches line 394, the Authentication read: the Linseed
certificate `linseed` is found, the multi-tenant bundle is loaded when it is
needed, and the key pair is obtained. -/
def reachesAuthenticationRead (r : ReconcileCCS) (w : World) (request : Request)
    (inst : ComplianceConfigurationSecurity) (linseed : Certificate) : Prop :=
  reachesCertificateStep r w request inst ∧
  linseedLookup r w request = (some linseed, none) ∧
  (r.multiTenant = true → (w.loadMultiTenantTrustedBundle (installNS r w request)).2 = none) ∧
  (keyPairLookup r w request).2 = none

/-- The invocation reaches line 399, the check of the Authentication state:
the Authentication read does not fail with an error other than NotFound. -/
def reachesAuthenticationCheck (r : ReconcileCCS) (w : World) (request : Request)
    (inst : ComplianceConfigurationSecurity) (linseed : Certificate) : Prop :=
  reachesAuthenticationRead r w request inst linseed ∧
  ¬ (w.getAuthentication.2 ≠ none ∧ IsNotFound w.getAuthentication.2 = false)

/-- The whole trace up to and including the Authentication read. -/
def renderEntryTrace (r : ReconcileCCS) (w : World) (request : Request)
    (inst : ComplianceConfigurationSecurity) : List Event :=
  gateEntryTrace r request inst ++ gateTrace r ++ certificateTrace r w request ++
    authenticationTrace r w request

/-- The ready cluster in which the Linseed certificate is not issued yet. -/
def linseedMissingWorld : World :=
  { readyWorld with getCertificate := fun _ _ => (none, none) }

/-- An Authentication resource that is not ready. -/
def degradedAuthentication : Authentication :=
  { Name := "tigera-secure", Status := { State := "Degraded" } }

/-- The ready cluster with an Authentication resource that is not ready. -/
def authenticationNotReadyWorld : World :=
  { readyWorld with getAuthentication := (some degradedAuthentication, none) }

/-- The cluster with an Authentication resource that is not ready in which,
besides, the API key pair cannot be obtained. -/
def keyPairFailsWorld : World :=
  { authenticationNotReadyWorld with
    getOrCreateKeyPair := fun name _ dns => ({ SecretName := name, DNSNames := dns }, some boom) }

/-! ## The values in scope at the apply loop -/

/-- The variable `hasNoLicense` of line 421. -/
def hasNoLicenseOf (r : ReconcileCCS) (w : World) : Bool :=
  !w.isFeatureActive w.fetchLicenseKey.1 r.consts.ComplianceFeature

/-- The variable `cfg` of lines 423-439, given the Linseed certificate. -/
def ccsConfigOf (r : ReconcileCCS) (w : World) (request : Request)
    (inst : ComplianceConfigurationSecurity) (linseed : Certificate) : Config :=
  { TrustedBundle := trustedBundleOf r w request linseed,
    Installation := w.getInstallation.2.1,
    APIKeyPair := (keyPairLookup r w request).1,
    PullSecrets := (w.getNetworkingPullSecrets w.getInstallation.2.1).1,
    OpenShift := r.openshift,
    ManagementCluster := w.getManagementCluster.1,
    ManagementClusterConnection := w.getManagementClusterConnection.1,
    KeyValidatorConfig := (w.getKeyValidatorConfig w.getAuthentication.1 r.clusterDomain).1,
    ClusterDomain := r.clusterDomain,
    HasNoLicense := hasNoLicenseOf r w,
    Namespace := installNS r w request,
    BindingNamespaces := w.tenantNamespaces.1,
    Tenant := (w.getTenant r.multiTenant request.Namespace).1,
    ComplianceConfigurationSecurity := inst,
    ExternalElastic := r.externalElastic }

/-- The variable `namespaceComp` of line 419. -/
def namespaceCompOf (r : ReconcileCCS) (w : World) (request : Request) : Component :=
  Component.namespaceComp (installNS r w request) w.getInstallation.2.1.KubernetesProvider

/-- The variable `certificateComponent` of lines 447-455. -/
def certificateComponentOf (r : ReconcileCCS) (w : World) (request : Request)
    (linseed : Certificate) : Component :=
  Component.certificateComponent
    { Namespace := installNS r w request,
      TruthNamespace := truthNS r w request,
      ServiceAccounts := [r.consts.APIResourceName],
      KeyPairOptions := [(keyPairLookup r w request).1],
      TrustedBundle := bundleMakerOf r w request linseed }

/-- The variable `ccsComponent` of line 442. -/
def ccsComponentOf (r : ReconcileCCS) (w : World) (request : Request)
    (inst : ComplianceConfigurationSecurity) (linseed : Certificate) : Component :=
  Component.ccsComponent (ccsConfigOf r w request inst linseed)

/-- The slice the loop of line 458 ranges over. -/
def componentsOf (r : ReconcileCCS) (w : World) (request : Request)
    (inst : ComplianceConfigurationSecurity) (linseed : Certificate) : List Component :=
  [namespaceCompOf r w request, certificateComponentOf r w request linseed,
   ccsComponentOf r w request inst linseed]

/-- The whole trace up to the apply loop. -/
def applyEntryTrace (r : ReconcileCCS) (w : World) (request : Request)
    (inst : ComplianceConfigurationSecurity) : List Event :=
  renderEntryTrace r w request inst ++
    [Event.TenantNamespaces, Event.GetKeyValidatorConfig, Event.ApplyImageSet]

/-- The invocation reaches line 457, the apply loop: every gate passes.  The
Authentication, when there is one, is Ready; the binding namespaces and the
key validator configuration are obtained; the image set is applied. -/
def reachesApply (r : ReconcileCCS) (w : World) (request : Request)
    (inst : ComplianceConfigurationSecurity) (linseed : Certificate) : Prop :=
  reachesAuthenticationCheck r w request inst linseed ∧
  (∀ auth ∈ w.getAuthentication.1, auth.Status.State = r.consts.TigeraStatusReady) ∧
  w.tenantNamespaces.2 = none ∧
  (w.getKeyValidatorConfig w.getAuthentication.1 r.clusterDomain).2 = none ∧
  w.applyImageSet w.getInstallation.1 (ccsComponentOf r w request inst linseed) = none

/-- The components a run of the loop hands to `CreateOrUpdateOrDelete`: each
one in order, up to and including the first that fails. -/
def attemptedComponents (w : World) : List Component → List Component
  | [] => []
  | c :: cs =>
    if w.createOrUpdateOrDelete c ≠ none then [c] else c :: attemptedComponents w cs

/-- The ready cluster with a license that lacks the compliance feature. -/
def licenseOffWorld : World :=
  { readyWorld with fetchLicenseKey := ({ Features := ["cnx"] }, none) }

/-- The Linseed certificate of the concrete clusters. -/
def sampleLinseed : Certificate := { SecretName := "tigera-secure-linseed-cert" }

/-! ## The readiness gate as the ordered table of the specification

`gateTable` follows the table of the specification: one row per precondition,
in the order of the table, each with the condition under which it is unmet and
the disposition of its failure (the result, the error, and the reason and
message of the Degraded status it sets).  It is compared with `Reconcile`
below. -/

/-- What the gate decides: the result, the error, and the reason and message
of every `SetDegraded` call. -/
structure GateVerdict where
  result : Result
  err : Option GoError
  degraded : List (TigeraStatusReason × String)
deriving DecidableEq, Repr

/-- The verdict of an invocation. -/
def verdictOf (o : Outcome) : GateVerdict :=
  { result := o.result, err := o.err, degraded := degradedCalls o.trace }

/-- Disposition "skip" and "Done, no error" without a Degraded status. -/
def verdictDone : GateVerdict :=
  { result := Result.empty, err := none, degraded := [] }

/-- Disposition "Degraded, Done". -/
def verdictDegradedDone (reason : TigeraStatusReason) (msg : String) : GateVerdict :=
  { result := Result.empty, err := none, degraded := [(reason, msg)] }

/-- Disposition "Degraded, RequeueAfter(standard-retry)". -/
def verdictDegradedRequeue (r : ReconcileCCS) (reason : TigeraStatusReason) (msg : String) :
    GateVerdict :=
  { result := { Requeue := false, RequeueAfter := r.consts.StandardRetry }, err := none,
    degraded := [(reason, msg)] }

/-- Disposition "Degraded, Error". -/
def verdictDegradedError (err : Option GoError) (reason : TigeraStatusReason) (msg : String) :
    GateVerdict :=
  { result := Result.empty, err := err, degraded := [(reason, msg)] }

/-- Row 3 is unmet: the target resource is missing. -/
def targetMissing (r : ReconcileCCS) (w : World) (request : Request) : Bool :=
  match GetCCS w r.multiTenant request.Namespace with
  | Except.error e => e.notFound
  | Except.ok _ => false

/-- Row 11 is unmet through the Authentication: one is present whose state is
not Ready. -/
def authenticationNotReady (r : ReconcileCCS) (w : World) : Bool :=
  match w.getAuthentication.1 with
  | some auth => decide (auth.Status.State ≠ r.consts.TigeraStatusReady)
  | none => false

/-- The message of row 11: that of the Linseed certificate when the lookup
succeeds with no certificate, that of the Authentication otherwise. -/
def certificateOrAuthenticationMessage (r : ReconcileCCS) (w : World) (request : Request) :
    String :=
  if linseedLookup r w request = (none, none) then
    "Linseed certificate is not available yet, waiting until it becomes available"
  else
    match w.getAuthentication.1 with
    | some auth => "Authentication is not ready - authenticationCR status: " ++ auth.Status.State
    | none => ""

/-- The table of the readiness gate, in the order of the specification: for
each precondition, whether it is unmet and the disposition of its failure. -/
def gateTable (r : ReconcileCCS) (w : World) (request : Request) :
    List (Bool × GateVerdict) :=
  [ -- 1. multi-tenant request missing namespace
    (decide (r.multiTenant = true ∧ request.Namespace = ""), verdictDone),
    -- 2. owning tenant missing
    (IsNotFound (w.getTenant r.multiTenant request.Namespace).2, verdictDone),
    -- 3. target resource missing
    (targetMissing r w request, verdictDone),
    -- 4. API server not ready
    (!w.isAPIServerReady,
      verdictDegradedDone TigeraStatusReason.ResourceNotReady
        "Waiting for Tigera API server to be ready"),
    -- 5. tier watch not yet established
    (!r.tierWatchReady,
      verdictDegradedRequeue r TigeraStatusReason.ResourceNotReady
        "Waiting for Tier watch to be established"),
    -- 6. required policy tier object absent
    (IsNotFound (w.clientGetTier r.consts.TigeraComponentTierName),
      verdictDegradedRequeue r TigeraStatusReason.ResourceNotReady
        ("Waiting for allow-tigera tier to be created, see the \x27tiers\x27 " ++
          "TigeraStatus for more information")),
    -- 7. license watch not yet established
    (!r.licenseAPIReady,
      verdictDegradedRequeue r TigeraStatusReason.ResourceNotReady
        "Waiting for LicenseKeyAPI to be ready"),
    -- 8. license key object missing
    (IsNotFound w.fetchLicenseKey.2,
      verdictDegradedRequeue r TigeraStatusReason.ResourceNotFound "License not found"),
    -- 9. installation object missing
    (IsNotFound w.getInstallation.2.2,
      verdictDegradedError w.getInstallation.2.2 TigeraStatusReason.ResourceNotFound
        "Installation not found"),
    -- 10. both management-cluster and management-cluster-connection present
    (decide (w.getManagementClusterConnection.1 ≠ none ∧ w.getManagementCluster.1 ≠ none),
      verdictDegradedError (some topologyConflict)
        TigeraStatusReason.ResourceValidationError ""),
    -- 11. certificate/authentication dependency not ready
    (decide (linseedLookup r w request = (none, none)) || authenticationNotReady r w,
      verdictDegradedDone TigeraStatusReason.ResourceNotReady
        (certificateOrAuthenticationMessage r w request)) ]

/-- The first unmet row of a table, numbered from `k`, with its disposition. -/
def earliestUnmetFrom (k : Nat) : List (Bool × GateVerdict) → Option (Nat × GateVerdict)
  | [] => none
  | (unmet, v) :: rows => if unmet then some (k, v) else earliestUnmetFrom (k + 1) rows

/-- The earliest unmet precondition of a table; rows are numbered from 1. -/
def earliestUnmet (rows : List (Bool × GateVerdict)) : Option (Nat × GateVerdict) :=
  earliestUnmetFrom 1 rows

/-- The number of unmet preconditions of a table. -/
def unmetCount (rows : List (Bool × GateVerdict)) : Nat :=
  (rows.filter fun row => row.1).length

/-- A call failed with an error that is not a NotFound. -/
def failsOtherThanNotFound (err : Option GoError) : Prop :=
  err ≠ none ∧ IsNotFound err = false

/-- The checks of `Reconcile` that are not rows of the table and stand before
row `k` all pass: the reads do not fail with an error other than NotFound, the
TigeraStatus read and the status update succeed when they run, and the pull
secrets, the topology resources, the certificate manager, the certificates,
the bundle and the key pair are obtained. -/
def otherChecksPassBefore (r : ReconcileCCS) (w : World) (request : Request) (k : Nat) :
    Prop :=
  (3 ≤ k → ¬ failsOtherThanNotFound (w.getTenant r.multiTenant request.Namespace).2) ∧
  (4 ≤ k →
    (∀ e, GetCCS w r.multiTenant request.Namespace = Except.error e → e.notFound = true) ∧
    (request.Name = ResourceName ∧ request.Namespace = "" →
      w.clientGetTigeraStatus ResourceName = none ∧
      ∀ inst, GetCCS w r.multiTenant request.Namespace = Except.ok inst →
        w.statusUpdate 0 inst = none)) ∧
  (7 ≤ k → ¬ failsOtherThanNotFound (w.clientGetTier r.consts.TigeraComponentTierName)) ∧
  (9 ≤ k → ¬ failsOtherThanNotFound w.fetchLicenseKey.2) ∧
  (10 ≤ k →
    ¬ failsOtherThanNotFound w.getInstallation.2.2 ∧
    (w.getNetworkingPullSecrets w.getInstallation.2.1).2 = none ∧
    w.getManagementCluster.2 = none ∧ w.getManagementClusterConnection.2 = none) ∧
  (11 ≤ k →
    w.certificateManagerCreate w.getInstallation.2.1 r.clusterDomain (truthNS r w request) =
      none ∧
    (w.getManagementCluster.1 ≠ none →
      (w.getCertificate r.consts.ManagerInternalTLSSecretName (truthNS r w request)).2 =
        none) ∧
    (linseedLookup r w request).2 = none ∧
    ((linseedLookup r w request).1 ≠ none →
      (r.multiTenant = true →
        (w.loadMultiTenantTrustedBundle (installNS r w request)).2 = none) ∧
      (keyPairLookup r w request).2 = none ∧
      ¬ failsOtherThanNotFound w.getAuthentication.2))

/-- The cold-start cluster in which, besides, the tenant lookup fails with an
error that is not a NotFound and the API server is not ready. -/
def tenantReadFailsWorld : World :=
  { readyWorld with getTenant := fun _ _ => (none, some boom), isAPIServerReady := false }

/-- The ready cluster without a license and with an Authentication resource
that is not ready: rows 8 and 11 of the table are unmet. -/
def licenseMissingAuthenticationNotReadyWorld : World :=
  { licenseMissingWorld with getAuthentication := (some degradedAuthentication, none) }

/-! ## The end of the pass -/

/-- The instance after the assignment of line 481. -/
def readyInstance (r : ReconcileCCS) (inst : ComplianceConfigurationSecurity) :
    ComplianceConfigurationSecurity :=
  { inst with Status := { State := r.consts.TigeraStatusReady } }

/-- The invocation reaches line 472, `ClearDegraded`: every gate passes, the
three components apply without error and the license includes the feature. -/
def reachesClearDegraded (r : ReconcileCCS) (w : World) (request : Request)
    (inst : ComplianceConfigurationSecurity) (linseed : Certificate) : Prop :=
  reachesApply r w request inst linseed ∧
  (∀ c ∈ componentsOf r w request inst linseed, w.createOrUpdateOrDelete c = none) ∧
  hasNoLicenseOf r w = false

/-- The invocation reaches line 481, the assignment of the Ready state: it
reaches `ClearDegraded` and `IsAvailable` answers true. -/
def reachesReadyWrite (r : ReconcileCCS) (w : World) (request : Request)
    (inst : ComplianceConfigurationSecurity) (linseed : Certificate) : Prop :=
  reachesClearDegraded r w request inst linseed ∧ w.isAvailable = true

/-- The whole trace up to and including the availability check, when the three
components apply. -/
def availabilityTrace (r : ReconcileCCS) (w : World) (request : Request)
    (inst : ComplianceConfigurationSecurity) (linseed : Certificate) : List Event :=
  applyEntryTrace r w request inst ++
    (componentsOf r w request inst linseed).map Event.CreateOrUpdateOrDelete ++
    [Event.ClearDegraded, Event.IsAvailable]

/-- The events of a trace that follow its first `SetDegraded` call. -/
def afterDegraded : List Event → List Event
  | [] => []
  | Event.SetDegraded _ _ _ :: es => es
  | _ :: es => afterDegraded es

/-- The status updates of a trace issued after the availability check: the
update of line 482, which writes the instance right after line 481 assigned
the Ready state to it. -/
def finalStatusUpdates : List Event → List ComplianceConfigurationSecurity
  | [] => []
  | Event.IsAvailable :: es => statusUpdates es
  | _ :: es => finalStatusUpdates es

/-- The ready cluster in which the certificate component cannot be applied. -/
def certificateApplyFailsWorld : World :=
  { readyWorld with
    createOrUpdateOrDelete := fun c =>
      match c with
      | Component.certificateComponent _ => some boom
      | _ => none }

/-- The ready cluster in which the namespace component cannot be applied. -/
def namespaceApplyFailsWorld : World :=
  { readyWorld with
    createOrUpdateOrDelete := fun c =>
      match c with
      | Component.namespaceComp _ _ => some boom
      | _ => none }

/-- The ready cluster whose workloads are not available yet. -/
def notAvailableWorld : World :=
  { readyWorld with isAvailable := false }

/-! ## Invariants of the early returns -/

/-- The event is neither a `SetDegraded`, a `ClearDegraded`, an `IsAvailable`
nor a status update. -/
def Event.isQuiet : Event → Bool
  | Event.SetDegraded _ _ _ => false
  | Event.ClearDegraded => false
  | Event.IsAvailable => false
  | Event.StatusUpdate _ => false
  | _ => true

/-- The trace `tr` holds no `SetDegraded`, no `ClearDegraded` and no
`IsAvailable`, and its status updates are those of `base`. -/
def quietSince (base tr : List Event) : Prop :=
  degradedCalls tr = [] ∧ Event.ClearDegraded ∉ tr ∧ Event.IsAvailable ∉ tr ∧
  statusUpdates tr = statusUpdates base

/-- What holds of a return taken between the API-server check and the license
gate of line 465, for a pass that entered with the status updates of `base`:
the result is empty or the standard retry without an error, at most one
`SetDegraded` is issued and nothing follows it, `ClearDegraded` and
`IsAvailable` are not called, no status update is issued, and an error is
returned only after a `SetDegraded`, the error of the binding-namespace lookup
apart. -/
def StageExit (r : ReconcileCCS) (w : World) (base : List Event) (o : Outcome) : Prop :=
  (o.result = Result.empty ∨
    (o.result = { Requeue := false, RequeueAfter := r.consts.StandardRetry } ∧
      o.err = none)) ∧
  (degradedCalls o.trace).length ≤ 1 ∧
  afterDegraded o.trace = [] ∧
  Event.ClearDegraded ∉ o.trace ∧
  Event.IsAvailable ∉ o.trace ∧
  statusUpdates o.trace = statusUpdates base ∧
  (o.err ≠ none → degradedCalls o.trace ≠ [] ∨
    (o.err = w.tenantNamespaces.2 ∧ Event.TenantNamespaces ∈ o.trace))

/-- The status updates of the status-conditions block (line 253): the instance
as fetched, when the request is the one named `ResourceName` without a
namespace, the tenant checks pass, the instance is found and the TigeraStatus
read succeeds; none otherwise. -/
def entryStatusUpdates (r : ReconcileCCS) (w : World) (request : Request) :
    List ComplianceConfigurationSecurity :=
  match GetCCS w r.multiTenant request.Namespace with
  | Except.ok inst =>
    if (request.Name = ResourceName ∧ request.Namespace = "") ∧
        ¬ (r.multiTenant = true ∧ request.Namespace = "") ∧
        (w.getTenant r.multiTenant request.Namespace).2 = none ∧
        w.clientGetTigeraStatus ResourceName = none then [inst]
    else []
  | Except.error _ => []

/-- What holds of an invocation that returns before `ClearDegraded`: the
result is empty or the standard retry without an error; at most one
`SetDegraded` is issued and only the deferred `SetMetaData` follows it;
`ClearDegraded` and `IsAvailable` are not called; the status updates are
exactly those of the status-conditions block; and an error is returned only
after a `SetDegraded`, the errors of a binding-namespace lookup that was made,
of the TigeraStatus read and of the status update of that block apart. -/
def EarlyReturn (r : ReconcileCCS) (w : World) (request : Request) (o : Outcome) : Prop :=
  (o.result = Result.empty ∨
    (o.result = { Requeue := false, RequeueAfter := r.consts.StandardRetry } ∧
      o.err = none)) ∧
  (degradedCalls o.trace).length ≤ 1 ∧
  (afterDegraded o.trace = [] ∨ ∃ om, afterDegraded o.trace = [Event.SetMetaData om]) ∧
  Event.ClearDegraded ∉ o.trace ∧
  Event.IsAvailable ∉ o.trace ∧
  statusUpdates o.trace = entryStatusUpdates r w request ∧
  (o.err ≠ none →
    degradedCalls o.trace ≠ [] ∨
    (o.err = w.tenantNamespaces.2 ∧ Event.TenantNamespaces ∈ o.trace) ∨
    (degradedCalls o.trace = [] ∧
      (o.err = w.clientGetTigeraStatus ResourceName ∨ ∃ inst, o.err = w.statusUpdate 0 inst)))

/-- The ready cluster in which the TigeraStatus cannot be read. -/
def tigeraStatusReadFailsWorld : World :=
  { readyWorld with clientGetTigeraStatus := fun _ => some boom }

/-- The ready cluster in which the binding namespaces cannot be listed. -/
def tenantNamespacesFailWorld : World :=
  { readyWorld with tenantNamespaces := ([], some boom) }

/-- The ready cluster in which the status cannot be written. -/
def statusUpdateFailsWorld : World :=
  { readyWorld with statusUpdate := fun _ _ => some boom }

/-- The ready cluster in which the license read fails with an error that is
not a NotFound. -/
def licenseReadFailsWorld : World :=
  { readyWorld with fetchLicenseKey := ({ Features := [] }, some boom) }

/-- The ready cluster in which the tier read fails with an error that is not a
NotFound. -/
def tierReadFailsWorld : World :=
  { readyWorld with clientGetTier := fun _ => some boom }

/-- The cluster without an Installation in which, besides, the binding
namespaces could not be listed: the pass returns at the Installation query and
never makes that lookup. -/
def installationMissingLookupFailsWorld : World :=
  { installationMissingWorld with tenantNamespaces := ([], some boom) }

/-! ## Theorems -/

/-- The deferred call changes neither the result nor the error. -/
theorem deferSetMetaData_result (om : ObjectMeta) (o : Outcome) :
    (deferSetMetaData om o).result = o.result ∧ (deferSetMetaData om o).err = o.err := by
  simp [deferSetMetaData]

/-- An invocation that reaches the API-server check is the readiness gate run
after the entry calls, followed by the deferred `SetMetaData`. -/
theorem Reconcile_of_reachesAPIServerCheck (r : ReconcileCCS) (w : World) (request : Request)
    (inst : ComplianceConfigurationSecurity) (h : reachesAPIServerCheck r w request inst) :
    Reconcile r w request =
      deferSetMetaData inst.ObjectMeta
        (reconcileGate r w request (w.getTenant r.multiTenant request.Namespace).1 inst
          (gateEntryUpdates request) none (gateEntryTrace r request inst)) := by
  obtain ⟨⟨hskip, hten⟩, hget, hupd⟩ := h
  unfold Reconcile
  rw [if_neg hskip]
  simp only [hten, hget, IsNotFound]
  by_cases hc : request.Name = ResourceName ∧ request.Namespace = ""
  · obtain ⟨h1, h2⟩ := hupd hc
    simp [reconcileStatusConditions, gateEntryUpdates, gateEntryTrace, hc, h1, h2]
  · simp [reconcileStatusConditions, gateEntryUpdates, gateEntryTrace, hc]

/-- The `SetDegraded` calls of a concatenated trace. -/
theorem degradedCalls_append (xs ys : List Event) :
    degradedCalls (xs ++ ys) = degradedCalls xs ++ degradedCalls ys := by
  induction xs with
  | nil => rfl
  | cons e es ih => cases e <;> simp [degradedCalls, ih]

/-- The applied components of a concatenated trace. -/
theorem appliedComponents_append (xs ys : List Event) :
    appliedComponents (xs ++ ys) = appliedComponents xs ++ appliedComponents ys := by
  induction xs with
  | nil => rfl
  | cons e es ih => cases e <;> simp [appliedComponents, ih]

/-- The status updates of a concatenated trace. -/
theorem statusUpdates_append (xs ys : List Event) :
    statusUpdates (xs ++ ys) = statusUpdates xs ++ statusUpdates ys := by
  induction xs with
  | nil => rfl
  | cons e es ih => cases e <;> simp [statusUpdates, ih]

/-- No `SetDegraded` is issued before the API-server check. -/
theorem degradedCalls_gateEntryTrace (r : ReconcileCCS) (request : Request)
    (inst : ComplianceConfigurationSecurity) :
    degradedCalls (gateEntryTrace r request inst) = [] := by
  unfold gateEntryTrace
  split <;> simp [degradedCalls]

/-- No component is applied before the API-server check. -/
theorem appliedComponents_gateEntryTrace (r : ReconcileCCS) (request : Request)
    (inst : ComplianceConfigurationSecurity) :
    appliedComponents (gateEntryTrace r request inst) = [] := by
  unfold gateEntryTrace
  split <;> simp [appliedComponents]

/-- C3: a request that does not apply to this controller (multi-tenant mode
with an empty namespace, or a tenant lookup answering NotFound) returns the
empty Result and a nil error, calls no method of the status manager and writes
no status update; the only call made at all is the tenant lookup. -/
theorem C3_request_not_applicable_is_skipped (r : ReconcileCCS) (w : World) (request : Request)
    (h : (r.multiTenant = true ∧ request.Namespace = "") ∨
      IsNotFound (w.getTenant r.multiTenant request.Namespace).2 = true) :
    (Reconcile r w request).result = Result.empty ∧
    (Reconcile r w request).result.Requeue = false ∧
    (Reconcile r w request).result.RequeueAfter = 0 ∧
    (Reconcile r w request).err = none ∧
    (∀ e ∈ (Reconcile r w request).trace, e.isStatusManagerCall = false) ∧
    statusUpdates (Reconcile r w request).trace = [] ∧
    ((Reconcile r w request).trace = [] ∨
      (Reconcile r w request).trace = [Event.GetTenant request.Namespace]) := by
  unfold Reconcile
  by_cases hs : r.multiTenant = true ∧ request.Namespace = ""
  · rw [if_pos hs]
    simp [Result.empty, statusUpdates]
  · rw [if_neg hs]
    have hn : IsNotFound (w.getTenant r.multiTenant request.Namespace).2 = true := by
      rcases h with h | h
      · exact absurd h hs
      · exact h
    simp [hn, Result.empty, statusUpdates, Event.isStatusManagerCall]

/-- C4: when the tenant checks pass and fetching the instance fails, a
NotFound makes `Reconcile` call `OnCRNotFound` exactly once, call neither
`SetDegraded` nor `OnCRFound`, and return the empty Result with a nil error;
any other error sets Degraded with ResourceReadError and is returned. -/
theorem C4_instance_fetch_failure (r : ReconcileCCS) (w : World) (request : Request)
    (e : GoError) (ht : passesTenantChecks r w request)
    (hget : GetCCS w r.multiTenant request.Namespace = Except.error e) :
    (e.notFound = true →
      Reconcile r w request =
        { result := Result.empty, err := none,
          trace := [Event.GetTenant request.Namespace,
            Event.ClientGetCCS (ccsKey r.multiTenant request.Namespace),
            Event.OnCRNotFound] } ∧
      (Reconcile r w request).trace.count Event.OnCRNotFound = 1 ∧
      degradedCalls (Reconcile r w request).trace = [] ∧
      Event.OnCRFound ∉ (Reconcile r w request).trace) ∧
    (e.notFound = false →
      Reconcile r w request =
        { result := Result.empty, err := some e,
          trace := [Event.GetTenant request.Namespace,
            Event.ClientGetCCS (ccsKey r.multiTenant request.Namespace),
            Event.SetDegraded TigeraStatusReason.ResourceReadError "Error querying ccs"
              (some e)] } ∧
      degradedCalls (Reconcile r w request).trace =
        [(TigeraStatusReason.ResourceReadError, "Error querying ccs")]) := by
  obtain ⟨hskip, hten⟩ := ht
  unfold Reconcile
  rw [if_neg hskip]
  simp only [hten, hget, IsNotFound]
  constructor
  · intro hnf
    simp [hnf, degradedCalls, List.count_cons]
  · intro hnf
    simp [hnf, degradedCalls]

/-- C5: an invocation that reaches the API-server check while the API server
is not ready sets Degraded with ResourceNotReady and returns the empty Result
with a nil error: the `err` returned at line 261 is nil. -/
theorem C5_api_server_not_ready (r : ReconcileCCS) (w : World) (request : Request)
    (inst : ComplianceConfigurationSecurity) (h : reachesAPIServerCheck r w request inst)
    (hapi : w.isAPIServerReady = false) :
    Reconcile r w request =
      { result := Result.empty, err := none,
        trace := gateEntryTrace r request inst ++
          [Event.IsAPIServerReady,
           Event.SetDegraded TigeraStatusReason.ResourceNotReady
             "Waiting for Tigera API server to be ready" none,
           Event.SetMetaData inst.ObjectMeta] } ∧
    (Reconcile r w request).result.RequeueAfter = 0 ∧
    (Reconcile r w request).err = none ∧
    degradedCalls (Reconcile r w request).trace =
      [(TigeraStatusReason.ResourceNotReady, "Waiting for Tigera API server to be ready")] := by
  have hout : Reconcile r w request =
      { result := Result.empty, err := none,
        trace := gateEntryTrace r request inst ++
          [Event.IsAPIServerReady,
           Event.SetDegraded TigeraStatusReason.ResourceNotReady
             "Waiting for Tigera API server to be ready" none,
           Event.SetMetaData inst.ObjectMeta] } := by
    rw [Reconcile_of_reachesAPIServerCheck r w request inst h]
    simp [reconcileGate, deferSetMetaData, hapi]
  rw [hout]
  simp only [degradedCalls_append, degradedCalls_gateEntryTrace]
  simp [Result.empty, degradedCalls]

/-- C6: cold start.  An invocation that passes the checks before the tier-watch
check while the tier-watch flag is not set returns
`Result{RequeueAfter: StandardRetry}` with a nil error and sets Degraded with
ResourceNotReady and the tier-watch message, whatever the license flag is, and
queries neither the tier nor the license. -/
theorem C6_tier_watch_not_established (r : ReconcileCCS) (w : World) (request : Request)
    (inst : ComplianceConfigurationSecurity) (h : reachesTierWatchCheck r w request inst)
    (htier : r.tierWatchReady = false) :
    Reconcile r w request =
      { result := { Requeue := false, RequeueAfter := r.consts.StandardRetry }, err := none,
        trace := gateEntryTrace r request inst ++
          [Event.IsAPIServerReady, Event.TierWatchIsReady,
           Event.SetDegraded TigeraStatusReason.ResourceNotReady
             "Waiting for Tier watch to be established" none,
           Event.SetMetaData inst.ObjectMeta] } ∧
    degradedCalls (Reconcile r w request).trace =
      [(TigeraStatusReason.ResourceNotReady, "Waiting for Tier watch to be established")] ∧
    (∀ name, Event.ClientGetTier name ∉ (Reconcile r w request).trace) ∧
    Event.LicenseAPIIsReady ∉ (Reconcile r w request).trace ∧
    Event.FetchLicenseKey ∉ (Reconcile r w request).trace := by
  have hout : Reconcile r w request =
      { result := { Requeue := false, RequeueAfter := r.consts.StandardRetry }, err := none,
        trace := gateEntryTrace r request inst ++
          [Event.IsAPIServerReady, Event.TierWatchIsReady,
           Event.SetDegraded TigeraStatusReason.ResourceNotReady
             "Waiting for Tier watch to be established" none,
           Event.SetMetaData inst.ObjectMeta] } := by
    rw [Reconcile_of_reachesAPIServerCheck r w request inst h.1]
    simp [reconcileGate, deferSetMetaData, h.2, htier]
  rw [hout]
  have hentry : ∀ e ∈ gateEntryTrace r request inst,
      (∀ name, e ≠ Event.ClientGetTier name) ∧ e ≠ Event.LicenseAPIIsReady ∧
        e ≠ Event.FetchLicenseKey := by
    unfold gateEntryTrace
    split <;> simp
  simp only [degradedCalls_append, degradedCalls_gateEntryTrace]
  refine ⟨trivial, by simp [degradedCalls], ?_, ?_, ?_⟩
  · intro name hmem
    simp at hmem
    exact (hentry _ hmem).1 name rfl
  · intro hmem
    simp at hmem
    exact (hentry _ hmem).2.1 rfl
  · intro hmem
    simp at hmem
    exact (hentry _ hmem).2.2 rfl

/-- C7: missing license.  An invocation that passes all checks up to and
including the license-watch flag and whose license fetch answers NotFound sets
Degraded with ResourceNotFound and "License not found" and returns
`Result{RequeueAfter: StandardRetry}` with a nil error. -/
theorem C7_license_not_found (r : ReconcileCCS) (w : World) (request : Request)
    (inst : ComplianceConfigurationSecurity) (h : reachesLicenseFetch r w request inst)
    (hnf : IsNotFound w.fetchLicenseKey.2 = true) :
    Reconcile r w request =
      { result := { Requeue := false, RequeueAfter := r.consts.StandardRetry }, err := none,
        trace := gateEntryTrace r request inst ++
          [Event.IsAPIServerReady, Event.TierWatchIsReady,
           Event.ClientGetTier r.consts.TigeraComponentTierName, Event.LicenseAPIIsReady,
           Event.FetchLicenseKey,
           Event.SetDegraded TigeraStatusReason.ResourceNotFound "License not found"
             w.fetchLicenseKey.2,
           Event.SetMetaData inst.ObjectMeta] } ∧
    degradedCalls (Reconcile r w request).trace =
      [(TigeraStatusReason.ResourceNotFound, "License not found")] := by
  obtain ⟨⟨hreach, hapi⟩, htier, hget, hlic⟩ := h
  have hne : w.fetchLicenseKey.2 ≠ none := by
    intro hnone
    rw [hnone] at hnf
    simp [IsNotFound] at hnf
  have hout : Reconcile r w request =
      { result := { Requeue := false, RequeueAfter := r.consts.StandardRetry }, err := none,
        trace := gateEntryTrace r request inst ++
          [Event.IsAPIServerReady, Event.TierWatchIsReady,
           Event.ClientGetTier r.consts.TigeraComponentTierName, Event.LicenseAPIIsReady,
           Event.FetchLicenseKey,
           Event.SetDegraded TigeraStatusReason.ResourceNotFound "License not found"
             w.fetchLicenseKey.2,
           Event.SetMetaData inst.ObjectMeta] } := by
    rw [Reconcile_of_reachesAPIServerCheck r w request inst hreach]
    simp [reconcileGate, deferSetMetaData, hapi, htier, hget, hlic, hnf, hne]
  rw [hout]
  simp only [degradedCalls_append, degradedCalls_gateEntryTrace]
  simp [degradedCalls]

/-- C8: missing installation.  An invocation that passes all checks up to and
including the license fetch and whose installation query answers NotFound sets
Degraded with ResourceNotFound and "Installation not found" and returns that
same error with the empty Result. -/
theorem C8_installation_not_found (r : ReconcileCCS) (w : World) (request : Request)
    (inst : ComplianceConfigurationSecurity) (h : reachesInstallationQuery r w request inst)
    (hnf : IsNotFound w.getInstallation.2.2 = true) :
    Reconcile r w request =
      { result := Result.empty, err := w.getInstallation.2.2,
        trace := gateEntryTrace r request inst ++
          [Event.IsAPIServerReady, Event.TierWatchIsReady,
           Event.ClientGetTier r.consts.TigeraComponentTierName, Event.LicenseAPIIsReady,
           Event.FetchLicenseKey, Event.GetInstallation,
           Event.SetDegraded TigeraStatusReason.ResourceNotFound "Installation not found"
             w.getInstallation.2.2,
           Event.SetMetaData inst.ObjectMeta] } ∧
    (Reconcile r w request).err ≠ none ∧
    (Reconcile r w request).result.RequeueAfter = 0 ∧
    degradedCalls (Reconcile r w request).trace =
      [(TigeraStatusReason.ResourceNotFound, "Installation not found")] := by
  obtain ⟨⟨⟨hreach, hapi⟩, htier, hget, hlic⟩, hfetch⟩ := h
  have hne : w.getInstallation.2.2 ≠ none := by
    intro hnone
    rw [hnone] at hnf
    simp [IsNotFound] at hnf
  have hout : Reconcile r w request =
      { result := Result.empty, err := w.getInstallation.2.2,
        trace := gateEntryTrace r request inst ++
          [Event.IsAPIServerReady, Event.TierWatchIsReady,
           Event.ClientGetTier r.consts.TigeraComponentTierName, Event.LicenseAPIIsReady,
           Event.FetchLicenseKey, Event.GetInstallation,
           Event.SetDegraded TigeraStatusReason.ResourceNotFound "Installation not found"
             w.getInstallation.2.2,
           Event.SetMetaData inst.ObjectMeta] } := by
    rw [Reconcile_of_reachesAPIServerCheck r w request inst hreach]
    simp [reconcileGate, deferSetMetaData, hapi, htier, hget, hlic, hfetch, hnf, hne]
  rw [hout]
  simp only [degradedCalls_append, degradedCalls_gateEntryTrace]
  simp [degradedCalls, hne, Result.empty]

/-- C1, as stated, fails: with both a ManagementCluster and a
ManagementClusterConnection present but the API server not ready, `Reconcile`
returns a nil error and the only Degraded reason set is ResourceNotReady. -/
theorem C1_counterexample_api_server_check_comes_first :
    (conflictNotReadyWorld.getManagementCluster.1 ≠ none ∧
      conflictNotReadyWorld.getManagementClusterConnection.1 ≠ none) ∧
    (Reconcile readyReconciler conflictNotReadyWorld sampleRequest).err = none ∧
    degradedCalls (Reconcile readyReconciler conflictNotReadyWorld sampleRequest).trace =
      [(TigeraStatusReason.ResourceNotReady, "Waiting for Tigera API server to be ready")] := by
  decide

/-- C1, amended: an invocation that reaches the topology check (every earlier
check passes and both reads succeed) with both a ManagementCluster and a
ManagementClusterConnection present returns the conflict error with the empty
Result, and its only `SetDegraded` carries ResourceValidationError. -/
theorem C1_topology_conflict_when_reached (r : ReconcileCCS) (w : World) (request : Request)
    (inst : ComplianceConfigurationSecurity) (h : reachesTopologyCheck r w request inst)
    (hmc : w.getManagementCluster.1 ≠ none)
    (hmcc : w.getManagementClusterConnection.1 ≠ none) :
    Reconcile r w request =
      { result := Result.empty, err := some topologyConflict,
        trace := gateEntryTrace r request inst ++ gateTrace r ++
          [Event.SetDegraded TigeraStatusReason.ResourceValidationError ""
             (some topologyConflict),
           Event.SetMetaData inst.ObjectMeta] } ∧
    (Reconcile r w request).err ≠ none ∧
    (Reconcile r w request).result = Result.empty ∧
    degradedCalls (Reconcile r w request).trace =
      [(TigeraStatusReason.ResourceValidationError, "")] := by
  obtain ⟨⟨⟨⟨hreach, hapi⟩, htier, hget, hlic⟩, hfetch⟩, hinst, hpull, hmce, hmcce⟩ := h
  have hout : Reconcile r w request =
      { result := Result.empty, err := some topologyConflict,
        trace := gateEntryTrace r request inst ++ gateTrace r ++
          [Event.SetDegraded TigeraStatusReason.ResourceValidationError ""
             (some topologyConflict),
           Event.SetMetaData inst.ObjectMeta] } := by
    rw [Reconcile_of_reachesAPIServerCheck r w request inst hreach]
    simp [reconcileGate, deferSetMetaData, hapi, htier, hget, hlic, hfetch, hinst, hpull,
      hmce, hmcce, hmc, hmcc, gateTrace, topologyConflict]
  rw [hout]
  simp only [degradedCalls_append, degradedCalls_gateEntryTrace]
  simp [degradedCalls, gateTrace]

/-- The ready cluster reaches the API-server check on the status request. -/
theorem C5_witness :
    reachesAPIServerCheck readyReconciler apiServerNotReadyWorld statusRequest sampleInstance ∧
    apiServerNotReadyWorld.isAPIServerReady = false ∧
    (Reconcile readyReconciler apiServerNotReadyWorld statusRequest).err = none :=
  have h : reachesAPIServerCheck readyReconciler apiServerNotReadyWorld statusRequest
      sampleInstance := by
    unfold reachesAPIServerCheck passesTenantChecks
    decide
  ⟨h, rfl, (C5_api_server_not_ready _ _ _ _ h rfl).2.2.1⟩

/-- A multi-tenant request whose namespace holds no Tenant is skipped. -/
theorem C3_witness :
    ((multiTenantReconciler.multiTenant = true ∧ tenantRequest.Namespace = "") ∨
      IsNotFound (tenantMissingWorld.getTenant multiTenantReconciler.multiTenant
        tenantRequest.Namespace).2 = true) ∧
    (Reconcile multiTenantReconciler tenantMissingWorld tenantRequest).err = none ∧
    (Reconcile multiTenantReconciler tenantMissingWorld tenantRequest).trace =
      [Event.GetTenant "tenant-a"] :=
  ⟨Or.inr rfl,
    (C3_request_not_applicable_is_skipped multiTenantReconciler tenantMissingWorld
      tenantRequest (Or.inr rfl)).2.2.2.1,
    by decide⟩

/-- In the cluster without the instance the fetch answers NotFound. -/
theorem C4_witness :
    passesTenantChecks readyReconciler instanceMissingWorld sampleRequest ∧
    GetCCS instanceMissingWorld readyReconciler.multiTenant sampleRequest.Namespace =
      Except.error missing ∧
    (Reconcile readyReconciler instanceMissingWorld sampleRequest).trace.count
      Event.OnCRNotFound = 1 :=
  have h : passesTenantChecks readyReconciler instanceMissingWorld sampleRequest := by
    unfold passesTenantChecks
    decide
  ⟨h, rfl, ((C4_instance_fetch_failure _ _ _ missing h rfl).1 rfl).2.1⟩

/-- At cold start the ready cluster stops at the tier-watch check. -/
theorem C6_witness :
    reachesTierWatchCheck coldStartReconciler readyWorld sampleRequest sampleInstance ∧
    coldStartReconciler.tierWatchReady = false ∧
    degradedCalls (Reconcile coldStartReconciler readyWorld sampleRequest).trace =
      [(TigeraStatusReason.ResourceNotReady, "Waiting for Tier watch to be established")] :=
  have h : reachesTierWatchCheck coldStartReconciler readyWorld sampleRequest
      sampleInstance := by
    unfold reachesTierWatchCheck reachesAPIServerCheck passesTenantChecks
    decide
  ⟨h, rfl, (C6_tier_watch_not_established _ _ _ _ h rfl).2.1⟩

/-- The cluster without a license reaches the license fetch. -/
theorem C7_witness :
    reachesLicenseFetch readyReconciler licenseMissingWorld sampleRequest sampleInstance ∧
    IsNotFound licenseMissingWorld.fetchLicenseKey.2 = true ∧
    degradedCalls (Reconcile readyReconciler licenseMissingWorld sampleRequest).trace =
      [(TigeraStatusReason.ResourceNotFound, "License not found")] :=
  have h : reachesLicenseFetch readyReconciler licenseMissingWorld sampleRequest
      sampleInstance := by
    unfold reachesLicenseFetch reachesTierWatchCheck reachesAPIServerCheck passesTenantChecks
    decide
  ⟨h, rfl, (C7_license_not_found _ _ _ _ h rfl).2⟩

/-- The cluster without an Installation reaches the installation query. -/
theorem C8_witness :
    reachesInstallationQuery readyReconciler installationMissingWorld sampleRequest
      sampleInstance ∧
    IsNotFound installationMissingWorld.getInstallation.2.2 = true ∧
    (Reconcile readyReconciler installationMissingWorld sampleRequest).err ≠ none :=
  have h : reachesInstallationQuery readyReconciler installationMissingWorld sampleRequest
      sampleInstance := by
    unfold reachesInstallationQuery reachesLicenseFetch reachesTierWatchCheck
      reachesAPIServerCheck passesTenantChecks
    decide
  ⟨h, rfl, (C8_installation_not_found _ _ _ _ h rfl).2.1⟩

/-- The cluster with both topology resources reaches the topology check. -/
theorem C1_witness :
    reachesTopologyCheck readyReconciler conflictWorld sampleRequest sampleInstance ∧
    conflictWorld.getManagementCluster.1 ≠ none ∧
    conflictWorld.getManagementClusterConnection.1 ≠ none ∧
    degradedCalls (Reconcile readyReconciler conflictWorld sampleRequest).trace =
      [(TigeraStatusReason.ResourceValidationError, "")] :=
  have h : reachesTopologyCheck readyReconciler conflictWorld sampleRequest
      sampleInstance := by
    unfold reachesTopologyCheck reachesInstallationQuery reachesLicenseFetch
      reachesTierWatchCheck reachesAPIServerCheck passesTenantChecks
    decide
  ⟨h, by decide, by decide,
    (C1_topology_conflict_when_reached _ _ _ _ h (by decide) (by decide)).2.2.2⟩

/-- An invocation that reaches the topology check without a conflict is the
certificate part run after the gate calls. -/
theorem Reconcile_of_reachesCertificateStep (r : ReconcileCCS) (w : World) (request : Request)
    (inst : ComplianceConfigurationSecurity) (h : reachesCertificateStep r w request inst) :
    Reconcile r w request =
      deferSetMetaData inst.ObjectMeta
        (reconcileLinseed r w request (w.getTenant r.multiTenant request.Namespace).1 inst
          (gateEntryUpdates request) w.fetchLicenseKey.1 w.getInstallation.1
          w.getInstallation.2.1 (w.getNetworkingPullSecrets w.getInstallation.2.1).1
          w.getManagementCluster.1 w.getManagementClusterConnection.1
          (managerInternalTLSSecretOf r w request)
          (gateEntryTrace r request inst ++ gateTrace r ++ certificateTrace r w request)) := by
  obtain ⟨⟨⟨⟨⟨hreach, hapi⟩, htier, hget, hlic⟩, hfetch⟩, hinst, hpull, hmce, hmcce⟩,
    hboth, hcreate, hmgr⟩ := h
  rw [Reconcile_of_reachesAPIServerCheck r w request inst hreach]
  have hgate : reconcileGate r w request (w.getTenant r.multiTenant request.Namespace).1 inst
      (gateEntryUpdates request) none (gateEntryTrace r request inst) =
      reconcileCertificates r w request (w.getTenant r.multiTenant request.Namespace).1 inst
        (gateEntryUpdates request) w.fetchLicenseKey.1 w.getInstallation.1
        w.getInstallation.2.1 (w.getNetworkingPullSecrets w.getInstallation.2.1).1
        w.getManagementCluster.1 w.getManagementClusterConnection.1
        (gateEntryTrace r request inst ++ gateTrace r) := by
    unfold reconcileGate
    simp only [hapi, htier, hget, hlic, hfetch, hinst, hpull, hmce, hmcce, if_neg hboth]
    simp [gateTrace]
  rw [hgate]
  unfold reconcileCertificates
  unfold truthNS at hcreate hmgr
  by_cases hmc : w.getManagementCluster.1 ≠ none
  · simp [hcreate, hmgr hmc, hmc, managerInternalTLSSecretOf, certificateTrace, truthNS]
  · simp [hcreate, hmc, managerInternalTLSSecretOf, certificateTrace, truthNS]

/-- The loop only appends to the trace. -/
theorem applyComponents_trace (w : World) (cs : List Component) (tr : List Event) :
    ∃ rest, (applyComponents w cs tr).2 = tr ++ rest := by
  induction cs generalizing tr with
  | nil => exact ⟨[], by simp [applyComponents]⟩
  | cons c cs ih =>
    unfold applyComponents
    cases hc : w.createOrUpdateOrDelete c with
    | some e => exact ⟨[Event.CreateOrUpdateOrDelete c], rfl⟩
    | none =>
      obtain ⟨rest, hrest⟩ := ih (tr ++ [Event.CreateOrUpdateOrDelete c])
      exact ⟨Event.CreateOrUpdateOrDelete c :: rest, by simp [hrest]⟩

/-- The apply part only appends to the trace. -/
theorem reconcileApply_trace (r : ReconcileCCS) (w : World)
    (inst : ComplianceConfigurationSecurity) (updates : Nat) (hasNoLicense : Bool)
    (components : List Component) (tr : List Event) :
    ∃ rest, (reconcileApply r w inst updates hasNoLicense components tr).trace = tr ++ rest := by
  obtain ⟨rest, hrest⟩ := applyComponents_trace w components tr
  unfold reconcileApply
  simp only [hrest]
  split
  · exact ⟨_, List.append_assoc _ _ _⟩
  · split
    · exact ⟨_, List.append_assoc _ _ _⟩
    · split
      · exact ⟨rest ++ [Event.ClearDegraded] ++ [Event.IsAvailable], by simp⟩
      · split <;>
          exact ⟨rest ++ [Event.ClearDegraded] ++ [Event.IsAvailable] ++
            [Event.StatusUpdate { inst with Status := { State := r.consts.TigeraStatusReady } }],
            by simp⟩

/-- The render part first asks for the binding namespaces. -/
theorem reconcileRender_trace (r : ReconcileCCS) (w : World) (request : Request)
    (tenant : Option Tenant) (inst : ComplianceConfigurationSecurity) (updates : Nat)
    (license : LicenseKey) (variant : String) (network : InstallationSpec)
    (pullSecrets : List String) (managementCluster : Option ManagementCluster)
    (managementClusterConnection : Option ManagementClusterConnection)
    (trustedBundle : TrustedBundle) (bundleMaker : Option TrustedBundle)
    (apiKeyPair : KeyPair) (authenticationCR : Option Authentication) (tr : List Event) :
    ∃ rest, (reconcileRender r w request tenant inst updates license variant network
      pullSecrets managementCluster managementClusterConnection trustedBundle bundleMaker
      apiKeyPair authenticationCR tr).trace = tr ++ Event.TenantNamespaces :: rest := by
  unfold reconcileRender
  simp only []
  split
  · exact ⟨[], by simp⟩
  · split
    · exact ⟨_, by simp; rfl⟩
    · split
      · exact ⟨_, by simp; rfl⟩
      · rename_i h1 h2 h3
        obtain ⟨rest, hrest⟩ := reconcileApply_trace r w inst updates
          (!w.isFeatureActive license r.consts.ComplianceFeature)
          [Component.namespaceComp
              (w.installNamespace r.multiTenant r.consts.CCSNamespace request.Namespace)
              network.KubernetesProvider,
            Component.certificateComponent
              { Namespace :=
                  w.installNamespace r.multiTenant r.consts.CCSNamespace request.Namespace,
                TruthNamespace :=
                  w.truthNamespace r.multiTenant r.consts.CCSNamespace request.Namespace,
                ServiceAccounts := [r.consts.APIResourceName],
                KeyPairOptions := [apiKeyPair],
                TrustedBundle := bundleMaker },
            Component.ccsComponent
              { TrustedBundle := trustedBundle,
                Installation := network,
                APIKeyPair := apiKeyPair,
                PullSecrets := pullSecrets,
                OpenShift := r.openshift,
                ManagementCluster := managementCluster,
                ManagementClusterConnection := managementClusterConnection,
                KeyValidatorConfig := (w.getKeyValidatorConfig authenticationCR r.clusterDomain).1,
                ClusterDomain := r.clusterDomain,
                HasNoLicense := !w.isFeatureActive license r.consts.ComplianceFeature,
                Namespace :=
                  w.installNamespace r.multiTenant r.consts.CCSNamespace request.Namespace,
                BindingNamespaces := w.tenantNamespaces.1,
                Tenant := tenant,
                ComplianceConfigurationSecurity := inst,
                ExternalElastic := r.externalElastic }]
          (tr ++ [Event.TenantNamespaces] ++ [Event.GetKeyValidatorConfig] ++
            [Event.ApplyImageSet])
        exact ⟨[Event.GetKeyValidatorConfig] ++ [Event.ApplyImageSet] ++ rest, by
          rw [hrest]; simp⟩

/-- An invocation that reaches the Linseed lookup and finds the certificate,
and loads the multi-tenant bundle when it needs it, is the key-pair part run
after those calls. -/
theorem Reconcile_of_linseed_found (r : ReconcileCCS) (w : World) (request : Request)
    (inst : ComplianceConfigurationSecurity) (linseed : Certificate)
    (h : reachesCertificateStep r w request inst)
    (hlin : linseedLookup r w request = (some linseed, none))
    (hmt : r.multiTenant = true →
      (w.loadMultiTenantTrustedBundle (installNS r w request)).2 = none) :
    Reconcile r w request =
      deferSetMetaData inst.ObjectMeta
        (reconcileKeyPairAuth r w request (w.getTenant r.multiTenant request.Namespace).1 inst
          (gateEntryUpdates request) w.fetchLicenseKey.1 w.getInstallation.1
          w.getInstallation.2.1 (w.getNetworkingPullSecrets w.getInstallation.2.1).1
          w.getManagementCluster.1 w.getManagementClusterConnection.1
          (trustedBundleOf r w request linseed) (bundleMakerOf r w request linseed)
          (gateEntryTrace r request inst ++ gateTrace r ++ certificateTrace r w request ++
            ([Event.GetCertificate (linseedCertLocationOf r w) (truthNS r w request),
              Event.CreateTrustedBundle] ++
             (if r.multiTenant then
               [Event.LoadMultiTenantTrustedBundle (installNS r w request)]
              else [])))) := by
  rw [Reconcile_of_reachesCertificateStep r w request inst h]
  unfold linseedLookup linseedCertLocationOf truthNS at hlin
  unfold installNS at hmt
  unfold reconcileLinseed
  simp only [hlin]
  by_cases hm : r.multiTenant = true
  · have hb := hmt hm
    rw [hm] at hb
    simp [hm, hb, trustedBundleOf, bundleMakerOf, installNS, truthNS, linseedCertLocationOf]
  · simp [hm, trustedBundleOf, bundleMakerOf, installNS, truthNS, linseedCertLocationOf]

/-- An invocation that reaches the check of the Authentication state is the
key-pair part reduced to that check. -/
theorem Reconcile_of_reachesAuthenticationCheck (r : ReconcileCCS) (w : World)
    (request : Request) (inst : ComplianceConfigurationSecurity) (linseed : Certificate)
    (h : reachesAuthenticationCheck r w request inst linseed) :
    Reconcile r w request =
      deferSetMetaData inst.ObjectMeta
        (match w.getAuthentication.1 with
        | some auth =>
          if auth.Status.State ≠ r.consts.TigeraStatusReady then
            { result := Result.empty, err := none,
              trace := renderEntryTrace r w request inst ++
                [Event.SetDegraded TigeraStatusReason.ResourceNotReady
                  ("Authentication is not ready - authenticationCR status: " ++
                    auth.Status.State) none] }
          else
            reconcileRender r w request (w.getTenant r.multiTenant request.Namespace).1 inst
              (gateEntryUpdates request) w.fetchLicenseKey.1 w.getInstallation.1
              w.getInstallation.2.1 (w.getNetworkingPullSecrets w.getInstallation.2.1).1
              w.getManagementCluster.1 w.getManagementClusterConnection.1
              (trustedBundleOf r w request linseed) (bundleMakerOf r w request linseed)
              (keyPairLookup r w request).1 (some auth) (renderEntryTrace r w request inst)
        | none =>
          reconcileRender r w request (w.getTenant r.multiTenant request.Namespace).1 inst
            (gateEntryUpdates request) w.fetchLicenseKey.1 w.getInstallation.1
            w.getInstallation.2.1 (w.getNetworkingPullSecrets w.getInstallation.2.1).1
            w.getManagementCluster.1 w.getManagementClusterConnection.1
            (trustedBundleOf r w request linseed) (bundleMakerOf r w request linseed)
            (keyPairLookup r w request).1 none (renderEntryTrace r w request inst)) := by
  obtain ⟨⟨hcert, hlin, hmt, hkey⟩, hauth⟩ := h
  rw [Reconcile_of_linseed_found r w request inst linseed hcert hlin hmt]
  unfold keyPairLookup installNS truthNS at hkey
  unfold reconcileKeyPairAuth
  simp only [hkey, if_neg hauth]
  simp [renderEntryTrace, authenticationTrace, keyPairLookup, installNS, truthNS]

/-- No `SetDegraded` is issued from the API-server check to the topology check
when all of them pass. -/
theorem degradedCalls_gateTrace (r : ReconcileCCS) : degradedCalls (gateTrace r) = [] := by
  simp [gateTrace, degradedCalls]

/-- No component is applied from the API-server check to the topology check. -/
theorem appliedComponents_gateTrace (r : ReconcileCCS) :
    appliedComponents (gateTrace r) = [] := by
  simp [gateTrace, appliedComponents]

/-- No `SetDegraded` is issued on the way to the Linseed lookup. -/
theorem degradedCalls_certificateTrace (r : ReconcileCCS) (w : World) (request : Request) :
    degradedCalls (certificateTrace r w request) = [] := by
  unfold certificateTrace
  split <;> simp [degradedCalls]

/-- No component is applied on the way to the Linseed lookup. -/
theorem appliedComponents_certificateTrace (r : ReconcileCCS) (w : World) (request : Request) :
    appliedComponents (certificateTrace r w request) = [] := by
  unfold certificateTrace
  split <;> simp [appliedComponents]

/-- No `SetDegraded` is issued from the Linseed lookup to the Authentication
read. -/
theorem degradedCalls_authenticationTrace (r : ReconcileCCS) (w : World) (request : Request) :
    degradedCalls (authenticationTrace r w request) = [] := by
  unfold authenticationTrace
  split <;> simp [degradedCalls]

/-- No component is applied from the Linseed lookup to the Authentication
read. -/
theorem appliedComponents_authenticationTrace (r : ReconcileCCS) (w : World)
    (request : Request) :
    appliedComponents (authenticationTrace r w request) = [] := by
  unfold authenticationTrace
  split <;> simp [appliedComponents]

/-- No `SetDegraded` is issued up to the Authentication read. -/
theorem degradedCalls_renderEntryTrace (r : ReconcileCCS) (w : World) (request : Request)
    (inst : ComplianceConfigurationSecurity) :
    degradedCalls (renderEntryTrace r w request inst) = [] := by
  unfold renderEntryTrace
  simp only [degradedCalls_append, degradedCalls_gateEntryTrace, degradedCalls_gateTrace,
    degradedCalls_certificateTrace, degradedCalls_authenticationTrace, List.append_nil]

/-- No component is applied up to the Authentication read. -/
theorem appliedComponents_renderEntryTrace (r : ReconcileCCS) (w : World) (request : Request)
    (inst : ComplianceConfigurationSecurity) :
    appliedComponents (renderEntryTrace r w request inst) = [] := by
  unfold renderEntryTrace
  simp only [appliedComponents_append, appliedComponents_gateEntryTrace,
    appliedComponents_gateTrace, appliedComponents_certificateTrace,
    appliedComponents_authenticationTrace, List.append_nil]

/-- C9, as stated, fails: the invocation reaches the certificate step and an
Authentication resource is present whose state is not Ready, but the API key
pair cannot be obtained; `Reconcile` returns that error and sets Degraded with
ResourceValidationError, not ResourceNotReady. -/
theorem C9_counterexample_key_pair_fails_before_authentication :
    reachesCertificateStep readyReconciler keyPairFailsWorld sampleRequest sampleInstance ∧
    keyPairFailsWorld.getAuthentication = (some degradedAuthentication, none) ∧
    degradedAuthentication.Status.State ≠ readyReconciler.consts.TigeraStatusReady ∧
    (Reconcile readyReconciler keyPairFailsWorld sampleRequest).err = some boom ∧
    degradedCalls (Reconcile readyReconciler keyPairFailsWorld sampleRequest).trace =
      [(TigeraStatusReason.ResourceValidationError,
        "failed to retrieve / validate  tigera-ccs-api-tls")] := by
  unfold reachesCertificateStep reachesTopologyCheck reachesInstallationQuery
    reachesLicenseFetch reachesTierWatchCheck reachesAPIServerCheck passesTenantChecks
  decide

/-- C9, amended.  For an invocation that reaches the certificate step:
(1) if the Linseed lookup succeeds with no certificate, `Reconcile` sets
Degraded with ResourceNotReady, returns the empty Result with a nil error and
applies no component;
(2) if it goes on to reach the check of the Authentication state (the Linseed
certificate is found, the bundle and the key pair are obtained, the
Authentication read does not fail) and an Authentication is present whose
state is not Ready, the same holds with the Authentication message;
(3) if it reaches the Authentication read and that read answers NotFound with
no resource, no Degraded is set for it and the pass continues with the binding
namespaces. -/
theorem C9_certificate_or_authentication_not_ready (r : ReconcileCCS) (w : World)
    (request : Request) (inst : ComplianceConfigurationSecurity)
    (h : reachesCertificateStep r w request inst) :
    (linseedLookup r w request = (none, none) →
      Reconcile r w request =
        { result := Result.empty, err := none,
          trace := gateEntryTrace r request inst ++
            (gateTrace r ++ certificateTrace r w request) ++
            [Event.GetCertificate (linseedCertLocationOf r w) (truthNS r w request),
             Event.SetDegraded TigeraStatusReason.ResourceNotReady
               "Linseed certificate is not available yet, waiting until it becomes available"
               none,
             Event.SetMetaData inst.ObjectMeta] } ∧
      degradedCalls (Reconcile r w request).trace =
        [(TigeraStatusReason.ResourceNotReady,
          "Linseed certificate is not available yet, waiting until it becomes available")] ∧
      appliedComponents (Reconcile r w request).trace = []) ∧
    (∀ linseed auth, reachesAuthenticationCheck r w request inst linseed →
      w.getAuthentication.1 = some auth →
      auth.Status.State ≠ r.consts.TigeraStatusReady →
      Reconcile r w request =
        { result := Result.empty, err := none,
          trace := renderEntryTrace r w request inst ++
            [Event.SetDegraded TigeraStatusReason.ResourceNotReady
               ("Authentication is not ready - authenticationCR status: " ++
                 auth.Status.State) none,
             Event.SetMetaData inst.ObjectMeta] } ∧
      degradedCalls (Reconcile r w request).trace =
        [(TigeraStatusReason.ResourceNotReady,
          "Authentication is not ready - authenticationCR status: " ++ auth.Status.State)] ∧
      appliedComponents (Reconcile r w request).trace = []) ∧
    (∀ linseed, reachesAuthenticationRead r w request inst linseed →
      w.getAuthentication.1 = none →
      IsNotFound w.getAuthentication.2 = true →
      degradedCalls (renderEntryTrace r w request inst) = [] ∧
      (renderEntryTrace r w request inst ++ [Event.TenantNamespaces]) <+:
        (Reconcile r w request).trace) := by
  refine ⟨?_, ?_, ?_⟩
  · intro hlin
    have hout : Reconcile r w request =
        { result := Result.empty, err := none,
          trace := gateEntryTrace r request inst ++
            (gateTrace r ++ certificateTrace r w request) ++
            [Event.GetCertificate (linseedCertLocationOf r w) (truthNS r w request),
             Event.SetDegraded TigeraStatusReason.ResourceNotReady
               "Linseed certificate is not available yet, waiting until it becomes available"
               none,
             Event.SetMetaData inst.ObjectMeta] } := by
      rw [Reconcile_of_reachesCertificateStep r w request inst h]
      unfold linseedLookup linseedCertLocationOf truthNS at hlin
      unfold reconcileLinseed
      simp only [hlin]
      simp [deferSetMetaData, linseedCertLocationOf, truthNS]
    rw [hout]
    simp only [degradedCalls_append, degradedCalls_gateEntryTrace, degradedCalls_gateTrace,
      degradedCalls_certificateTrace, appliedComponents_append,
      appliedComponents_gateEntryTrace, appliedComponents_gateTrace,
      appliedComponents_certificateTrace]
    simp [degradedCalls, appliedComponents]
  · intro linseed auth hreach hauth hstate
    have hout : Reconcile r w request =
        { result := Result.empty, err := none,
          trace := renderEntryTrace r w request inst ++
            [Event.SetDegraded TigeraStatusReason.ResourceNotReady
               ("Authentication is not ready - authenticationCR status: " ++
                 auth.Status.State) none,
             Event.SetMetaData inst.ObjectMeta] } := by
      rw [Reconcile_of_reachesAuthenticationCheck r w request inst linseed hreach, hauth]
      simp [deferSetMetaData, hstate]
    rw [hout]
    simp only [degradedCalls_append, degradedCalls_renderEntryTrace,
      appliedComponents_append, appliedComponents_renderEntryTrace]
    simp [degradedCalls, appliedComponents]
  · intro linseed hread hauth hnf
    have hcheck : reachesAuthenticationCheck r w request inst linseed :=
      ⟨hread, fun hc => by rw [hc.2] at hnf; exact Bool.noConfusion hnf⟩
    refine ⟨degradedCalls_renderEntryTrace r w request inst, ?_⟩
    rw [Reconcile_of_reachesAuthenticationCheck r w request inst linseed hcheck, hauth]
    obtain ⟨rest, hrest⟩ := reconcileRender_trace r w request
      (w.getTenant r.multiTenant request.Namespace).1 inst
      (gateEntryUpdates request) w.fetchLicenseKey.1 w.getInstallation.1
      w.getInstallation.2.1 (w.getNetworkingPullSecrets w.getInstallation.2.1).1
      w.getManagementCluster.1 w.getManagementClusterConnection.1
      (trustedBundleOf r w request linseed) (bundleMakerOf r w request linseed)
      (keyPairLookup r w request).1 none (renderEntryTrace r w request inst)
    refine ⟨rest ++ [Event.SetMetaData inst.ObjectMeta], ?_⟩
    simp [deferSetMetaData, hrest]

/-- An invocation that passes every gate is the apply part run on the three
rendered components. -/
theorem Reconcile_of_reachesApply (r : ReconcileCCS) (w : World) (request : Request)
    (inst : ComplianceConfigurationSecurity) (linseed : Certificate)
    (h : reachesApply r w request inst linseed) :
    Reconcile r w request =
      deferSetMetaData inst.ObjectMeta
        (reconcileApply r w inst (gateEntryUpdates request) (hasNoLicenseOf r w)
          (componentsOf r w request inst linseed) (applyEntryTrace r w request inst)) := by
  obtain ⟨hcheck, hready, hbind, hkvc, himg⟩ := h
  rw [Reconcile_of_reachesAuthenticationCheck r w request inst linseed hcheck]
  have hrender : ∀ auth, w.getAuthentication.1 = auth →
      reconcileRender r w request (w.getTenant r.multiTenant request.Namespace).1 inst
        (gateEntryUpdates request) w.fetchLicenseKey.1 w.getInstallation.1
        w.getInstallation.2.1 (w.getNetworkingPullSecrets w.getInstallation.2.1).1
        w.getManagementCluster.1 w.getManagementClusterConnection.1
        (trustedBundleOf r w request linseed) (bundleMakerOf r w request linseed)
        (keyPairLookup r w request).1 auth (renderEntryTrace r w request inst) =
      reconcileApply r w inst (gateEntryUpdates request) (hasNoLicenseOf r w)
        (componentsOf r w request inst linseed) (applyEntryTrace r w request inst) := by
    intro auth hauth
    subst hauth
    unfold ccsComponentOf ccsConfigOf hasNoLicenseOf installNS at himg
    unfold reconcileRender
    simp only [hbind, hkvc, himg]
    simp [componentsOf, namespaceCompOf, certificateComponentOf, ccsComponentOf, ccsConfigOf,
      hasNoLicenseOf, installNS, truthNS, applyEntryTrace]
  cases hauth : w.getAuthentication.1 with
  | none => simp only [hrender none hauth]
  | some auth =>
    have hst : auth.Status.State = r.consts.TigeraStatusReady := hready auth hauth
    simp only [hrender (some auth) hauth, hst, ne_eq, not_true_eq_false, if_false]

/-- When every component applies, the loop hands all of them over in order. -/
theorem applyComponents_all_ok (w : World) (cs : List Component) (tr : List Event)
    (h : ∀ c ∈ cs, w.createOrUpdateOrDelete c = none) :
    applyComponents w cs tr = (none, tr ++ cs.map Event.CreateOrUpdateOrDelete) := by
  induction cs generalizing tr with
  | nil => simp [applyComponents]
  | cons c cs ih =>
    have hc : w.createOrUpdateOrDelete c = none := h c (List.mem_cons_self c cs)
    unfold applyComponents
    rw [hc]
    simp only []
    rw [ih (tr ++ [Event.CreateOrUpdateOrDelete c])
      (fun d hd => h d (List.mem_cons_of_mem c hd))]
    simp

/-- The loop hands over exactly the attempted components. -/
theorem appliedComponents_applyComponents (w : World) (cs : List Component)
    (tr : List Event) :
    appliedComponents (applyComponents w cs tr).2 =
      appliedComponents tr ++ attemptedComponents w cs := by
  induction cs generalizing tr with
  | nil => simp [applyComponents, attemptedComponents]
  | cons c cs ih =>
    unfold applyComponents attemptedComponents
    cases hc : w.createOrUpdateOrDelete c with
    | some e => simp [appliedComponents_append, appliedComponents]
    | none => simp [ih, appliedComponents_append, appliedComponents]

/-- Whatever path the apply part takes, the components it hands over are the
attempted ones. -/
theorem appliedComponents_reconcileApply (r : ReconcileCCS) (w : World)
    (inst : ComplianceConfigurationSecurity) (updates : Nat) (hasNoLicense : Bool)
    (components : List Component) (tr : List Event) :
    appliedComponents (reconcileApply r w inst updates hasNoLicense components tr).trace =
      appliedComponents tr ++ attemptedComponents w components := by
  have happ := appliedComponents_applyComponents w components tr
  unfold reconcileApply
  simp only []
  split
  · simp [appliedComponents_append, happ, appliedComponents]
  · split
    · simp [appliedComponents_append, happ, appliedComponents]
    · split
      · simp [appliedComponents_append, happ, appliedComponents]
      · split <;> simp [appliedComponents_append, happ, appliedComponents]

/-- No component is applied before the apply loop. -/
theorem appliedComponents_applyEntryTrace (r : ReconcileCCS) (w : World) (request : Request)
    (inst : ComplianceConfigurationSecurity) :
    appliedComponents (applyEntryTrace r w request inst) = [] := by
  unfold applyEntryTrace
  simp only [appliedComponents_append, appliedComponents_renderEntryTrace]
  simp [appliedComponents]

/-- No `SetDegraded` is issued before the apply loop. -/
theorem degradedCalls_applyEntryTrace (r : ReconcileCCS) (w : World) (request : Request)
    (inst : ComplianceConfigurationSecurity) :
    degradedCalls (applyEntryTrace r w request inst) = [] := by
  unfold applyEntryTrace
  simp only [degradedCalls_append, degradedCalls_renderEntryTrace]
  simp [degradedCalls]

/-- Applying components issues no `SetDegraded`. -/
theorem degradedCalls_map_apply (cs : List Component) :
    degradedCalls (cs.map Event.CreateOrUpdateOrDelete) = [] := by
  induction cs with
  | nil => rfl
  | cons c cs ih => simp [degradedCalls, ih]

/-- Applying components writes no status. -/
theorem statusUpdates_map_apply (cs : List Component) :
    statusUpdates (cs.map Event.CreateOrUpdateOrDelete) = [] := by
  induction cs with
  | nil => rfl
  | cons c cs ih => simp [statusUpdates, ih]

/-- The applied components of a run of apply events. -/
theorem appliedComponents_map_apply (cs : List Component) :
    appliedComponents (cs.map Event.CreateOrUpdateOrDelete) = cs := by
  induction cs with
  | nil => rfl
  | cons c cs ih => simp [appliedComponents, ih]

/-- The status updates before the apply loop are those of the entry calls. -/
theorem statusUpdates_applyEntryTrace (r : ReconcileCCS) (w : World) (request : Request)
    (inst : ComplianceConfigurationSecurity) :
    statusUpdates (applyEntryTrace r w request inst) =
      statusUpdates (gateEntryTrace r request inst) := by
  have h1 : statusUpdates (gateTrace r) = [] := by simp [gateTrace, statusUpdates]
  have h2 : statusUpdates (certificateTrace r w request) = [] := by
    unfold certificateTrace
    split <;> simp [statusUpdates]
  have h3 : statusUpdates (authenticationTrace r w request) = [] := by
    unfold authenticationTrace
    split <;> simp [statusUpdates]
  unfold applyEntryTrace renderEntryTrace
  simp only [statusUpdates_append, h1, h2, h3, List.append_nil]
  simp [statusUpdates]

/-- `ClearDegraded` is not called before the apply loop. -/
theorem clearDegraded_not_mem_applyEntryTrace (r : ReconcileCCS) (w : World)
    (request : Request) (inst : ComplianceConfigurationSecurity) :
    Event.ClearDegraded ∉ applyEntryTrace r w request inst := by
  unfold applyEntryTrace renderEntryTrace gateEntryTrace gateTrace certificateTrace
    authenticationTrace
  simp only [List.mem_append, not_or]
  refine ⟨⟨⟨⟨⟨?_, ?_⟩, ?_⟩, ?_, ?_⟩, ?_⟩, ?_⟩ <;> first | (split <;> simp) | simp

/-- C10: license-off.  When every gate passes and the license lacks the
compliance feature, `Reconcile` still runs the apply loop over the three
components, rendered with `Config.HasNoLicense = true`: the namespace
component is always handed over and each next one follows while the earlier
ones apply.  If all three apply without error, it then sets Degraded with
ResourceValidationError, does not call `ClearDegraded`, issues no status
update after the entry calls (so the Ready state is not written), and returns
the empty Result with a nil error. -/
theorem C10_license_off_still_applies (r : ReconcileCCS) (w : World) (request : Request)
    (inst : ComplianceConfigurationSecurity) (linseed : Certificate)
    (h : reachesApply r w request inst linseed) (hlic : hasNoLicenseOf r w = true) :
    componentsOf r w request inst linseed =
      [namespaceCompOf r w request, certificateComponentOf r w request linseed,
       Component.ccsComponent (ccsConfigOf r w request inst linseed)] ∧
    (ccsConfigOf r w request inst linseed).HasNoLicense = true ∧
    appliedComponents (Reconcile r w request).trace =
      attemptedComponents w (componentsOf r w request inst linseed) ∧
    (appliedComponents (Reconcile r w request).trace).head? =
      some (namespaceCompOf r w request) ∧
    ((∀ c ∈ componentsOf r w request inst linseed, w.createOrUpdateOrDelete c = none) →
      Reconcile r w request =
        { result := Result.empty, err := none,
          trace := applyEntryTrace r w request inst ++
            (componentsOf r w request inst linseed).map Event.CreateOrUpdateOrDelete ++
            [Event.SetDegraded TigeraStatusReason.ResourceValidationError
               "Feature is not active - License does not support this feature" none,
             Event.SetMetaData inst.ObjectMeta] } ∧
      appliedComponents (Reconcile r w request).trace =
        componentsOf r w request inst linseed ∧
      degradedCalls (Reconcile r w request).trace =
        [(TigeraStatusReason.ResourceValidationError,
          "Feature is not active - License does not support this feature")] ∧
      Event.ClearDegraded ∉ (Reconcile r w request).trace ∧
      statusUpdates (Reconcile r w request).trace =
        statusUpdates (gateEntryTrace r request inst) ∧
      (Reconcile r w request).result = Result.empty ∧
      (Reconcile r w request).err = none) := by
  have happlied : appliedComponents (Reconcile r w request).trace =
      attemptedComponents w (componentsOf r w request inst linseed) := by
    rw [Reconcile_of_reachesApply r w request inst linseed h]
    simp only [deferSetMetaData, appliedComponents_append, appliedComponents_reconcileApply,
      appliedComponents_applyEntryTrace]
    simp [appliedComponents]
  refine ⟨rfl, hlic, happlied, ?_, ?_⟩
  · rw [happlied]
    unfold componentsOf attemptedComponents
    split <;> rfl
  · intro hall
    have hout : Reconcile r w request =
        { result := Result.empty, err := none,
          trace := applyEntryTrace r w request inst ++
            (componentsOf r w request inst linseed).map Event.CreateOrUpdateOrDelete ++
            [Event.SetDegraded TigeraStatusReason.ResourceValidationError
               "Feature is not active - License does not support this feature" none,
             Event.SetMetaData inst.ObjectMeta] } := by
      rw [Reconcile_of_reachesApply r w request inst linseed h]
      unfold reconcileApply
      rw [applyComponents_all_ok w _ _ hall]
      simp [deferSetMetaData, hlic]
    have hclear := clearDegraded_not_mem_applyEntryTrace r w request inst
    rw [hout]
    simp only [degradedCalls_append, degradedCalls_applyEntryTrace, degradedCalls_map_apply,
      appliedComponents_append, appliedComponents_applyEntryTrace,
      appliedComponents_map_apply, statusUpdates_append, statusUpdates_applyEntryTrace,
      statusUpdates_map_apply]
    refine ⟨trivial, by simp [appliedComponents], by simp [degradedCalls], ?_,
      by simp [statusUpdates], trivial, trivial⟩
    simp only [List.mem_append, not_or]
    exact ⟨⟨hclear, by simp⟩, by simp⟩

/-- The cluster whose license lacks the feature passes every gate. -/
theorem C10_witness :
    reachesApply readyReconciler licenseOffWorld sampleRequest sampleInstance sampleLinseed ∧
    hasNoLicenseOf readyReconciler licenseOffWorld = true ∧
    appliedComponents (Reconcile readyReconciler licenseOffWorld sampleRequest).trace =
      attemptedComponents licenseOffWorld
        (componentsOf readyReconciler licenseOffWorld sampleRequest sampleInstance
          sampleLinseed) ∧
    degradedCalls (Reconcile readyReconciler licenseOffWorld sampleRequest).trace =
      [(TigeraStatusReason.ResourceValidationError,
        "Feature is not active - License does not support this feature")] :=
  have h : reachesApply readyReconciler licenseOffWorld sampleRequest sampleInstance
      sampleLinseed := by
    unfold reachesApply reachesAuthenticationCheck reachesAuthenticationRead
      reachesCertificateStep reachesTopologyCheck reachesInstallationQuery
      reachesLicenseFetch reachesTierWatchCheck reachesAPIServerCheck passesTenantChecks
    decide
  ⟨h, rfl,
    (C10_license_off_still_applies _ _ _ _ _ h rfl).2.2.1,
    ((C10_license_off_still_applies _ _ _ _ _ h rfl).2.2.2.2 (fun _ _ => rfl)).2.2.1⟩

/-- The three parts of C9 on concrete clusters: no Linseed certificate, an
Authentication that is not ready, and no Authentication at all. -/
theorem C9_witness :
    reachesCertificateStep readyReconciler linseedMissingWorld sampleRequest sampleInstance ∧
    linseedLookup readyReconciler linseedMissingWorld sampleRequest = (none, none) ∧
    degradedCalls (Reconcile readyReconciler linseedMissingWorld sampleRequest).trace =
      [(TigeraStatusReason.ResourceNotReady,
        "Linseed certificate is not available yet, waiting until it becomes available")] ∧
    reachesAuthenticationCheck readyReconciler authenticationNotReadyWorld sampleRequest
      sampleInstance sampleLinseed ∧
    degradedCalls (Reconcile readyReconciler authenticationNotReadyWorld sampleRequest).trace =
      [(TigeraStatusReason.ResourceNotReady,
        "Authentication is not ready - authenticationCR status: Degraded")] ∧
    reachesAuthenticationRead readyReconciler readyWorld sampleRequest sampleInstance
      sampleLinseed ∧
    IsNotFound readyWorld.getAuthentication.2 = true ∧
    (renderEntryTrace readyReconciler readyWorld sampleRequest sampleInstance ++
        [Event.TenantNamespaces]) <+:
      (Reconcile readyReconciler readyWorld sampleRequest).trace :=
  have h1 : reachesCertificateStep readyReconciler linseedMissingWorld sampleRequest
      sampleInstance := by
    unfold reachesCertificateStep reachesTopologyCheck reachesInstallationQuery
      reachesLicenseFetch reachesTierWatchCheck reachesAPIServerCheck passesTenantChecks
    decide
  have h2 : reachesAuthenticationCheck readyReconciler authenticationNotReadyWorld
      sampleRequest sampleInstance sampleLinseed := by
    unfold reachesAuthenticationCheck reachesAuthenticationRead
      reachesCertificateStep reachesTopologyCheck reachesInstallationQuery
      reachesLicenseFetch reachesTierWatchCheck reachesAPIServerCheck passesTenantChecks
    decide
  have h3 : reachesAuthenticationRead readyReconciler readyWorld sampleRequest
      sampleInstance sampleLinseed := by
    unfold reachesAuthenticationRead
      reachesCertificateStep reachesTopologyCheck reachesInstallationQuery
      reachesLicenseFetch reachesTierWatchCheck reachesAPIServerCheck passesTenantChecks
    decide
  ⟨h1, rfl,
    ((C9_certificate_or_authentication_not_ready _ _ _ _ h1).1 rfl).2.1,
    h2,
    ((C9_certificate_or_authentication_not_ready _ _ _ _ h2.1.1).2.1 sampleLinseed
      degradedAuthentication h2 rfl (by decide)).2.1,
    h3, rfl,
    ((C9_certificate_or_authentication_not_ready _ _ _ _ h3.1).2.2 sampleLinseed h3 rfl
      rfl).2⟩

/-- The deferred call does not change the verdict. -/
theorem verdictOf_deferSetMetaData (om : ObjectMeta) (o : Outcome) :
    verdictOf (deferSetMetaData om o) = verdictOf o := by
  simp [verdictOf, deferSetMetaData, degradedCalls_append, degradedCalls]

/-- A read that neither answers NotFound nor fails otherwise succeeded. -/
theorem eq_none_of_not_fails (err : Option GoError) (hnf : IsNotFound err = false)
    (hother : ¬ failsOtherThanNotFound err) : err = none := by
  by_contra hne
  exact hother ⟨hne, hnf⟩

/-- A NotFound answer is an error. -/
theorem ne_none_of_isNotFound (err : Option GoError) (hnf : IsNotFound err = true) :
    err ≠ none := by
  intro hnone
  rw [hnone] at hnf
  exact Bool.noConfusion hnf

/-- Row 4 at the gate: the API server is not ready. -/
theorem verdictOf_reconcileGate_apiServer (r : ReconcileCCS) (w : World) (request : Request)
    (tenant : Option Tenant) (inst : ComplianceConfigurationSecurity) (updates : Nat)
    (tr : List Event) (htr : degradedCalls tr = []) (hapi : w.isAPIServerReady = false) :
    verdictOf (reconcileGate r w request tenant inst updates none tr) =
      verdictDegradedDone TigeraStatusReason.ResourceNotReady
        "Waiting for Tigera API server to be ready" := by
  simp [reconcileGate, verdictOf, hapi, degradedCalls_append, htr, degradedCalls,
    verdictDegradedDone]

/-- Row 5 at the gate: the tier watch is not established. -/
theorem verdictOf_reconcileGate_tierWatch (r : ReconcileCCS) (w : World) (request : Request)
    (tenant : Option Tenant) (inst : ComplianceConfigurationSecurity) (updates : Nat)
    (tr : List Event) (htr : degradedCalls tr = []) (hapi : w.isAPIServerReady = true)
    (htier : r.tierWatchReady = false) :
    verdictOf (reconcileGate r w request tenant inst updates none tr) =
      verdictDegradedRequeue r TigeraStatusReason.ResourceNotReady
        "Waiting for Tier watch to be established" := by
  simp [reconcileGate, verdictOf, hapi, htier, degradedCalls_append, htr, degradedCalls,
    verdictDegradedRequeue]

/-- Row 6 at the gate: the tier is absent. -/
theorem verdictOf_reconcileGate_tier (r : ReconcileCCS) (w : World) (request : Request)
    (tenant : Option Tenant) (inst : ComplianceConfigurationSecurity) (updates : Nat)
    (tr : List Event) (htr : degradedCalls tr = []) (hapi : w.isAPIServerReady = true)
    (htier : r.tierWatchReady = true)
    (hnf : IsNotFound (w.clientGetTier r.consts.TigeraComponentTierName) = true) :
    verdictOf (reconcileGate r w request tenant inst updates none tr) =
      verdictDegradedRequeue r TigeraStatusReason.ResourceNotReady
        ("Waiting for allow-tigera tier to be created, see the \x27tiers\x27 " ++
          "TigeraStatus for more information") := by
  have hne := ne_none_of_isNotFound _ hnf
  simp [reconcileGate, verdictOf, hapi, htier, hnf, hne, degradedCalls_append, htr,
    degradedCalls, verdictDegradedRequeue]

/-- Row 7 at the gate: the license watch is not established. -/
theorem verdictOf_reconcileGate_licenseWatch (r : ReconcileCCS) (w : World)
    (request : Request) (tenant : Option Tenant) (inst : ComplianceConfigurationSecurity)
    (updates : Nat) (tr : List Event) (htr : degradedCalls tr = [])
    (hapi : w.isAPIServerReady = true) (htier : r.tierWatchReady = true)
    (hget : w.clientGetTier r.consts.TigeraComponentTierName = none)
    (hlic : r.licenseAPIReady = false) :
    verdictOf (reconcileGate r w request tenant inst updates none tr) =
      verdictDegradedRequeue r TigeraStatusReason.ResourceNotReady
        "Waiting for LicenseKeyAPI to be ready" := by
  simp [reconcileGate, verdictOf, hapi, htier, hget, hlic, degradedCalls_append, htr,
    degradedCalls, verdictDegradedRequeue]

/-- Row 8 at the gate: the license is missing. -/
theorem verdictOf_reconcileGate_license (r : ReconcileCCS) (w : World) (request : Request)
    (tenant : Option Tenant) (inst : ComplianceConfigurationSecurity) (updates : Nat)
    (tr : List Event) (htr : degradedCalls tr = []) (hapi : w.isAPIServerReady = true)
    (htier : r.tierWatchReady = true)
    (hget : w.clientGetTier r.consts.TigeraComponentTierName = none)
    (hlic : r.licenseAPIReady = true) (hnf : IsNotFound w.fetchLicenseKey.2 = true) :
    verdictOf (reconcileGate r w request tenant inst updates none tr) =
      verdictDegradedRequeue r TigeraStatusReason.ResourceNotFound "License not found" := by
  have hne := ne_none_of_isNotFound _ hnf
  simp [reconcileGate, verdictOf, hapi, htier, hget, hlic, hnf, hne, degradedCalls_append,
    htr, degradedCalls, verdictDegradedRequeue]

/-- Row 9 at the gate: the installation is missing. -/
theorem verdictOf_reconcileGate_installation (r : ReconcileCCS) (w : World)
    (request : Request) (tenant : Option Tenant) (inst : ComplianceConfigurationSecurity)
    (updates : Nat) (tr : List Event) (htr : degradedCalls tr = [])
    (hapi : w.isAPIServerReady = true) (htier : r.tierWatchReady = true)
    (hget : w.clientGetTier r.consts.TigeraComponentTierName = none)
    (hlic : r.licenseAPIReady = true) (hfetch : w.fetchLicenseKey.2 = none)
    (hnf : IsNotFound w.getInstallation.2.2 = true) :
    verdictOf (reconcileGate r w request tenant inst updates none tr) =
      verdictDegradedError w.getInstallation.2.2 TigeraStatusReason.ResourceNotFound
        "Installation not found" := by
  have hne := ne_none_of_isNotFound _ hnf
  simp [reconcileGate, verdictOf, hapi, htier, hget, hlic, hfetch, hnf, hne,
    degradedCalls_append, htr, degradedCalls, verdictDegradedError]

/-- Row 10 at the gate: both topology resources are present. -/
theorem verdictOf_reconcileGate_topology (r : ReconcileCCS) (w : World) (request : Request)
    (tenant : Option Tenant) (inst : ComplianceConfigurationSecurity) (updates : Nat)
    (tr : List Event) (htr : degradedCalls tr = []) (hapi : w.isAPIServerReady = true)
    (htier : r.tierWatchReady = true)
    (hget : w.clientGetTier r.consts.TigeraComponentTierName = none)
    (hlic : r.licenseAPIReady = true) (hfetch : w.fetchLicenseKey.2 = none)
    (hinst : w.getInstallation.2.2 = none)
    (hpull : (w.getNetworkingPullSecrets w.getInstallation.2.1).2 = none)
    (hmce : w.getManagementCluster.2 = none)
    (hmcce : w.getManagementClusterConnection.2 = none)
    (hboth : w.getManagementClusterConnection.1 ≠ none ∧ w.getManagementCluster.1 ≠ none) :
    verdictOf (reconcileGate r w request tenant inst updates none tr) =
      verdictDegradedError (some topologyConflict)
        TigeraStatusReason.ResourceValidationError "" := by
  simp [reconcileGate, verdictOf, hapi, htier, hget, hlic, hfetch, hinst, hpull, hmce, hmcce,
    hboth.1, hboth.2, degradedCalls_append, htr, degradedCalls, verdictDegradedError,
    topologyConflict]

/-- Row 11 through the certificate: the Linseed lookup finds nothing. -/
theorem verdictOf_linseedMissing (r : ReconcileCCS) (w : World) (request : Request)
    (inst : ComplianceConfigurationSecurity) (h : reachesCertificateStep r w request inst)
    (hlin : linseedLookup r w request = (none, none)) :
    verdictOf (Reconcile r w request) =
      verdictDegradedDone TigeraStatusReason.ResourceNotReady
        "Linseed certificate is not available yet, waiting until it becomes available" := by
  rw [Reconcile_of_reachesCertificateStep r w request inst h, verdictOf_deferSetMetaData]
  have htr : degradedCalls
      (gateEntryTrace r request inst ++ gateTrace r ++ certificateTrace r w request) = [] := by
    simp only [degradedCalls_append, degradedCalls_gateEntryTrace, degradedCalls_gateTrace,
      degradedCalls_certificateTrace, List.append_nil]
  generalize gateEntryTrace r request inst ++ gateTrace r ++ certificateTrace r w request = tr
    at htr ⊢
  unfold linseedLookup linseedCertLocationOf truthNS at hlin
  unfold reconcileLinseed
  simp only [hlin]
  simp [verdictOf, degradedCalls_append, htr, degradedCalls, verdictDegradedDone]

/-- Row 11 through the Authentication: one is present and not Ready. -/
theorem verdictOf_authenticationNotReady (r : ReconcileCCS) (w : World) (request : Request)
    (inst : ComplianceConfigurationSecurity) (linseed : Certificate) (auth : Authentication)
    (h : reachesAuthenticationCheck r w request inst linseed)
    (hauth : w.getAuthentication.1 = some auth)
    (hstate : auth.Status.State ≠ r.consts.TigeraStatusReady) :
    verdictOf (Reconcile r w request) =
      verdictDegradedDone TigeraStatusReason.ResourceNotReady
        ("Authentication is not ready - authenticationCR status: " ++ auth.Status.State) := by
  rw [Reconcile_of_reachesAuthenticationCheck r w request inst linseed h,
    verdictOf_deferSetMetaData, hauth]
  have htr := degradedCalls_renderEntryTrace r w request inst
  generalize renderEntryTrace r w request inst = tr at htr ⊢
  simp [hstate, verdictOf, degradedCalls_append, htr, degradedCalls, verdictDegradedDone]

/-- The first row of a table is either the earliest unmet one or it is met and
the search goes on in the rest. -/
theorem earliestUnmetFrom_cons (j : Nat) (unmet : Bool) (v0 : GateVerdict)
    (rows : List (Bool × GateVerdict)) (k : Nat) (v : GateVerdict)
    (h : earliestUnmetFrom j ((unmet, v0) :: rows) = some (k, v)) :
    (unmet = true ∧ k = j ∧ v = v0) ∨
      (unmet = false ∧ earliestUnmetFrom (j + 1) rows = some (k, v)) := by
  unfold earliestUnmetFrom at h
  cases unmet with
  | true =>
    simp at h
    exact Or.inl ⟨rfl, h.1.symm, h.2.symm⟩
  | false =>
    simp at h
    exact Or.inr ⟨rfl, h⟩

/-- The number of the earliest unmet row is at least the number of the first
row searched. -/
theorem le_of_earliestUnmetFrom (rows : List (Bool × GateVerdict)) (j k : Nat)
    (v : GateVerdict) (h : earliestUnmetFrom j rows = some (k, v)) : j ≤ k := by
  induction rows generalizing j with
  | nil => simp [earliestUnmetFrom] at h
  | cons row rows ih =>
    obtain ⟨unmet, v0⟩ := row
    rcases earliestUnmetFrom_cons j unmet v0 rows k v h with ⟨_, hk, _⟩ | ⟨_, hrest⟩
    · exact le_of_eq hk.symm
    · exact Nat.le_of_succ_le (ih (j + 1) hrest)

/-- C2, amended: the readiness gate follows the order of the table.  If row
`k` is the earliest unmet precondition of the table and no check of
`Reconcile` outside the table fails before row `k`, then the result, the
error and the `SetDegraded` reasons and messages of the invocation are exactly
the disposition of row `k`, whatever the later rows are: the Degraded status
of no later check is issued. -/
theorem C2_gate_follows_table_order (r : ReconcileCCS) (w : World) (request : Request)
    (k : Nat) (v : GateVerdict)
    (hk : earliestUnmet (gateTable r w request) = some (k, v))
    (hother : otherChecksPassBefore r w request k) :
    verdictOf (Reconcile r w request) = v := by
  obtain ⟨ho3, ho4, ho7, ho9, ho10, ho11⟩ := hother
  unfold earliestUnmet gateTable at hk
  -- row 1: multi-tenant request without a namespace
  rcases earliestUnmetFrom_cons _ _ _ _ _ _ hk with ⟨hb, rfl, rfl⟩ | ⟨hb1, hk⟩
  · have h1 : r.multiTenant = true ∧ request.Namespace = "" := of_decide_eq_true hb
    unfold Reconcile
    rw [if_pos h1]
    simp [verdictOf, verdictDone, degradedCalls]
  have h1 : ¬ (r.multiTenant = true ∧ request.Namespace = "") := of_decide_eq_false hb1
  -- row 2: owning tenant missing
  rcases earliestUnmetFrom_cons _ _ _ _ _ _ hk with ⟨hb, rfl, rfl⟩ | ⟨hb2, hk⟩
  · unfold Reconcile
    rw [if_neg h1]
    simp [hb, verdictOf, verdictDone, degradedCalls]
  have hle3 : 3 ≤ k := le_of_earliestUnmetFrom _ _ _ _ hk
  have hten : (w.getTenant r.multiTenant request.Namespace).2 = none :=
    eq_none_of_not_fails _ hb2 (ho3 hle3)
  -- row 3: target resource missing
  rcases earliestUnmetFrom_cons _ _ _ _ _ _ hk with ⟨hb, rfl, rfl⟩ | ⟨hb3, hk⟩
  · unfold targetMissing at hb
    unfold Reconcile
    rw [if_neg h1]
    cases hget : GetCCS w r.multiTenant request.Namespace with
    | error e =>
      have hnf : e.notFound = true := by simpa [hget] using hb
      simp [hten, IsNotFound, hnf, verdictOf, verdictDone, degradedCalls]
    | ok inst =>
      simp [hget] at hb
  have hle4 : 4 ≤ k := le_of_earliestUnmetFrom _ _ _ _ hk
  obtain ⟨inst, hget⟩ : ∃ inst, GetCCS w r.multiTenant request.Namespace = Except.ok inst := by
    cases hget : GetCCS w r.multiTenant request.Namespace with
    | error e =>
      unfold targetMissing at hb3
      have hnf := (ho4 hle4).1 e hget
      simp [hget, hnf] at hb3
    | ok inst => exact ⟨inst, rfl⟩
  have hreach : reachesAPIServerCheck r w request inst :=
    ⟨⟨h1, hten⟩, hget, fun hc => ⟨((ho4 hle4).2 hc).1, ((ho4 hle4).2 hc).2 inst hget⟩⟩
  have hentry := degradedCalls_gateEntryTrace r request inst
  rw [Reconcile_of_reachesAPIServerCheck r w request inst hreach, verdictOf_deferSetMetaData]
  -- row 4: API server not ready
  rcases earliestUnmetFrom_cons _ _ _ _ _ _ hk with ⟨hb, rfl, rfl⟩ | ⟨hb4, hk⟩
  · exact verdictOf_reconcileGate_apiServer r w request _ inst _ _ hentry (by simpa using hb)
  have hapi : w.isAPIServerReady = true := by simpa using hb4
  -- row 5: tier watch not yet established
  rcases earliestUnmetFrom_cons _ _ _ _ _ _ hk with ⟨hb, rfl, rfl⟩ | ⟨hb5, hk⟩
  · exact verdictOf_reconcileGate_tierWatch r w request _ inst _ _ hentry hapi
      (by simpa using hb)
  have htier : r.tierWatchReady = true := by simpa using hb5
  -- row 6: required policy tier object absent
  rcases earliestUnmetFrom_cons _ _ _ _ _ _ hk with ⟨hb, rfl, rfl⟩ | ⟨hb6, hk⟩
  · exact verdictOf_reconcileGate_tier r w request _ inst _ _ hentry hapi htier hb
  have hle7 : 7 ≤ k := le_of_earliestUnmetFrom _ _ _ _ hk
  have htierGet : w.clientGetTier r.consts.TigeraComponentTierName = none :=
    eq_none_of_not_fails _ hb6 (ho7 hle7)
  -- row 7: license watch not yet established
  rcases earliestUnmetFrom_cons _ _ _ _ _ _ hk with ⟨hb, rfl, rfl⟩ | ⟨hb7, hk⟩
  · exact verdictOf_reconcileGate_licenseWatch r w request _ inst _ _ hentry hapi htier
      htierGet (by simpa using hb)
  have hlic : r.licenseAPIReady = true := by simpa using hb7
  -- row 8: license key object missing
  rcases earliestUnmetFrom_cons _ _ _ _ _ _ hk with ⟨hb, rfl, rfl⟩ | ⟨hb8, hk⟩
  · exact verdictOf_reconcileGate_license r w request _ inst _ _ hentry hapi htier
      htierGet hlic hb
  have hle9 : 9 ≤ k := le_of_earliestUnmetFrom _ _ _ _ hk
  have hfetch : w.fetchLicenseKey.2 = none := eq_none_of_not_fails _ hb8 (ho9 hle9)
  -- row 9: installation object missing
  rcases earliestUnmetFrom_cons _ _ _ _ _ _ hk with ⟨hb, rfl, rfl⟩ | ⟨hb9, hk⟩
  · exact verdictOf_reconcileGate_installation r w request _ inst _ _ hentry hapi htier
      htierGet hlic hfetch hb
  have hle10 : 10 ≤ k := le_of_earliestUnmetFrom _ _ _ _ hk
  obtain ⟨hinstOther, hpull, hmce, hmcce⟩ := ho10 hle10
  have hinst : w.getInstallation.2.2 = none := eq_none_of_not_fails _ hb9 hinstOther
  -- row 10: both topology resources present
  rcases earliestUnmetFrom_cons _ _ _ _ _ _ hk with ⟨hb, rfl, rfl⟩ | ⟨hb10, hk⟩
  · exact verdictOf_reconcileGate_topology r w request _ inst _ _ hentry hapi htier
      htierGet hlic hfetch hinst hpull hmce hmcce (of_decide_eq_true hb)
  have hboth : ¬ (w.getManagementClusterConnection.1 ≠ none ∧
      w.getManagementCluster.1 ≠ none) := of_decide_eq_false hb10
  have hle11 : 11 ≤ k := le_of_earliestUnmetFrom _ _ _ _ hk
  obtain ⟨hcreate, hmgr, hlinErr, hrest⟩ := ho11 hle11
  have hcert : reachesCertificateStep r w request inst :=
    ⟨⟨⟨⟨⟨hreach, hapi⟩, htier, htierGet, hlic⟩, hfetch⟩, hinst, hpull, hmce, hmcce⟩,
      hboth, hcreate, hmgr⟩
  rw [← verdictOf_deferSetMetaData inst.ObjectMeta,
    ← Reconcile_of_reachesAPIServerCheck r w request inst hreach]
  -- row 11: certificate or authentication not ready
  rcases earliestUnmetFrom_cons _ _ _ _ _ _ hk with ⟨hb, rfl, rfl⟩ | ⟨hb11, hk⟩
  · by_cases hlin : linseedLookup r w request = (none, none)
    · rw [verdictOf_linseedMissing r w request inst hcert hlin]
      simp [certificateOrAuthenticationMessage, hlin]
    · have hauthNot : authenticationNotReady r w = true := by
        simpa [hlin] using hb
      cases hl1 : (linseedLookup r w request).1 with
      | none =>
        exact absurd (Prod.ext hl1 hlinErr) hlin
      | some linseed =>
        have hne : (linseedLookup r w request).1 ≠ none := by simp [hl1]
        obtain ⟨hmt, hkey, hauthOther⟩ := hrest hne
        have hcheck : reachesAuthenticationCheck r w request inst linseed :=
          ⟨⟨hcert, Prod.ext hl1 hlinErr, hmt, hkey⟩, hauthOther⟩
        unfold authenticationNotReady at hauthNot
        cases hauth : w.getAuthentication.1 with
        | none =>
          rw [hauth] at hauthNot
          exact Bool.noConfusion hauthNot
        | some auth =>
          rw [hauth] at hauthNot
          have hstate : auth.Status.State ≠ r.consts.TigeraStatusReady :=
            of_decide_eq_true hauthNot
          rw [verdictOf_authenticationNotReady r w request inst linseed auth hcheck hauth
            hstate]
          simp [certificateOrAuthenticationMessage, hlin, hauth]
  · simp [earliestUnmetFrom] at hk

/-- C2, as stated, fails: with the API server not ready and neither watch
established, three rows of the table are unmet and the earliest is row 4, but
the tenant lookup fails with an error that is not a NotFound, and `Reconcile`
returns that error with ResourceReadError instead of the disposition of
row 4. -/
theorem C2_counterexample_tenant_read_error_comes_first :
    unmetCount (gateTable coldStartReconciler tenantReadFailsWorld sampleRequest) = 3 ∧
    earliestUnmet (gateTable coldStartReconciler tenantReadFailsWorld sampleRequest) =
      some (4, verdictDegradedDone TigeraStatusReason.ResourceNotReady
        "Waiting for Tigera API server to be ready") ∧
    verdictOf (Reconcile coldStartReconciler tenantReadFailsWorld sampleRequest) =
      { result := Result.empty, err := some boom,
        degraded := [(TigeraStatusReason.ResourceReadError,
          "An error occurred while querying Tenant")] } ∧
    verdictOf (Reconcile coldStartReconciler tenantReadFailsWorld sampleRequest) ≠
      verdictDegradedDone TigeraStatusReason.ResourceNotReady
        "Waiting for Tigera API server to be ready" := by
  decide

/-- Without a license and with an Authentication that is not ready, rows 8
and 11 are unmet and the invocation has the disposition of row 8. -/
theorem C2_witness :
    unmetCount (gateTable readyReconciler licenseMissingAuthenticationNotReadyWorld
      sampleRequest) = 2 ∧
    earliestUnmet (gateTable readyReconciler licenseMissingAuthenticationNotReadyWorld
      sampleRequest) =
      some (8, verdictDegradedRequeue readyReconciler TigeraStatusReason.ResourceNotFound
        "License not found") ∧
    otherChecksPassBefore readyReconciler licenseMissingAuthenticationNotReadyWorld
      sampleRequest 8 ∧
    verdictOf (Reconcile readyReconciler licenseMissingAuthenticationNotReadyWorld
      sampleRequest) =
      verdictDegradedRequeue readyReconciler TigeraStatusReason.ResourceNotFound
        "License not found" :=
  have hk : earliestUnmet (gateTable readyReconciler licenseMissingAuthenticationNotReadyWorld
      sampleRequest) =
      some (8, verdictDegradedRequeue readyReconciler TigeraStatusReason.ResourceNotFound
        "License not found") := by decide
  have ho : otherChecksPassBefore readyReconciler licenseMissingAuthenticationNotReadyWorld
      sampleRequest 8 :=
    ⟨fun _ => (by unfold failsOtherThanNotFound; decide),
      fun _ => ⟨fun e h => (by cases h), fun hc => absurd hc (by decide)⟩,
      fun _ => (by unfold failsOtherThanNotFound; decide),
      fun h => absurd h (by decide),
      fun h => absurd h (by decide),
      fun h => absurd h (by decide)⟩
  ⟨by decide, hk, ho, C2_gate_follows_table_order _ _ _ 8 _ hk ho⟩

/-- The loop stops at the first component that fails: the components before
it and that one are handed over, and its error is the result. -/
theorem applyComponents_first_failure (w : World) (pre post : List Component)
    (c : Component) (e : GoError) (tr : List Event)
    (hpre : ∀ d ∈ pre, w.createOrUpdateOrDelete d = none)
    (hc : w.createOrUpdateOrDelete c = some e) :
    applyComponents w (pre ++ c :: post) tr =
      (some e, tr ++ (pre ++ [c]).map Event.CreateOrUpdateOrDelete) := by
  induction pre generalizing tr with
  | nil =>
    simp only [List.nil_append]
    unfold applyComponents
    rw [hc]
    simp
  | cons d pre ih =>
    have hd : w.createOrUpdateOrDelete d = none := hpre d (List.mem_cons_self d pre)
    simp only [List.cons_append]
    unfold applyComponents
    rw [hd]
    simp only []
    rw [ih (tr ++ [Event.CreateOrUpdateOrDelete d])
      (fun x hx => hpre x (List.mem_cons_of_mem d hx))]
    simp

/-- The attempted components are an initial segment of the components. -/
theorem attemptedComponents_isInitial (w : World) (cs : List Component) :
    attemptedComponents w cs <+: cs := by
  induction cs with
  | nil => exact ⟨[], rfl⟩
  | cons c cs ih =>
    unfold attemptedComponents
    split
    · exact ⟨cs, rfl⟩
    · obtain ⟨rest, hrest⟩ := ih
      exact ⟨rest, by simp [hrest]⟩

/-- An invocation that reaches `ClearDegraded` ends with the availability
check and, when the workloads are available, the status update. -/
theorem Reconcile_of_reachesClearDegraded (r : ReconcileCCS) (w : World) (request : Request)
    (inst : ComplianceConfigurationSecurity) (linseed : Certificate)
    (h : reachesClearDegraded r w request inst linseed) :
    Reconcile r w request =
      (if w.isAvailable = false then
        { result := { Requeue := false, RequeueAfter := r.consts.StandardRetry },
          err := none,
          trace := availabilityTrace r w request inst linseed ++
            [Event.SetMetaData inst.ObjectMeta] }
      else
        { result := Result.empty,
          err := w.statusUpdate (gateEntryUpdates request) (readyInstance r inst),
          trace := availabilityTrace r w request inst linseed ++
            [Event.StatusUpdate (readyInstance r inst),
             Event.SetMetaData inst.ObjectMeta] }) := by
  obtain ⟨hreach, hall, hlic⟩ := h
  rw [Reconcile_of_reachesApply r w request inst linseed hreach]
  unfold reconcileApply
  rw [applyComponents_all_ok w _ _ hall]
  cases hav : w.isAvailable with
  | false => simp [deferSetMetaData, hlic, availabilityTrace]
  | true =>
    cases hupd : w.statusUpdate (gateEntryUpdates request)
        { inst with Status := { State := r.consts.TigeraStatusReady } } with
    | none => simp [deferSetMetaData, hlic, availabilityTrace, readyInstance, hupd]
    | some e => simp [deferSetMetaData, hlic, availabilityTrace, readyInstance, hupd]

/-- Quiet events are no `SetDegraded` calls. -/
theorem degradedCalls_of_quiet (q : List Event) (h : ∀ e ∈ q, e.isQuiet = true) :
    degradedCalls q = [] := by
  induction q with
  | nil => rfl
  | cons e es ih =>
    have he := h e (List.mem_cons_self e es)
    have hes := ih (fun x hx => h x (List.mem_cons_of_mem e hx))
    cases e <;> simp_all [degradedCalls, Event.isQuiet]

/-- Quiet events are no status updates. -/
theorem statusUpdates_of_quiet (q : List Event) (h : ∀ e ∈ q, e.isQuiet = true) :
    statusUpdates q = [] := by
  induction q with
  | nil => rfl
  | cons e es ih =>
    have he := h e (List.mem_cons_self e es)
    have hes := ih (fun x hx => h x (List.mem_cons_of_mem e hx))
    cases e <;> simp_all [statusUpdates, Event.isQuiet]

/-- Appending quiet events keeps a trace quiet. -/
theorem quietSince_append (base tr q : List Event) (h : quietSince base tr)
    (hq : ∀ e ∈ q, e.isQuiet = true) : quietSince base (tr ++ q) := by
  obtain ⟨hd, hc, ha, hs⟩ := h
  refine ⟨?_, ?_, ?_, ?_⟩
  · rw [degradedCalls_append, hd, degradedCalls_of_quiet q hq]
    rfl
  · intro hmem
    rcases List.mem_append.1 hmem with hmem | hmem
    · exact hc hmem
    · exact Bool.noConfusion (hq _ hmem)
  · intro hmem
    rcases List.mem_append.1 hmem with hmem | hmem
    · exact ha hmem
    · exact Bool.noConfusion (hq _ hmem)
  · rw [statusUpdates_append, hs, statusUpdates_of_quiet q hq, List.append_nil]

/-- Before any `SetDegraded`, what follows the first one is decided by the
rest of the trace. -/
theorem afterDegraded_append_of_none (xs ys : List Event) (h : degradedCalls xs = []) :
    afterDegraded (xs ++ ys) = afterDegraded ys := by
  induction xs with
  | nil => rfl
  | cons e es ih => cases e <;> simp_all [degradedCalls, afterDegraded]

/-- After a `SetDegraded`, later events follow it. -/
theorem afterDegraded_append_of_some (xs ys : List Event) (h : degradedCalls xs ≠ []) :
    afterDegraded (xs ++ ys) = afterDegraded xs ++ ys := by
  induction xs with
  | nil => exact absurd rfl h
  | cons e es ih => cases e <;> simp_all [degradedCalls, afterDegraded]

/-- Without a `SetDegraded` nothing follows one. -/
theorem afterDegraded_of_none (xs : List Event) (h : degradedCalls xs = []) :
    afterDegraded xs = [] := by
  induction xs with
  | nil => rfl
  | cons e es ih => cases e <;> simp_all [degradedCalls, afterDegraded]

/-- Before the availability check, the final status updates are decided by
the rest of the trace. -/
theorem finalStatusUpdates_append_of_not_mem (xs ys : List Event)
    (h : Event.IsAvailable ∉ xs) :
    finalStatusUpdates (xs ++ ys) = finalStatusUpdates ys := by
  induction xs with
  | nil => rfl
  | cons e es ih => cases e <;> simp_all [finalStatusUpdates]

/-- Without an availability check there is no final status update. -/
theorem finalStatusUpdates_of_not_mem (xs : List Event) (h : Event.IsAvailable ∉ xs) :
    finalStatusUpdates xs = [] := by
  induction xs with
  | nil => rfl
  | cons e es ih => cases e <;> simp_all [finalStatusUpdates]

/-- The entry calls are quiet but for their status update. -/
theorem quietSince_gateEntryTrace (r : ReconcileCCS) (request : Request)
    (inst : ComplianceConfigurationSecurity) :
    quietSince (gateEntryTrace r request inst) (gateEntryTrace r request inst) := by
  refine ⟨degradedCalls_gateEntryTrace r request inst, ?_, ?_, rfl⟩ <;>
    (unfold gateEntryTrace; split <;> simp)

/-- The calls from the API-server check to the apply loop are quiet. -/
theorem quiet_applyEntryTrace_tail (r : ReconcileCCS) (w : World) (request : Request) :
    ∀ e ∈ gateTrace r ++ certificateTrace r w request ++ authenticationTrace r w request ++
      [Event.TenantNamespaces, Event.GetKeyValidatorConfig, Event.ApplyImageSet],
      e.isQuiet = true := by
  unfold gateTrace certificateTrace authenticationTrace
  intro e he
  simp only [List.mem_append] at he
  rcases he with ((he | he) | he) | he
  · simp at he
    rcases he with he | he | he | he | he | he | he | he | he <;> subst he <;> rfl
  · rcases he with he | he
    · simp at he
      subst he
      rfl
    · split at he <;> simp at he
      subst he
      rfl
  · rcases he with (he | he) | he
    · simp at he
      rcases he with he | he <;> subst he <;> rfl
    · split at he <;> simp at he
      subst he
      rfl
    · simp at he
      rcases he with he | he | he <;> subst he <;> rfl
  · simp at he
    rcases he with he | he | he <;> subst he <;> rfl

/-- Apply events are quiet. -/
theorem quiet_map_apply (cs : List Component) :
    ∀ e ∈ cs.map Event.CreateOrUpdateOrDelete, e.isQuiet = true := by
  intro e he
  obtain ⟨c, _, rfl⟩ := List.mem_map.1 he
  rfl

/-- The trace up to the apply loop is quiet since the entry calls. -/
theorem quietSince_applyEntryTrace (r : ReconcileCCS) (w : World) (request : Request)
    (inst : ComplianceConfigurationSecurity) :
    quietSince (gateEntryTrace r request inst) (applyEntryTrace r w request inst) := by
  have h := quietSince_append _ _ _ (quietSince_gateEntryTrace r request inst)
    (quiet_applyEntryTrace_tail r w request)
  unfold applyEntryTrace renderEntryTrace
  simpa [List.append_assoc] using h

/-- The three rendered components are pairwise distinct. -/
theorem componentsOf_nodup (r : ReconcileCCS) (w : World) (request : Request)
    (inst : ComplianceConfigurationSecurity) (linseed : Certificate) :
    (componentsOf r w request inst linseed).Nodup := by
  simp [componentsOf, namespaceCompOf, certificateComponentOf, ccsComponentOf]

/-- C11: apply order and stop at the first failure.  In an invocation that
reaches the apply loop, `CreateOrUpdateOrDelete` is called on an initial
segment of the fixed list namespace, certificate management, CCS, in that
order.  If a component fails after the earlier ones applied, it is the last
one handed over, no later component is applied, Degraded is set with
ResourceUpdateError and that error is returned.  In particular the CCS
component is not applied when the namespace component fails. -/
theorem C11_apply_order_and_stop_at_first_failure (r : ReconcileCCS) (w : World)
    (request : Request) (inst : ComplianceConfigurationSecurity) (linseed : Certificate)
    (h : reachesApply r w request inst linseed) :
    componentsOf r w request inst linseed =
      [namespaceCompOf r w request, certificateComponentOf r w request linseed,
       ccsComponentOf r w request inst linseed] ∧
    appliedComponents (Reconcile r w request).trace <+:
      componentsOf r w request inst linseed ∧
    (∀ pre c post e, componentsOf r w request inst linseed = pre ++ c :: post →
      (∀ d ∈ pre, w.createOrUpdateOrDelete d = none) →
      w.createOrUpdateOrDelete c = some e →
      Reconcile r w request =
        { result := Result.empty, err := some e,
          trace := applyEntryTrace r w request inst ++
            (pre ++ [c]).map Event.CreateOrUpdateOrDelete ++
            [Event.SetDegraded TigeraStatusReason.ResourceUpdateError
               "Error creating / updating / deleting resource" (some e),
             Event.SetMetaData inst.ObjectMeta] } ∧
      appliedComponents (Reconcile r w request).trace = pre ++ [c] ∧
      (∀ d ∈ post, d ∉ appliedComponents (Reconcile r w request).trace) ∧
      degradedCalls (Reconcile r w request).trace =
        [(TigeraStatusReason.ResourceUpdateError,
          "Error creating / updating / deleting resource")]) ∧
    (w.createOrUpdateOrDelete (namespaceCompOf r w request) ≠ none →
      appliedComponents (Reconcile r w request).trace = [namespaceCompOf r w request] ∧
      ccsComponentOf r w request inst linseed ∉
        appliedComponents (Reconcile r w request).trace) := by
  have happlied : appliedComponents (Reconcile r w request).trace =
      attemptedComponents w (componentsOf r w request inst linseed) := by
    rw [Reconcile_of_reachesApply r w request inst linseed h]
    simp only [deferSetMetaData, appliedComponents_append, appliedComponents_reconcileApply,
      appliedComponents_applyEntryTrace]
    simp [appliedComponents]
  refine ⟨rfl, ?_, ?_, ?_⟩
  · rw [happlied]
    exact attemptedComponents_isInitial w _
  · intro pre c post e hsplit hpre hc
    have hout : Reconcile r w request =
        { result := Result.empty, err := some e,
          trace := applyEntryTrace r w request inst ++
            (pre ++ [c]).map Event.CreateOrUpdateOrDelete ++
            [Event.SetDegraded TigeraStatusReason.ResourceUpdateError
               "Error creating / updating / deleting resource" (some e),
             Event.SetMetaData inst.ObjectMeta] } := by
      rw [Reconcile_of_reachesApply r w request inst linseed h]
      unfold reconcileApply
      rw [hsplit, applyComponents_first_failure w pre post c e _ hpre hc]
      simp [deferSetMetaData]
    have hnodup := componentsOf_nodup r w request inst linseed
    rw [hsplit] at hnodup
    rw [hout]
    simp only [degradedCalls_append, degradedCalls_applyEntryTrace, degradedCalls_map_apply,
      appliedComponents_append, appliedComponents_applyEntryTrace,
      appliedComponents_map_apply]
    refine ⟨trivial, by simp [appliedComponents], ?_, by simp [degradedCalls]⟩
    intro d hd hmem
    have hmem2 : d ∈ pre ++ [c] := by simpa [appliedComponents] using hmem
    rw [List.nodup_append] at hnodup
    obtain ⟨_, hcpost, hdisj⟩ := hnodup
    rcases List.mem_append.1 hmem2 with hin | hin
    · exact hdisj hin (List.mem_cons_of_mem c hd)
    · have hdc : d = c := by simpa using hin
      rw [List.nodup_cons] at hcpost
      exact hcpost.1 (hdc ▸ hd)
  · intro hfail
    rw [happlied]
    unfold componentsOf attemptedComponents
    rw [if_pos hfail]
    simp [namespaceCompOf, ccsComponentOf]

/-- The certificate component fails after the namespace component applied:
the CCS component is not handed over. -/
theorem C11_witness :
    reachesApply readyReconciler certificateApplyFailsWorld sampleRequest sampleInstance
      sampleLinseed ∧
    appliedComponents
        (Reconcile readyReconciler certificateApplyFailsWorld sampleRequest).trace =
      [namespaceCompOf readyReconciler certificateApplyFailsWorld sampleRequest,
       certificateComponentOf readyReconciler certificateApplyFailsWorld sampleRequest
         sampleLinseed] ∧
    degradedCalls (Reconcile readyReconciler certificateApplyFailsWorld sampleRequest).trace =
      [(TigeraStatusReason.ResourceUpdateError,
        "Error creating / updating / deleting resource")] :=
  have h : reachesApply readyReconciler certificateApplyFailsWorld sampleRequest
      sampleInstance sampleLinseed := by
    unfold reachesApply reachesAuthenticationCheck reachesAuthenticationRead
      reachesCertificateStep reachesTopologyCheck reachesInstallationQuery
      reachesLicenseFetch reachesTierWatchCheck reachesAPIServerCheck passesTenantChecks
    decide
  have hc := (C11_apply_order_and_stop_at_first_failure _ _ _ _ _ h).2.2.1
    [namespaceCompOf readyReconciler certificateApplyFailsWorld sampleRequest]
    (certificateComponentOf readyReconciler certificateApplyFailsWorld sampleRequest
      sampleLinseed)
    [ccsComponentOf readyReconciler certificateApplyFailsWorld sampleRequest sampleInstance
      sampleLinseed]
    boom rfl (by decide) rfl
  ⟨h, hc.2.1, hc.2.2.2⟩

/-- C13: not yet available.  An invocation in which every gate passes, every
component applies and the license includes the feature calls `ClearDegraded`;
if `IsAvailable` then answers false, it returns
`Result{RequeueAfter: StandardRetry}` with a nil error, does not assign the
Ready state and does not issue the final status update: its only status update,
if any, is the one of the entry calls, which writes the instance as fetched. -/
theorem C13_not_yet_available (r : ReconcileCCS) (w : World) (request : Request)
    (inst : ComplianceConfigurationSecurity) (linseed : Certificate)
    (h : reachesClearDegraded r w request inst linseed) :
    Event.ClearDegraded ∈ (Reconcile r w request).trace ∧
    degradedCalls (Reconcile r w request).trace = [] ∧
    (w.isAvailable = false →
      Reconcile r w request =
        { result := { Requeue := false, RequeueAfter := r.consts.StandardRetry },
          err := none,
          trace := availabilityTrace r w request inst linseed ++
            [Event.SetMetaData inst.ObjectMeta] } ∧
      finalStatusUpdates (Reconcile r w request).trace = [] ∧
      statusUpdates (Reconcile r w request).trace =
        statusUpdates (gateEntryTrace r request inst) ∧
      (∀ i ∈ statusUpdates (Reconcile r w request).trace, i = inst)) := by
  have hq := quietSince_append _ _ _ (quietSince_applyEntryTrace r w request inst)
    (quiet_map_apply (componentsOf r w request inst linseed))
  obtain ⟨_, _, ha, hs⟩ := hq
  have hout := Reconcile_of_reachesClearDegraded r w request inst linseed h
  refine ⟨?_, ?_, ?_⟩
  · rw [hout]
    split <;> simp [availabilityTrace]
  · rw [hout]
    split <;>
      (simp only [availabilityTrace, degradedCalls_append, degradedCalls_applyEntryTrace,
        degradedCalls_map_apply]
       simp [degradedCalls])
  · intro hav
    rw [hout, if_pos hav]
    refine ⟨rfl, ?_, ?_, ?_⟩
    · unfold availabilityTrace
      rw [List.append_assoc, finalStatusUpdates_append_of_not_mem _ _ ha]
      simp [finalStatusUpdates, statusUpdates]
    · unfold availabilityTrace
      simp only [statusUpdates_append, hs]
      simp [statusUpdates]
    · unfold availabilityTrace
      simp only [statusUpdates_append, hs]
      unfold gateEntryTrace
      split <;> simp [statusUpdates]

/-- The ready cluster whose workloads are not available requeues. -/
theorem C13_witness :
    reachesClearDegraded readyReconciler notAvailableWorld sampleRequest sampleInstance
      sampleLinseed ∧
    notAvailableWorld.isAvailable = false ∧
    (Reconcile readyReconciler notAvailableWorld sampleRequest).result =
      { Requeue := false, RequeueAfter := 30000000000 } ∧
    statusUpdates (Reconcile readyReconciler notAvailableWorld sampleRequest).trace = [] :=
  have h : reachesClearDegraded readyReconciler notAvailableWorld sampleRequest
      sampleInstance sampleLinseed := by
    unfold reachesClearDegraded reachesApply reachesAuthenticationCheck
      reachesAuthenticationRead reachesCertificateStep reachesTopologyCheck
      reachesInstallationQuery reachesLicenseFetch reachesTierWatchCheck
      reachesAPIServerCheck passesTenantChecks
    exact ⟨by decide, fun _ _ => rfl, by decide⟩
  ⟨h, rfl, congrArg Outcome.result ((C13_not_yet_available _ _ _ _ _ h).2.2 rfl).1,
    by decide⟩

/-- Appending one quiet event keeps a trace quiet. -/
theorem quietSince_snoc (base tr : List Event) (e : Event) (h : quietSince base tr)
    (he : e.isQuiet = true) : quietSince base (tr ++ [e]) :=
  quietSince_append base tr [e] h (fun x hx => by
    have hx2 : x = e := by simpa using hx
    rw [hx2]
    exact he)

/-- A return right after a `SetDegraded` issued on a quiet trace is a stage
exit. -/
theorem StageExit_degraded (r : ReconcileCCS) (w : World) (base tr : List Event)
    (res : Result) (err : Option GoError) (reason : TigeraStatusReason) (msg : String)
    (cause : Option GoError) (h : quietSince base tr)
    (hres : res = Result.empty ∨
      (res = { Requeue := false, RequeueAfter := r.consts.StandardRetry } ∧ err = none)) :
    StageExit r w base
      { result := res, err := err,
        trace := tr ++ [Event.SetDegraded reason msg cause] } := by
  obtain ⟨hd, hc, ha, hs⟩ := h
  refine ⟨hres, ?_, ?_, ?_, ?_, ?_, ?_⟩
  · simp [degradedCalls_append, hd, degradedCalls]
  · simp only []
    rw [afterDegraded_append_of_none _ _ hd]
    rfl
  · simp [hc]
  · simp [ha]
  · simp [statusUpdates_append, hs, statusUpdates]
  · intro _
    left
    simp [degradedCalls_append, hd, degradedCalls]

/-- A return of the error of the binding-namespace lookup, right after that
lookup on a quiet trace, is a stage exit. -/
theorem StageExit_plain (r : ReconcileCCS) (w : World) (base tr : List Event)
    (h : quietSince base tr) :
    StageExit r w base
      { result := Result.empty, err := w.tenantNamespaces.2,
        trace := tr ++ [Event.TenantNamespaces] } := by
  obtain ⟨hd, hc, ha, hs⟩ := quietSince_snoc base tr Event.TenantNamespaces h rfl
  refine ⟨Or.inl rfl, ?_, ?_, hc, ha, hs, ?_⟩
  · simp only []
    rw [hd]
    exact Nat.zero_le 1
  · exact afterDegraded_of_none _ hd
  · intro _
    exact Or.inr ⟨rfl, by simp⟩

/-- The gate either returns early or all its checks pass. -/
theorem reconcileGate_exit_or_pass (r : ReconcileCCS) (w : World) (request : Request)
    (tenant : Option Tenant) (inst : ComplianceConfigurationSecurity) (updates : Nat)
    (err : Option GoError) (base tr : List Event) (h : quietSince base tr) :
    StageExit r w base (reconcileGate r w request tenant inst updates err tr) ∨
    (w.isAPIServerReady = true ∧ r.tierWatchReady = true ∧
      w.clientGetTier r.consts.TigeraComponentTierName = none ∧
      r.licenseAPIReady = true ∧ w.fetchLicenseKey.2 = none ∧
      w.getInstallation.2.2 = none ∧
      (w.getNetworkingPullSecrets w.getInstallation.2.1).2 = none ∧
      w.getManagementCluster.2 = none ∧ w.getManagementClusterConnection.2 = none ∧
      ¬ (w.getManagementClusterConnection.1 ≠ none ∧ w.getManagementCluster.1 ≠ none)) := by
  unfold reconcileGate
  simp only []
  by_cases h1 : w.isAPIServerReady = true
  swap
  · rw [if_pos (by simpa using h1)]
    exact Or.inl (StageExit_degraded r w base _ _ _ _ _ _
      (by repeat (first | exact h | refine quietSince_snoc _ _ _ ?_ rfl)) (Or.inl rfl))
  rw [if_neg (by simpa using h1)]
  by_cases h2 : r.tierWatchReady = true
  swap
  · rw [if_pos (by simpa using h2)]
    exact Or.inl (StageExit_degraded r w base _ _ _ _ _ _
      (by repeat (first | exact h | refine quietSince_snoc _ _ _ ?_ rfl))
      (Or.inr ⟨rfl, rfl⟩))
  rw [if_neg (by simpa using h2)]
  by_cases h3 : w.clientGetTier r.consts.TigeraComponentTierName = none
  swap
  · rw [if_pos h3]
    split <;>
      exact Or.inl (StageExit_degraded r w base _ _ _ _ _ _
        (by repeat (first | exact h | refine quietSince_snoc _ _ _ ?_ rfl))
        (by first | exact Or.inl rfl | exact Or.inr ⟨rfl, rfl⟩))
  rw [if_neg (not_not.2 h3)]
  by_cases h4 : r.licenseAPIReady = true
  swap
  · rw [if_pos (by simpa using h4)]
    exact Or.inl (StageExit_degraded r w base _ _ _ _ _ _
      (by repeat (first | exact h | refine quietSince_snoc _ _ _ ?_ rfl))
      (Or.inr ⟨rfl, rfl⟩))
  rw [if_neg (by simpa using h4)]
  by_cases h5 : w.fetchLicenseKey.2 = none
  swap
  · rw [if_pos h5]
    split <;>
      exact Or.inl (StageExit_degraded r w base _ _ _ _ _ _
        (by repeat (first | exact h | refine quietSince_snoc _ _ _ ?_ rfl))
        (Or.inr ⟨rfl, rfl⟩))
  rw [if_neg (not_not.2 h5)]
  by_cases h6 : w.getInstallation.2.2 = none
  swap
  · rw [if_pos h6]
    split <;>
      exact Or.inl (StageExit_degraded r w base _ _ _ _ _ _
        (by repeat (first | exact h | refine quietSince_snoc _ _ _ ?_ rfl)) (Or.inl rfl))
  rw [if_neg (not_not.2 h6)]
  by_cases h7 : (w.getNetworkingPullSecrets w.getInstallation.2.1).2 = none
  swap
  · rw [if_pos h7]
    exact Or.inl (StageExit_degraded r w base _ _ _ _ _ _
      (by repeat (first | exact h | refine quietSince_snoc _ _ _ ?_ rfl)) (Or.inl rfl))
  rw [if_neg (not_not.2 h7)]
  by_cases h8 : w.getManagementCluster.2 = none
  swap
  · rw [if_pos h8]
    exact Or.inl (StageExit_degraded r w base _ _ _ _ _ _
      (by repeat (first | exact h | refine quietSince_snoc _ _ _ ?_ rfl)) (Or.inl rfl))
  rw [if_neg (not_not.2 h8)]
  by_cases h9 : w.getManagementClusterConnection.2 = none
  swap
  · rw [if_pos h9]
    exact Or.inl (StageExit_degraded r w base _ _ _ _ _ _
      (by repeat (first | exact h | refine quietSince_snoc _ _ _ ?_ rfl)) (Or.inl rfl))
  rw [if_neg (not_not.2 h9)]
  by_cases h10 : w.getManagementClusterConnection.1 ≠ none ∧ w.getManagementCluster.1 ≠ none
  · rw [if_pos h10]
    exact Or.inl (StageExit_degraded r w base _ _ _ _ _ _
      (by repeat (first | exact h | refine quietSince_snoc _ _ _ ?_ rfl)) (Or.inl rfl))
  exact Or.inr ⟨h1, h2, h3, h4, h5, h6, h7, h8, h9, h10⟩

/-- The certificate part either returns early or its checks pass. -/
theorem reconcileCertificates_exit_or_pass (r : ReconcileCCS) (w : World) (request : Request)
    (tenant : Option Tenant) (inst : ComplianceConfigurationSecurity) (updates : Nat)
    (license : LicenseKey) (variant : String) (network : InstallationSpec)
    (pullSecrets : List String) (managementCluster : Option ManagementCluster)
    (managementClusterConnection : Option ManagementClusterConnection)
    (base tr : List Event) (h : quietSince base tr) :
    StageExit r w base (reconcileCertificates r w request tenant inst updates license variant
      network pullSecrets managementCluster managementClusterConnection tr) ∨
    (w.certificateManagerCreate network r.clusterDomain (truthNS r w request) = none ∧
      (managementCluster ≠ none →
        (w.getCertificate r.consts.ManagerInternalTLSSecretName (truthNS r w request)).2 =
          none)) := by
  unfold reconcileCertificates truthNS
  simp only []
  by_cases h1 : w.certificateManagerCreate network r.clusterDomain
      (w.truthNamespace r.multiTenant r.consts.CCSNamespace request.Namespace) = none
  swap
  · rw [if_pos h1]
    exact Or.inl (StageExit_degraded r w base _ _ _ _ _ _
      (by repeat (first | exact h | refine quietSince_snoc _ _ _ ?_ rfl)) (Or.inl rfl))
  rw [if_neg (not_not.2 h1)]
  by_cases h2 : managementCluster ≠ none
  swap
  · exact Or.inr ⟨h1, fun hc => absurd hc h2⟩
  rw [if_pos h2]
  by_cases h3 : (w.getCertificate r.consts.ManagerInternalTLSSecretName
      (w.truthNamespace r.multiTenant r.consts.CCSNamespace request.Namespace)).2 = none
  swap
  · rw [if_pos h3]
    exact Or.inl (StageExit_degraded r w base _ _ _ _ _ _
      (by repeat (first | exact h | refine quietSince_snoc _ _ _ ?_ rfl)) (Or.inl rfl))
  exact Or.inr ⟨h1, fun _ => h3⟩

/-- The Linseed part either returns early or the certificate is found and the
multi-tenant bundle, when needed, is loaded. -/
theorem reconcileLinseed_exit_or_pass (r : ReconcileCCS) (w : World) (request : Request)
    (tenant : Option Tenant) (inst : ComplianceConfigurationSecurity) (updates : Nat)
    (license : LicenseKey) (variant : String) (network : InstallationSpec)
    (pullSecrets : List String) (managementCluster : Option ManagementCluster)
    (managerInternalTLSSecret : Option Certificate)
    (base tr : List Event) (h : quietSince base tr) :
    StageExit r w base (reconcileLinseed r w request tenant inst updates license variant
      network pullSecrets managementCluster w.getManagementClusterConnection.1
      managerInternalTLSSecret tr) ∨
    ((∃ linseed, linseedLookup r w request = (some linseed, none)) ∧
      (r.multiTenant = true →
        (w.loadMultiTenantTrustedBundle (installNS r w request)).2 = none)) := by
  unfold reconcileLinseed linseedLookup linseedCertLocationOf truthNS installNS
  simp only []
  by_cases h1 : (w.getCertificate
      (if w.getManagementClusterConnection.1 ≠ none then r.consts.VoltronLinseedPublicCert
        else r.consts.TigeraLinseedSecret)
      (w.truthNamespace r.multiTenant r.consts.CCSNamespace request.Namespace)).2 = none
  swap
  · rw [if_pos h1]
    exact Or.inl (StageExit_degraded r w base _ _ _ _ _ _
      (by repeat (first | exact h | refine quietSince_snoc _ _ _ ?_ rfl)) (Or.inl rfl))
  rw [if_neg (not_not.2 h1)]
  cases h2 : (w.getCertificate
      (if w.getManagementClusterConnection.1 ≠ none then r.consts.VoltronLinseedPublicCert
        else r.consts.TigeraLinseedSecret)
      (w.truthNamespace r.multiTenant r.consts.CCSNamespace request.Namespace)).1 with
  | none =>
    exact Or.inl (StageExit_degraded r w base _ _ _ _ _ _
      (by repeat (first | exact h | refine quietSince_snoc _ _ _ ?_ rfl)) (Or.inl rfl))
  | some linseed =>
    simp only []
    have hl : ∃ c, w.getCertificate
        (if w.getManagementClusterConnection.1 ≠ none then r.consts.VoltronLinseedPublicCert
          else r.consts.TigeraLinseedSecret)
        (w.truthNamespace r.multiTenant r.consts.CCSNamespace request.Namespace) =
        (some c, none) := ⟨linseed, Prod.ext h2 h1⟩
    by_cases h3 : r.multiTenant = true
    swap
    · exact Or.inr ⟨hl, fun hc => absurd hc h3⟩
    rw [if_pos h3]
    by_cases h4 : (w.loadMultiTenantTrustedBundle
        (w.installNamespace r.multiTenant r.consts.CCSNamespace request.Namespace)).2 = none
    swap
    · rw [if_pos h4]
      exact Or.inl (StageExit_degraded r w base _ _ _ _ _ _
        (by repeat (first | exact h | refine quietSince_snoc _ _ _ ?_ rfl)) (Or.inl rfl))
    exact Or.inr ⟨hl, fun _ => h4⟩

/-- The key-pair part either returns early or the key pair is obtained and the
Authentication, when there is one, is read and Ready. -/
theorem reconcileKeyPairAuth_exit_or_pass (r : ReconcileCCS) (w : World) (request : Request)
    (tenant : Option Tenant) (inst : ComplianceConfigurationSecurity) (updates : Nat)
    (license : LicenseKey) (variant : String) (network : InstallationSpec)
    (pullSecrets : List String) (managementCluster : Option ManagementCluster)
    (managementClusterConnection : Option ManagementClusterConnection)
    (trustedBundle : TrustedBundle) (bundleMaker : Option TrustedBundle)
    (base tr : List Event) (h : quietSince base tr) :
    StageExit r w base (reconcileKeyPairAuth r w request tenant inst updates license variant
      network pullSecrets managementCluster managementClusterConnection trustedBundle
      bundleMaker tr) ∨
    ((keyPairLookup r w request).2 = none ∧
      ¬ (w.getAuthentication.2 ≠ none ∧ IsNotFound w.getAuthentication.2 = false) ∧
      (∀ auth ∈ w.getAuthentication.1, auth.Status.State = r.consts.TigeraStatusReady)) := by
  unfold reconcileKeyPairAuth keyPairLookup truthNS installNS
  simp only []
  by_cases h1 : (w.getOrCreateKeyPair r.consts.APICertSecretName
      (w.truthNamespace r.multiTenant r.consts.CCSNamespace request.Namespace)
      (w.getServiceDNSNames r.consts.APIResourceName
        (w.installNamespace r.multiTenant r.consts.CCSNamespace request.Namespace)
        r.clusterDomain)).2 = none
  swap
  · rw [if_pos h1]
    exact Or.inl (StageExit_degraded r w base _ _ _ _ _ _
      (by repeat (first | exact h | refine quietSince_snoc _ _ _ ?_ rfl)) (Or.inl rfl))
  rw [if_neg (not_not.2 h1)]
  by_cases h2 : w.getAuthentication.2 ≠ none ∧ IsNotFound w.getAuthentication.2 = false
  · rw [if_pos h2]
    exact Or.inl (StageExit_degraded r w base _ _ _ _ _ _
      (by repeat (first | exact h | refine quietSince_snoc _ _ _ ?_ rfl)) (Or.inl rfl))
  rw [if_neg h2]
  cases h3 : w.getAuthentication.1 with
  | none =>
    exact Or.inr ⟨h1, h2, fun a ha => by simp at ha⟩
  | some auth =>
    simp only []
    by_cases h4 : auth.Status.State = r.consts.TigeraStatusReady
    swap
    · rw [if_pos h4]
      exact Or.inl (StageExit_degraded r w base _ _ _ _ _ _
        (by repeat (first | exact h | refine quietSince_snoc _ _ _ ?_ rfl)) (Or.inl rfl))
    exact Or.inr ⟨h1, h2, fun a ha => by
      have : auth = a := by simpa using ha
      rw [← this]
      exact h4⟩

/-- The render part either returns early or the binding namespaces, the key
validator configuration and the image set are obtained. -/
theorem reconcileRender_exit_or_pass (r : ReconcileCCS) (w : World) (request : Request)
    (inst : ComplianceConfigurationSecurity) (linseed : Certificate) (updates : Nat)
    (base tr : List Event) (h : quietSince base tr) :
    StageExit r w base (reconcileRender r w request
      (w.getTenant r.multiTenant request.Namespace).1 inst updates w.fetchLicenseKey.1
      w.getInstallation.1 w.getInstallation.2.1
      (w.getNetworkingPullSecrets w.getInstallation.2.1).1
      w.getManagementCluster.1 w.getManagementClusterConnection.1
      (trustedBundleOf r w request linseed) (bundleMakerOf r w request linseed)
      (keyPairLookup r w request).1 w.getAuthentication.1 tr) ∨
    (w.tenantNamespaces.2 = none ∧
      (w.getKeyValidatorConfig w.getAuthentication.1 r.clusterDomain).2 = none ∧
      w.applyImageSet w.getInstallation.1 (ccsComponentOf r w request inst linseed) =
        none) := by
  unfold reconcileRender ccsComponentOf ccsConfigOf hasNoLicenseOf installNS
  simp only []
  by_cases h1 : w.tenantNamespaces.2 = none
  swap
  · rw [if_pos h1]
    exact Or.inl (StageExit_plain r w base _
      (by repeat (first | exact h | refine quietSince_snoc _ _ _ ?_ rfl)))
  rw [if_neg (not_not.2 h1)]
  by_cases h2 : (w.getKeyValidatorConfig w.getAuthentication.1 r.clusterDomain).2 = none
  swap
  · rw [if_pos h2]
    exact Or.inl (StageExit_degraded r w base _ _ _ _ _ _
      (by repeat (first | exact h | refine quietSince_snoc _ _ _ ?_ rfl)) (Or.inl rfl))
  rw [if_neg (not_not.2 h2)]
  split
  · exact Or.inl (StageExit_degraded r w base _ _ _ _ _ _
      (by repeat (first | exact h | refine quietSince_snoc _ _ _ ?_ rfl)) (Or.inl rfl))
  · rename_i h3
    exact Or.inr ⟨h1, h2, not_not.1 h3⟩

/-- The loop either applies every component or stops at a first failure. -/
theorem applyComponents_cases (w : World) (cs : List Component) :
    (∀ c ∈ cs, w.createOrUpdateOrDelete c = none) ∨
    ∃ pre c post e, cs = pre ++ c :: post ∧
      (∀ d ∈ pre, w.createOrUpdateOrDelete d = none) ∧
      w.createOrUpdateOrDelete c = some e := by
  induction cs with
  | nil => exact Or.inl (fun c hc => by simp at hc)
  | cons c cs ih =>
    cases hc : w.createOrUpdateOrDelete c with
    | some e => exact Or.inr ⟨[], c, cs, e, rfl, fun d hd => by simp at hd, hc⟩
    | none =>
      rcases ih with hall | ⟨pre, d, post, e, hsplit, hpre, hd⟩
      · left
        intro x hx
        rcases List.mem_cons.1 hx with hx | hx
        · rw [hx]
          exact hc
        · exact hall x hx
      · right
        refine ⟨c :: pre, d, post, e, by simp [hsplit], ?_, hd⟩
        intro x hx
        rcases List.mem_cons.1 hx with hx | hx
        · rw [hx]
          exact hc
        · exact hpre x hx

/-- The apply part either returns early (a component fails, or the license
lacks the feature) or every component applies under a license that includes
the feature. -/
theorem reconcileApply_exit_or_pass (r : ReconcileCCS) (w : World)
    (inst : ComplianceConfigurationSecurity) (updates : Nat) (hasNoLicense : Bool)
    (components : List Component) (base tr : List Event) (h : quietSince base tr) :
    StageExit r w base (reconcileApply r w inst updates hasNoLicense components tr) ∨
    ((∀ c ∈ components, w.createOrUpdateOrDelete c = none) ∧ hasNoLicense = false) := by
  unfold reconcileApply
  rcases applyComponents_cases w components with hall | ⟨pre, c, post, e, hsplit, hpre, hc⟩
  · rw [applyComponents_all_ok w components tr hall]
    simp only []
    cases hasNoLicense with
    | false => exact Or.inr ⟨hall, rfl⟩
    | true =>
      rw [if_neg (by simp), if_pos rfl]
      exact Or.inl (StageExit_degraded r w base _ _ _ _ _ _
        (quietSince_append _ _ _ h (quiet_map_apply components)) (Or.inl rfl))
  · rw [hsplit, applyComponents_first_failure w pre post c e tr hpre hc]
    simp only []
    rw [if_pos (by simp)]
    exact Or.inl (StageExit_degraded r w base _ _ _ _ _ _
      (quietSince_append _ _ _ h (quiet_map_apply (pre ++ [c]))) (Or.inl rfl))

/-- The calls from the API-server check to the topology check are quiet. -/
theorem quiet_gateTrace (r : ReconcileCCS) : ∀ e ∈ gateTrace r, e.isQuiet = true := by
  intro e he
  unfold gateTrace at he
  simp at he
  rcases he with he | he | he | he | he | he | he | he | he <;> subst he <;> rfl

/-- The calls of the certificate part are quiet. -/
theorem quiet_certificateTrace (r : ReconcileCCS) (w : World) (request : Request) :
    ∀ e ∈ certificateTrace r w request, e.isQuiet = true := by
  intro e he
  unfold certificateTrace at he
  rcases List.mem_append.1 he with he | he
  · simp at he
    subst he
    rfl
  · split at he <;> simp at he
    subst he
    rfl

/-- The calls from the Linseed lookup to the bundle are quiet. -/
theorem quiet_linseedTrace (r : ReconcileCCS) (w : World) (request : Request) :
    ∀ e ∈ [Event.GetCertificate (linseedCertLocationOf r w) (truthNS r w request),
        Event.CreateTrustedBundle] ++
      (if r.multiTenant then [Event.LoadMultiTenantTrustedBundle (installNS r w request)]
       else []), e.isQuiet = true := by
  intro e he
  rcases List.mem_append.1 he with he | he
  · simp at he
    rcases he with he | he <;> subst he <;> rfl
  · split at he <;> simp at he
    subst he
    rfl

/-- The calls from the Linseed lookup to the Authentication read are quiet. -/
theorem quiet_authenticationTrace (r : ReconcileCCS) (w : World) (request : Request) :
    ∀ e ∈ authenticationTrace r w request, e.isQuiet = true := by
  intro e he
  unfold authenticationTrace at he
  rcases List.mem_append.1 he with he | he
  · exact quiet_linseedTrace r w request e he
  · simp at he
    rcases he with he | he | he <;> subst he <;> rfl

/-- An invocation that passes the topology check is the certificate part run
after the gate calls. -/
theorem Reconcile_of_topology_passed (r : ReconcileCCS) (w : World) (request : Request)
    (inst : ComplianceConfigurationSecurity) (h : reachesTopologyCheck r w request inst)
    (hboth : ¬ (w.getManagementClusterConnection.1 ≠ none ∧
      w.getManagementCluster.1 ≠ none)) :
    Reconcile r w request =
      deferSetMetaData inst.ObjectMeta
        (reconcileCertificates r w request (w.getTenant r.multiTenant request.Namespace).1
          inst (gateEntryUpdates request) w.fetchLicenseKey.1 w.getInstallation.1
          w.getInstallation.2.1 (w.getNetworkingPullSecrets w.getInstallation.2.1).1
          w.getManagementCluster.1 w.getManagementClusterConnection.1
          (gateEntryTrace r request inst ++ gateTrace r)) := by
  obtain ⟨⟨⟨⟨hreach, hapi⟩, htier, hget, hlic⟩, hfetch⟩, hinst, hpull, hmce, hmcce⟩ := h
  rw [Reconcile_of_reachesAPIServerCheck r w request inst hreach]
  unfold reconcileGate
  simp only [hapi, htier, hget, hlic, hfetch, hinst, hpull, hmce, hmcce, if_neg hboth]
  simp [gateTrace]

/-- An invocation that reaches the check of the Authentication state with no
Authentication or a Ready one is the render part run after those calls. -/
theorem Reconcile_of_authentication_ready (r : ReconcileCCS) (w : World) (request : Request)
    (inst : ComplianceConfigurationSecurity) (linseed : Certificate)
    (h : reachesAuthenticationCheck r w request inst linseed)
    (hready : ∀ auth ∈ w.getAuthentication.1,
      auth.Status.State = r.consts.TigeraStatusReady) :
    Reconcile r w request =
      deferSetMetaData inst.ObjectMeta
        (reconcileRender r w request (w.getTenant r.multiTenant request.Namespace).1 inst
          (gateEntryUpdates request) w.fetchLicenseKey.1 w.getInstallation.1
          w.getInstallation.2.1 (w.getNetworkingPullSecrets w.getInstallation.2.1).1
          w.getManagementCluster.1 w.getManagementClusterConnection.1
          (trustedBundleOf r w request linseed) (bundleMakerOf r w request linseed)
          (keyPairLookup r w request).1 w.getAuthentication.1
          (renderEntryTrace r w request inst)) := by
  rw [Reconcile_of_reachesAuthenticationCheck r w request inst linseed h]
  cases hauth : w.getAuthentication.1 with
  | none => rfl
  | some auth =>
    have hst : auth.Status.State = r.consts.TigeraStatusReady := hready auth hauth
    simp only [hst, ne_eq, not_true_eq_false, if_false]

/-- The status updates of the entry calls: the instance as fetched, for the
request named `ResourceName` without a namespace, and none otherwise. -/
theorem statusUpdates_gateEntryTrace (r : ReconcileCCS) (request : Request)
    (inst : ComplianceConfigurationSecurity) :
    statusUpdates (gateEntryTrace r request inst) =
      if request.Name = ResourceName ∧ request.Namespace = "" then [inst] else [] := by
  unfold gateEntryTrace
  split <;> simp [statusUpdates]

/-- The status-conditions block writes the instance as fetched when the
request is the one named `ResourceName` without a namespace, the tenant checks
pass, the instance is found and the TigeraStatus read succeeds. -/
theorem entryStatusUpdates_eq (r : ReconcileCCS) (w : World) (request : Request)
    (inst : ComplianceConfigurationSecurity)
    (hc : request.Name = ResourceName ∧ request.Namespace = "")
    (ht : passesTenantChecks r w request)
    (hget : GetCCS w r.multiTenant request.Namespace = Except.ok inst)
    (hts : w.clientGetTigeraStatus ResourceName = none) :
    entryStatusUpdates r w request = [inst] := by
  unfold entryStatusUpdates
  rw [hget]
  exact if_pos ⟨hc, ht.1, ht.2, hts⟩

/-- The status-conditions block writes nothing in every other case. -/
theorem entryStatusUpdates_eq_nil (r : ReconcileCCS) (w : World) (request : Request)
    (h : ¬ ((request.Name = ResourceName ∧ request.Namespace = "") ∧
      passesTenantChecks r w request ∧
      (∃ inst, GetCCS w r.multiTenant request.Namespace = Except.ok inst) ∧
      w.clientGetTigeraStatus ResourceName = none)) :
    entryStatusUpdates r w request = [] := by
  unfold entryStatusUpdates
  cases hget : GetCCS w r.multiTenant request.Namespace with
  | error e => rfl
  | ok inst =>
    exact if_neg (fun hcond =>
      h ⟨hcond.1, ⟨hcond.2.1, hcond.2.2.1⟩, ⟨inst, hget⟩, hcond.2.2.2⟩)

/-- The status updates of the status-conditions block, for an invocation that
reaches the API-server check: the instance as fetched for the request named
`ResourceName` without a namespace, none for another request. -/
theorem entryStatusUpdates_of_reaches (r : ReconcileCCS) (w : World) (request : Request)
    (inst : ComplianceConfigurationSecurity) (h : reachesAPIServerCheck r w request inst) :
    entryStatusUpdates r w request =
      if request.Name = ResourceName ∧ request.Namespace = "" then [inst] else [] := by
  obtain ⟨ht, hget, hupd⟩ := h
  by_cases hc : request.Name = ResourceName ∧ request.Namespace = ""
  · rw [entryStatusUpdates_eq r w request inst hc ht hget (hupd hc).1, if_pos hc]
  · rw [entryStatusUpdates_eq_nil r w request (fun hcond => hc hcond.1), if_neg hc]

/-- A stage exit of a pass that reached the API-server check is an early
return of the invocation, once the deferred `SetMetaData` has run. -/
theorem EarlyReturn_of_stageExit (r : ReconcileCCS) (w : World) (request : Request)
    (inst : ComplianceConfigurationSecurity) (o : Outcome)
    (hreach : reachesAPIServerCheck r w request inst)
    (h : StageExit r w (gateEntryTrace r request inst) o) :
    EarlyReturn r w request (deferSetMetaData inst.ObjectMeta o) := by
  obtain ⟨hres, hlen, hafter, hclear, havail, hstat, herr⟩ := h
  have hdeg : degradedCalls (o.trace ++ [Event.SetMetaData inst.ObjectMeta]) =
      degradedCalls o.trace := by
    simp [degradedCalls_append, degradedCalls]
  refine ⟨hres, ?_, ?_, ?_, ?_, ?_, ?_⟩
  · simp only [deferSetMetaData]
    rw [hdeg]
    exact hlen
  · simp only [deferSetMetaData]
    by_cases hd : degradedCalls o.trace = []
    · left
      rw [afterDegraded_append_of_none _ _ hd]
      rfl
    · right
      refine ⟨inst.ObjectMeta, ?_⟩
      rw [afterDegraded_append_of_some _ _ hd, hafter]
      rfl
  · simp [deferSetMetaData, hclear]
  · simp [deferSetMetaData, havail]
  · simp only [deferSetMetaData, statusUpdates_append, hstat, statusUpdates_gateEntryTrace,
      entryStatusUpdates_of_reaches r w request inst hreach]
    simp [statusUpdates]
  · intro hne
    simp only [deferSetMetaData] at hne ⊢
    rw [hdeg]
    rcases herr hne with hd | ⟨ht, hmem⟩
    · exact Or.inl hd
    · exact Or.inr (Or.inl ⟨ht, List.mem_append_left _ hmem⟩)

/-- Either the invocation returns before the API-server check, or it finds the
instance and reaches that check. -/
theorem Reconcile_early_or_reachesAPIServerCheck (r : ReconcileCCS) (w : World)
    (request : Request) :
    EarlyReturn r w request (Reconcile r w request) ∨
    ∃ inst, reachesAPIServerCheck r w request inst := by
  by_cases hskip : r.multiTenant = true ∧ request.Namespace = ""
  · left
    have hentry := entryStatusUpdates_eq_nil r w request (fun h => h.2.1.1 hskip)
    unfold Reconcile
    rw [if_pos hskip]
    simp [EarlyReturn, hentry, degradedCalls, afterDegraded, statusUpdates]
  by_cases hnf : IsNotFound (w.getTenant r.multiTenant request.Namespace).2 = true
  · left
    have hentry := entryStatusUpdates_eq_nil r w request
      (fun h => ne_none_of_isNotFound _ hnf h.2.1.2)
    unfold Reconcile
    rw [if_neg hskip]
    simp [hnf, EarlyReturn, hentry, degradedCalls, afterDegraded, statusUpdates]
  by_cases hten : (w.getTenant r.multiTenant request.Namespace).2 = none
  swap
  · left
    have hentry := entryStatusUpdates_eq_nil r w request (fun h => hten h.2.1.2)
    unfold Reconcile
    rw [if_neg hskip]
    simp [hnf, hten, EarlyReturn, hentry, degradedCalls, afterDegraded, statusUpdates]
  cases hget : GetCCS w r.multiTenant request.Namespace with
  | error e =>
    left
    have hentry := entryStatusUpdates_eq_nil r w request (fun h => by
      obtain ⟨inst, hinst⟩ := h.2.2.1
      rw [hget] at hinst
      cases hinst)
    unfold Reconcile
    rw [if_neg hskip]
    simp only [hten, hget, IsNotFound]
    by_cases hn : e.notFound = true <;>
      simp [hn, EarlyReturn, hentry, degradedCalls, afterDegraded, statusUpdates]
  | ok inst =>
    by_cases hc : request.Name = ResourceName ∧ request.Namespace = ""
    swap
    · exact Or.inr ⟨inst, ⟨hskip, hten⟩, hget, fun h => absurd h hc⟩
    cases hts : w.clientGetTigeraStatus ResourceName with
    | some e =>
      left
      have hentry := entryStatusUpdates_eq_nil r w request (fun h => by
        have hnone := h.2.2.2
        rw [hts] at hnone
        cases hnone)
      unfold Reconcile
      rw [if_neg hskip]
      simp only [hten, hget, IsNotFound]
      simp [reconcileStatusConditions, deferSetMetaData, hc, hts, EarlyReturn, hentry,
        degradedCalls, afterDegraded, statusUpdates]
    | none =>
      cases hupd : w.statusUpdate 0 inst with
      | some e =>
        left
        have hentry := entryStatusUpdates_eq r w request inst hc ⟨hskip, hten⟩ hget hts
        unfold Reconcile
        rw [if_neg hskip]
        simp only [hten, hget, IsNotFound]
        simp [reconcileStatusConditions, deferSetMetaData, hc, hts, hupd, EarlyReturn,
          hentry, degradedCalls, afterDegraded, statusUpdates]
        exact ⟨inst, hupd.symm⟩
      | none =>
        exact Or.inr ⟨inst, ⟨hskip, hten⟩, hget, fun _ => ⟨hts, hupd⟩⟩

/-- Every invocation either returns early or reaches `ClearDegraded`. -/
theorem Reconcile_early_or_clear (r : ReconcileCCS) (w : World) (request : Request) :
    EarlyReturn r w request (Reconcile r w request) ∨
    ∃ inst linseed, reachesClearDegraded r w request inst linseed := by
  rcases Reconcile_early_or_reachesAPIServerCheck r w request with hearly | ⟨inst, hreach⟩
  · exact Or.inl hearly
  have hq0 := quietSince_gateEntryTrace r request inst
  -- the gate
  rcases reconcileGate_exit_or_pass r w request
      (w.getTenant r.multiTenant request.Namespace).1 inst (gateEntryUpdates request) none
      _ _ hq0 with hexit | ⟨hapi, htier, htierGet, hlic, hfetch, hinst, hpull, hmce, hmcce,
        hboth⟩
  · left
    rw [Reconcile_of_reachesAPIServerCheck r w request inst hreach]
    exact EarlyReturn_of_stageExit r w request inst _ hreach hexit
  have htopo : reachesTopologyCheck r w request inst :=
    ⟨⟨⟨⟨hreach, hapi⟩, htier, htierGet, hlic⟩, hfetch⟩, hinst, hpull, hmce, hmcce⟩
  have hq1 := quietSince_append _ _ _ hq0 (quiet_gateTrace r)
  -- the certificate manager
  rcases reconcileCertificates_exit_or_pass r w request
      (w.getTenant r.multiTenant request.Namespace).1 inst (gateEntryUpdates request)
      w.fetchLicenseKey.1 w.getInstallation.1 w.getInstallation.2.1
      (w.getNetworkingPullSecrets w.getInstallation.2.1).1
      w.getManagementCluster.1 w.getManagementClusterConnection.1 _ _ hq1
    with hexit | ⟨hcreate, hmgr⟩
  · left
    rw [Reconcile_of_topology_passed r w request inst htopo hboth]
    exact EarlyReturn_of_stageExit r w request inst _ hreach hexit
  have hcert : reachesCertificateStep r w request inst := ⟨htopo, hboth, hcreate, hmgr⟩
  have hq2 := quietSince_append _ _ _ hq1 (quiet_certificateTrace r w request)
  -- the Linseed certificate and the bundle
  rcases reconcileLinseed_exit_or_pass r w request
      (w.getTenant r.multiTenant request.Namespace).1 inst (gateEntryUpdates request)
      w.fetchLicenseKey.1 w.getInstallation.1 w.getInstallation.2.1
      (w.getNetworkingPullSecrets w.getInstallation.2.1).1
      w.getManagementCluster.1 (managerInternalTLSSecretOf r w request) _ _ hq2
    with hexit | ⟨⟨linseed, hlin⟩, hmt⟩
  · left
    rw [Reconcile_of_reachesCertificateStep r w request inst hcert]
    exact EarlyReturn_of_stageExit r w request inst _ hreach hexit
  have hq3 := quietSince_append _ _ _ hq2 (quiet_linseedTrace r w request)
  -- the key pair and the Authentication
  rcases reconcileKeyPairAuth_exit_or_pass r w request
      (w.getTenant r.multiTenant request.Namespace).1 inst (gateEntryUpdates request)
      w.fetchLicenseKey.1 w.getInstallation.1 w.getInstallation.2.1
      (w.getNetworkingPullSecrets w.getInstallation.2.1).1
      w.getManagementCluster.1 w.getManagementClusterConnection.1
      (trustedBundleOf r w request linseed) (bundleMakerOf r w request linseed) _ _ hq3
    with hexit | ⟨hkey, hauthErr, hready⟩
  · left
    rw [Reconcile_of_linseed_found r w request inst linseed hcert hlin hmt]
    exact EarlyReturn_of_stageExit r w request inst _ hreach hexit
  have hcheck : reachesAuthenticationCheck r w request inst linseed :=
    ⟨⟨hcert, hlin, hmt, hkey⟩, hauthErr⟩
  have hq4 : quietSince (gateEntryTrace r request inst) (renderEntryTrace r w request inst) :=
    quietSince_append _ _ _ hq2 (quiet_authenticationTrace r w request)
  -- the render part
  rcases reconcileRender_exit_or_pass r w request inst linseed (gateEntryUpdates request)
      _ _ hq4 with hexit | ⟨hbind, hkvc, himg⟩
  · left
    rw [Reconcile_of_authentication_ready r w request inst linseed hcheck hready]
    exact EarlyReturn_of_stageExit r w request inst _ hreach hexit
  have happly : reachesApply r w request inst linseed :=
    ⟨hcheck, hready, hbind, hkvc, himg⟩
  -- the apply loop and the license gate
  rcases reconcileApply_exit_or_pass r w inst (gateEntryUpdates request)
      (hasNoLicenseOf r w) (componentsOf r w request inst linseed) _ _
      (quietSince_applyEntryTrace r w request inst) with hexit | ⟨hall, hlicensed⟩
  · left
    rw [Reconcile_of_reachesApply r w request inst linseed happly]
    exact EarlyReturn_of_stageExit r w request inst _ hreach hexit
  exact Or.inr ⟨inst, linseed, happly, hall, hlicensed⟩

/-- No `SetDegraded` is issued up to the availability check. -/
theorem degradedCalls_availabilityTrace (r : ReconcileCCS) (w : World) (request : Request)
    (inst : ComplianceConfigurationSecurity) (linseed : Certificate) :
    degradedCalls (availabilityTrace r w request inst linseed) = [] := by
  unfold availabilityTrace
  simp only [degradedCalls_append, degradedCalls_applyEntryTrace, degradedCalls_map_apply]
  simp [degradedCalls]

/-- The status updates up to the availability check are those of the entry
calls. -/
theorem statusUpdates_availabilityTrace (r : ReconcileCCS) (w : World) (request : Request)
    (inst : ComplianceConfigurationSecurity) (linseed : Certificate) :
    statusUpdates (availabilityTrace r w request inst linseed) =
      statusUpdates (gateEntryTrace r request inst) := by
  unfold availabilityTrace
  simp only [statusUpdates_append, statusUpdates_applyEntryTrace, statusUpdates_map_apply]
  simp [statusUpdates]

/-- The three components are the ones applied up to the availability check. -/
theorem appliedComponents_availabilityTrace (r : ReconcileCCS) (w : World)
    (request : Request) (inst : ComplianceConfigurationSecurity) (linseed : Certificate) :
    appliedComponents (availabilityTrace r w request inst linseed) =
      componentsOf r w request inst linseed := by
  unfold availabilityTrace
  simp only [appliedComponents_append, appliedComponents_applyEntryTrace,
    appliedComponents_map_apply]
  simp [appliedComponents]

/-- The final status updates are the status updates that follow the
availability check. -/
theorem finalStatusUpdates_availabilityTrace (r : ReconcileCCS) (w : World)
    (request : Request) (inst : ComplianceConfigurationSecurity) (linseed : Certificate)
    (rest : List Event) :
    finalStatusUpdates (availabilityTrace r w request inst linseed ++ rest) =
      statusUpdates rest := by
  have hq := quietSince_append _ _ _ (quietSince_applyEntryTrace r w request inst)
    (quiet_map_apply (componentsOf r w request inst linseed))
  unfold availabilityTrace
  rw [List.append_assoc, List.append_assoc,
    ← List.append_assoc (applyEntryTrace r w request inst),
    finalStatusUpdates_append_of_not_mem _ _ hq.2.2.1]
  rfl

/-- `ClearDegraded` is called before the availability check. -/
theorem clearDegraded_mem_availabilityTrace (r : ReconcileCCS) (w : World)
    (request : Request) (inst : ComplianceConfigurationSecurity) (linseed : Certificate) :
    Event.ClearDegraded ∈ availabilityTrace r w request inst linseed := by
  simp [availabilityTrace]

/-- C12: Ready is written only on full convergence.  In every invocation, an
instance is written after the availability check (the assignment of line 481
and the update of line 482) only if, earlier in the invocation, every gate
passed, the three components applied without error, the license includes the
feature, `ClearDegraded` was called, `SetDegraded` was not called and
`IsAvailable` answered true; the instance written is then the fetched one with
the Ready state.  Conversely, whenever all of that holds, the Ready state is
assigned and written through the status update, and the result is the empty
Result with a nil error if that update succeeds. -/
theorem C12_ready_only_on_full_convergence (r : ReconcileCCS) (w : World)
    (request : Request) :
    (∀ i ∈ finalStatusUpdates (Reconcile r w request).trace,
      ∃ inst linseed, reachesReadyWrite r w request inst linseed ∧
        i = readyInstance r inst ∧
        i.Status.State = r.consts.TigeraStatusReady ∧
        (Reconcile r w request).trace =
          availabilityTrace r w request inst linseed ++
            [Event.StatusUpdate (readyInstance r inst),
             Event.SetMetaData inst.ObjectMeta] ∧
        appliedComponents (Reconcile r w request).trace =
          componentsOf r w request inst linseed ∧
        (∀ c ∈ componentsOf r w request inst linseed,
          w.createOrUpdateOrDelete c = none) ∧
        hasNoLicenseOf r w = false ∧
        Event.ClearDegraded ∈ availabilityTrace r w request inst linseed ∧
        degradedCalls (Reconcile r w request).trace = [] ∧
        w.isAvailable = true) ∧
    (∀ inst linseed, reachesReadyWrite r w request inst linseed →
      Reconcile r w request =
        { result := Result.empty,
          err := w.statusUpdate (gateEntryUpdates request) (readyInstance r inst),
          trace := availabilityTrace r w request inst linseed ++
            [Event.StatusUpdate (readyInstance r inst),
             Event.SetMetaData inst.ObjectMeta] } ∧
      finalStatusUpdates (Reconcile r w request).trace = [readyInstance r inst] ∧
      (readyInstance r inst).Status.State = r.consts.TigeraStatusReady ∧
      (w.statusUpdate (gateEntryUpdates request) (readyInstance r inst) = none →
        (Reconcile r w request).result = Result.empty ∧
        (Reconcile r w request).err = none)) := by
  have hconv : ∀ inst linseed, reachesReadyWrite r w request inst linseed →
      Reconcile r w request =
        { result := Result.empty,
          err := w.statusUpdate (gateEntryUpdates request) (readyInstance r inst),
          trace := availabilityTrace r w request inst linseed ++
            [Event.StatusUpdate (readyInstance r inst),
             Event.SetMetaData inst.ObjectMeta] } := by
    intro inst linseed hready
    rw [Reconcile_of_reachesClearDegraded r w request inst linseed hready.1,
      if_neg (by simp [hready.2])]
  constructor
  · intro i hi
    rcases Reconcile_early_or_clear r w request with hearly | ⟨inst, linseed, hclear⟩
    · have hnone := finalStatusUpdates_of_not_mem _ hearly.2.2.2.2.1
      rw [hnone] at hi
      exact absurd hi (List.not_mem_nil i)
    · cases hav : w.isAvailable with
      | false =>
        have hout := Reconcile_of_reachesClearDegraded r w request inst linseed hclear
        rw [if_pos hav] at hout
        rw [hout] at hi
        simp only [finalStatusUpdates_availabilityTrace] at hi
        simp [statusUpdates] at hi
      | true =>
        have hout := hconv inst linseed ⟨hclear, hav⟩
        rw [hout] at hi ⊢
        simp only [finalStatusUpdates_availabilityTrace] at hi
        have hieq : i = readyInstance r inst := by simpa [statusUpdates] using hi
        refine ⟨inst, linseed, ⟨hclear, hav⟩, hieq, by rw [hieq]; rfl, rfl, ?_,
          hclear.2.1, hclear.2.2, clearDegraded_mem_availabilityTrace r w request inst linseed,
          ?_, rfl⟩
        · simp only [appliedComponents_append, appliedComponents_availabilityTrace]
          simp [appliedComponents]
        · simp only [degradedCalls_append, degradedCalls_availabilityTrace]
          simp [degradedCalls]
  · intro inst linseed hready
    have hout := hconv inst linseed hready
    refine ⟨hout, ?_, rfl, ?_⟩
    · rw [hout]
      simp only [finalStatusUpdates_availabilityTrace]
      simp [statusUpdates]
    · intro hupd
      rw [hout]
      exact ⟨rfl, hupd⟩

/-- The ready cluster converges: the Ready state is written once. -/
theorem C12_witness :
    reachesReadyWrite readyReconciler readyWorld sampleRequest sampleInstance sampleLinseed ∧
    finalStatusUpdates (Reconcile readyReconciler readyWorld sampleRequest).trace =
      [readyInstance readyReconciler sampleInstance] ∧
    (Reconcile readyReconciler readyWorld sampleRequest).err = none :=
  have h : reachesReadyWrite readyReconciler readyWorld sampleRequest sampleInstance
      sampleLinseed := by
    unfold reachesReadyWrite reachesClearDegraded reachesApply reachesAuthenticationCheck
      reachesAuthenticationRead reachesCertificateStep reachesTopologyCheck
      reachesInstallationQuery reachesLicenseFetch reachesTierWatchCheck
      reachesAPIServerCheck passesTenantChecks
    exact ⟨⟨by decide, fun _ _ => rfl, by decide⟩, rfl⟩
  ⟨h, ((C12_ready_only_on_full_convergence readyReconciler readyWorld sampleRequest).2
      sampleInstance sampleLinseed h).2.1,
    (((C12_ready_only_on_full_convergence readyReconciler readyWorld sampleRequest).2
      sampleInstance sampleLinseed h).2.2.2 rfl).2⟩

/-- The result and error of every invocation: the empty Result, with or
without an error, or the standard retry without an error. -/
theorem Reconcile_result_shape (r : ReconcileCCS) (w : World) (request : Request) :
    (Reconcile r w request).result = Result.empty ∨
    ((Reconcile r w request).result =
        { Requeue := false, RequeueAfter := r.consts.StandardRetry } ∧
      (Reconcile r w request).err = none) := by
  rcases Reconcile_early_or_clear r w request with hearly | ⟨inst, linseed, hclear⟩
  · exact hearly.1
  · rw [Reconcile_of_reachesClearDegraded r w request inst linseed hclear]
    split
    · exact Or.inr ⟨rfl, rfl⟩
    · exact Or.inl rfl

/-- C15: every invocation returns exactly one of Done, RequeueAfter or Error:
the `Requeue` flag is never set, a non-zero `RequeueAfter` never comes with a
non-nil error, and a non-zero `RequeueAfter` is the fixed `StandardRetry`. -/
theorem C15_exactly_one_disposition (r : ReconcileCCS) (w : World) (request : Request) :
    (((Reconcile r w request).result = Result.empty ∧ (Reconcile r w request).err = none) ∨
      ((Reconcile r w request).result =
          { Requeue := false, RequeueAfter := r.consts.StandardRetry } ∧
        (Reconcile r w request).err = none) ∨
      ((Reconcile r w request).result = Result.empty ∧
        (Reconcile r w request).err ≠ none)) ∧
    (Reconcile r w request).result.Requeue = false ∧
    ((Reconcile r w request).result.RequeueAfter ≠ 0 →
      (Reconcile r w request).err = none) ∧
    ((Reconcile r w request).result.RequeueAfter ≠ 0 →
      (Reconcile r w request).result.RequeueAfter = r.consts.StandardRetry) := by
  rcases Reconcile_result_shape r w request with hres | ⟨hres, herr⟩
  · refine ⟨?_, by rw [hres]; rfl, fun h => ?_, fun h => ?_⟩
    · by_cases he : (Reconcile r w request).err = none
      · exact Or.inl ⟨hres, he⟩
      · exact Or.inr (Or.inr ⟨hres, he⟩)
    · rw [hres] at h
      exact absurd rfl h
    · rw [hres] at h
      exact absurd rfl h
  · refine ⟨Or.inr (Or.inl ⟨hres, herr⟩), by rw [hres], fun _ => herr, fun _ => by rw [hres]⟩

/-- At cold start the invocation is requeued after the standard retry and
returns no error. -/
theorem C15_witness :
    (Reconcile coldStartReconciler readyWorld sampleRequest).result.RequeueAfter ≠ 0 ∧
    (Reconcile coldStartReconciler readyWorld sampleRequest).err = none ∧
    (Reconcile coldStartReconciler readyWorld sampleRequest).result.RequeueAfter =
      coldStartReconciler.consts.StandardRetry :=
  ⟨by decide,
    (C15_exactly_one_disposition coldStartReconciler readyWorld sampleRequest).2.2.1
      (by decide),
    (C15_exactly_one_disposition coldStartReconciler readyWorld sampleRequest).2.2.2
      (by decide)⟩

/-- With at most one `SetDegraded` in a trace, what stands after any
`SetDegraded` is what stands after the first. -/
theorem afterDegraded_of_split (pre post : List Event) (reason : TigeraStatusReason)
    (msg : String) (cause : Option GoError)
    (hlen : (degradedCalls (pre ++ Event.SetDegraded reason msg cause :: post)).length ≤ 1) :
    afterDegraded (pre ++ Event.SetDegraded reason msg cause :: post) = post := by
  have hpre : degradedCalls pre = [] := by
    rw [degradedCalls_append] at hlen
    simp [degradedCalls] at hlen
    cases hp : degradedCalls pre with
    | nil => rfl
    | cons a as =>
      rw [hp] at hlen
      simp at hlen
      omega
  rw [afterDegraded_append_of_none _ _ hpre]
  rfl

/-- C18: in every invocation `SetDegraded` is called at most once,
`SetDegraded` and `ClearDegraded` are never both called, and every call to
`SetDegraded` is followed by the return: after it the trace holds nothing but
the deferred `SetMetaData`, so no status update and no component apply. -/
theorem C18_set_degraded_once_then_return (r : ReconcileCCS) (w : World)
    (request : Request) :
    (degradedCalls (Reconcile r w request).trace).length ≤ 1 ∧
    ¬ (degradedCalls (Reconcile r w request).trace ≠ [] ∧
      Event.ClearDegraded ∈ (Reconcile r w request).trace) ∧
    (∀ pre post reason msg cause,
      (Reconcile r w request).trace = pre ++ Event.SetDegraded reason msg cause :: post →
      (post = [] ∨ ∃ om, post = [Event.SetMetaData om]) ∧
      statusUpdates post = [] ∧ appliedComponents post = []) := by
  have hmain : (degradedCalls (Reconcile r w request).trace).length ≤ 1 ∧
      ¬ (degradedCalls (Reconcile r w request).trace ≠ [] ∧
        Event.ClearDegraded ∈ (Reconcile r w request).trace) ∧
      (afterDegraded (Reconcile r w request).trace = [] ∨
        ∃ om, afterDegraded (Reconcile r w request).trace = [Event.SetMetaData om]) := by
    rcases Reconcile_early_or_clear r w request with hearly | ⟨inst, linseed, hclear⟩
    · exact ⟨hearly.2.1, fun hc => hearly.2.2.2.1 hc.2, hearly.2.2.1⟩
    · have hdeg : degradedCalls (Reconcile r w request).trace = [] := by
        rw [Reconcile_of_reachesClearDegraded r w request inst linseed hclear]
        split <;>
          (simp only [degradedCalls_append, degradedCalls_availabilityTrace]
           simp [degradedCalls])
      refine ⟨by rw [hdeg]; exact Nat.zero_le 1, fun hc => hc.1 hdeg,
        Or.inl (afterDegraded_of_none _ hdeg)⟩
  refine ⟨hmain.1, hmain.2.1, ?_⟩
  intro pre post reason msg cause hsplit
  have hlen := hmain.1
  rw [hsplit] at hlen
  have hpost := afterDegraded_of_split pre post reason msg cause hlen
  have hafter := hmain.2.2
  rw [hsplit, hpost] at hafter
  refine ⟨hafter, ?_, ?_⟩
  · rcases hafter with h | ⟨om, h⟩ <;> rw [h] <;> rfl
  · rcases hafter with h | ⟨om, h⟩ <;> rw [h] <;> rfl

/-- With both topology resources present, the one `SetDegraded` is followed
only by the deferred `SetMetaData`. -/
theorem C18_witness :
    (Reconcile readyReconciler conflictWorld sampleRequest).trace =
      (gateEntryTrace readyReconciler sampleRequest sampleInstance ++
        gateTrace readyReconciler) ++
      Event.SetDegraded TigeraStatusReason.ResourceValidationError ""
        (some topologyConflict) :: [Event.SetMetaData sampleInstance.ObjectMeta] ∧
    statusUpdates [Event.SetMetaData sampleInstance.ObjectMeta] = [] :=
  have h : (Reconcile readyReconciler conflictWorld sampleRequest).trace =
      (gateEntryTrace readyReconciler sampleRequest sampleInstance ++
        gateTrace readyReconciler) ++
      Event.SetDegraded TigeraStatusReason.ResourceValidationError ""
        (some topologyConflict) :: [Event.SetMetaData sampleInstance.ObjectMeta] := by
    decide
  ⟨h, ((C18_set_degraded_once_then_return readyReconciler conflictWorld sampleRequest).2.2
    _ _ _ _ _ h).2.1⟩

/-- C14, as stated, fails: for the request named `ResourceName` without a
namespace, a failure of the TigeraStatus read is returned as a non-nil error
and `SetDegraded` is not called in the invocation. -/
theorem C14_counterexample_tigera_status_read_failure :
    (Reconcile readyReconciler tigeraStatusReadFailsWorld statusRequest).err = some boom ∧
    degradedCalls (Reconcile readyReconciler tigeraStatusReadFailsWorld statusRequest).trace =
      [] := by
  decide

/-- C14, amended: in every invocation that does not make a failing
binding-namespace lookup (the lookup is not called, or it is called and
returns no error), a non-nil error is returned either after a `SetDegraded`
call or, without one, as the error of the TigeraStatus read or of a status
update. -/
theorem C14_errors_after_set_degraded_or_from_status (r : ReconcileCCS) (w : World)
    (request : Request)
    (hbind : Event.TenantNamespaces ∈ (Reconcile r w request).trace →
      w.tenantNamespaces.2 = none)
    (herr : (Reconcile r w request).err ≠ none) :
    degradedCalls (Reconcile r w request).trace ≠ [] ∨
    (degradedCalls (Reconcile r w request).trace = [] ∧
      ((Reconcile r w request).err = w.clientGetTigeraStatus ResourceName ∨
        ∃ n inst, (Reconcile r w request).err = w.statusUpdate n inst)) := by
  rcases Reconcile_early_or_clear r w request with hearly | ⟨inst, linseed, hclear⟩
  · rcases hearly.2.2.2.2.2.2 herr with hd | ⟨hb, hmem⟩ | ⟨hd, hts | ⟨i, hi⟩⟩
    · exact Or.inl hd
    · rw [hb, hbind hmem] at herr
      exact absurd rfl herr
    · exact Or.inr ⟨hd, Or.inl hts⟩
    · exact Or.inr ⟨hd, Or.inr ⟨0, i, hi⟩⟩
  · have hout := Reconcile_of_reachesClearDegraded r w request inst linseed hclear
    right
    cases hav : w.isAvailable with
    | false =>
      rw [if_pos hav] at hout
      rw [hout] at herr
      exact absurd rfl herr
    | true =>
      rw [if_neg (by simp [hav])] at hout
      rw [hout]
      refine ⟨?_, Or.inr ⟨gateEntryUpdates request, readyInstance r inst, rfl⟩⟩
      simp only [degradedCalls_append, degradedCalls_availabilityTrace]
      simp [degradedCalls]

/-- Without an Installation the pass returns the error after a `SetDegraded`
and never makes the binding-namespace lookup, which would have failed; when
the lookup succeeds and the final status update fails, the error of the update
is returned without a `SetDegraded`. -/
theorem C14_witness :
    installationMissingLookupFailsWorld.tenantNamespaces.2 = some boom ∧
    Event.TenantNamespaces ∉
      (Reconcile readyReconciler installationMissingLookupFailsWorld sampleRequest).trace ∧
    (Reconcile readyReconciler installationMissingLookupFailsWorld sampleRequest).err ≠
      none ∧
    degradedCalls
      (Reconcile readyReconciler installationMissingLookupFailsWorld sampleRequest).trace ≠
        [] ∧
    Event.TenantNamespaces ∈
      (Reconcile readyReconciler statusUpdateFailsWorld sampleRequest).trace ∧
    statusUpdateFailsWorld.tenantNamespaces.2 = none ∧
    (Reconcile readyReconciler statusUpdateFailsWorld sampleRequest).err ≠ none ∧
    degradedCalls (Reconcile readyReconciler statusUpdateFailsWorld sampleRequest).trace =
      [] :=
  have h1 := C14_errors_after_set_degraded_or_from_status readyReconciler
    installationMissingLookupFailsWorld sampleRequest (fun h => absurd h (by decide))
    (by decide)
  have h2 := C14_errors_after_set_degraded_or_from_status readyReconciler
    statusUpdateFailsWorld sampleRequest (fun _ => rfl) (by decide)
  ⟨rfl, by decide, by decide, h1.resolve_right (fun h => absurd h.1 (by decide)),
    by decide, rfl, by decide, (h2.resolve_left (by decide)).1⟩

/-- C16, the failing input: when the license read fails with an error that is
not a NotFound, `Reconcile` sets Degraded with ResourceReadError but returns
`Result{RequeueAfter: StandardRetry}` with a nil error (line 294), whereas the
tier read failure just above it returns the error with the empty Result
(line 278). -/
theorem C16_license_read_error_is_requeued :
    degradedCalls (Reconcile readyReconciler licenseReadFailsWorld sampleRequest).trace =
      [(TigeraStatusReason.ResourceReadError, "Error querying license")] ∧
    (Reconcile readyReconciler licenseReadFailsWorld sampleRequest).err = none ∧
    (Reconcile readyReconciler licenseReadFailsWorld sampleRequest).result =
      { Requeue := false, RequeueAfter := readyReconciler.consts.StandardRetry } ∧
    degradedCalls (Reconcile readyReconciler tierReadFailsWorld sampleRequest).trace =
      [(TigeraStatusReason.ResourceReadError, "Error querying allow-tigera tier")] ∧
    (Reconcile readyReconciler tierReadFailsWorld sampleRequest).err = some boom ∧
    (Reconcile readyReconciler tierReadFailsWorld sampleRequest).result = Result.empty := by
  decide

/-- C17, as stated, fails for the request named `ResourceName` without a
namespace: when the API server is not ready the invocation does not converge
(nothing is written after the availability check, which is not reached) and
yet one status update is issued; when the cluster is ready the invocation
converges and two status updates are issued. -/
theorem C17_counterexample_status_request_updates_twice :
    statusRequest.Name = "complianceconfigurationsecurity" ∧
    statusRequest.Namespace = "" ∧
    finalStatusUpdates
      (Reconcile readyReconciler apiServerNotReadyWorld statusRequest).trace = [] ∧
    (statusUpdates
      (Reconcile readyReconciler apiServerNotReadyWorld statusRequest).trace).length = 1 ∧
    finalStatusUpdates (Reconcile readyReconciler readyWorld statusRequest).trace =
      [readyInstance readyReconciler sampleInstance] ∧
    (Reconcile readyReconciler readyWorld statusRequest).err = none ∧
    (statusUpdates (Reconcile readyReconciler readyWorld statusRequest).trace).length = 2 := by
  decide

/-- An invocation that reaches `ClearDegraded` has fetched its instance. -/
theorem GetCCS_of_reachesClearDegraded (r : ReconcileCCS) (w : World) (request : Request)
    (inst : ComplianceConfigurationSecurity) (linseed : Certificate)
    (h : reachesClearDegraded r w request inst linseed) :
    GetCCS w r.multiTenant request.Namespace = Except.ok inst :=
  h.1.1.1.1.1.1.1.1.1.2.1

/-- An invocation that reaches `ClearDegraded` has passed the
status-conditions block. -/
theorem reachesAPIServerCheck_of_reachesClearDegraded (r : ReconcileCCS) (w : World)
    (request : Request) (inst : ComplianceConfigurationSecurity) (linseed : Certificate)
    (h : reachesClearDegraded r w request inst linseed) :
    reachesAPIServerCheck r w request inst :=
  h.1.1.1.1.1.1.1.1.1

/-- The status updates of an invocation are those of the status-conditions
block followed by those issued after the availability check. -/
theorem statusUpdates_Reconcile (r : ReconcileCCS) (w : World) (request : Request) :
    statusUpdates (Reconcile r w request).trace =
      entryStatusUpdates r w request ++
        finalStatusUpdates (Reconcile r w request).trace := by
  rcases Reconcile_early_or_clear r w request with hearly | ⟨inst, linseed, hclear⟩
  · rw [finalStatusUpdates_of_not_mem _ hearly.2.2.2.2.1, List.append_nil]
    exact hearly.2.2.2.2.2.1
  · have hout := Reconcile_of_reachesClearDegraded r w request inst linseed hclear
    rw [entryStatusUpdates_of_reaches r w request inst
        (reachesAPIServerCheck_of_reachesClearDegraded r w request inst linseed hclear),
      ← statusUpdates_gateEntryTrace r request inst]
    cases hav : w.isAvailable with
    | false =>
      rw [if_pos hav] at hout
      rw [hout]
      simp only [finalStatusUpdates_availabilityTrace, statusUpdates_append,
        statusUpdates_availabilityTrace]
    | true =>
      rw [if_neg (by simp [hav])] at hout
      rw [hout]
      simp only [finalStatusUpdates_availabilityTrace, statusUpdates_append,
        statusUpdates_availabilityTrace]

/-- In an invocation that reaches the assignment of the Ready state the
instance with that state is written once after the availability check. -/
theorem finalStatusUpdates_of_reachesReadyWrite (r : ReconcileCCS) (w : World)
    (request : Request) (inst : ComplianceConfigurationSecurity) (linseed : Certificate)
    (h : reachesReadyWrite r w request inst linseed) :
    finalStatusUpdates (Reconcile r w request).trace = [readyInstance r inst] := by
  rw [Reconcile_of_reachesClearDegraded r w request inst linseed h.1,
    if_neg (by simp [h.2])]
  simp only [finalStatusUpdates_availabilityTrace]
  simp [statusUpdates]

/-- In an invocation that does not reach the assignment of the Ready state
nothing is written after the availability check. -/
theorem finalStatusUpdates_of_not_reachesReadyWrite (r : ReconcileCCS) (w : World)
    (request : Request)
    (hno : ¬ ∃ inst linseed, reachesReadyWrite r w request inst linseed) :
    finalStatusUpdates (Reconcile r w request).trace = [] := by
  rcases Reconcile_early_or_clear r w request with hearly | ⟨inst, linseed, hclear⟩
  · exact finalStatusUpdates_of_not_mem _ hearly.2.2.2.2.1
  · have hav : w.isAvailable = false := by
      cases hav : w.isAvailable with
      | false => rfl
      | true => exact absurd ⟨inst, linseed, hclear, hav⟩ hno
    rw [Reconcile_of_reachesClearDegraded r w request inst linseed hclear, if_pos hav]
    simp only [finalStatusUpdates_availabilityTrace]
    rfl

/-- C17, amended: the status update of line 482 is issued exactly once in an
invocation that reaches the assignment of the Ready state, writing the
instance with that state (the invocation converges if that update succeeds),
and is not issued in any other invocation.  Besides it, the only status update
of an invocation is the one of the status-conditions block (line 253): when
the request is the one named `ResourceName` without a namespace, the tenant
checks pass, the instance is found and the TigeraStatus read succeeds, the
invocation issues that update first, writing the instance as fetched, whether
or not it converges; in every other invocation it is not issued.  So for
every other request the status is written once when the Ready state is
assigned and not at all otherwise. -/
theorem C17_status_updates_per_invocation (r : ReconcileCCS) (w : World)
    (request : Request) :
    (∀ inst linseed, reachesReadyWrite r w request inst linseed →
      finalStatusUpdates (Reconcile r w request).trace = [readyInstance r inst] ∧
      statusUpdates (Reconcile r w request).trace =
        (if request.Name = ResourceName ∧ request.Namespace = "" then [inst] else []) ++
          [readyInstance r inst]) ∧
    ((¬ ∃ inst linseed, reachesReadyWrite r w request inst linseed) →
      finalStatusUpdates (Reconcile r w request).trace = []) ∧
    (∀ inst, (request.Name = ResourceName ∧ request.Namespace = "") →
      passesTenantChecks r w request →
      GetCCS w r.multiTenant request.Namespace = Except.ok inst →
      w.clientGetTigeraStatus ResourceName = none →
      statusUpdates (Reconcile r w request).trace =
        inst :: finalStatusUpdates (Reconcile r w request).trace) ∧
    (¬ ((request.Name = ResourceName ∧ request.Namespace = "") ∧
        passesTenantChecks r w request ∧
        (∃ inst, GetCCS w r.multiTenant request.Namespace = Except.ok inst) ∧
        w.clientGetTigeraStatus ResourceName = none) →
      statusUpdates (Reconcile r w request).trace =
        finalStatusUpdates (Reconcile r w request).trace) ∧
    (¬ (request.Name = ResourceName ∧ request.Namespace = "") →
      ((∃ inst linseed, reachesReadyWrite r w request inst linseed) →
        (statusUpdates (Reconcile r w request).trace).length = 1) ∧
      ((¬ ∃ inst linseed, reachesReadyWrite r w request inst linseed) →
        statusUpdates (Reconcile r w request).trace = [])) := by
  have hsplit := statusUpdates_Reconcile r w request
  refine ⟨?_, finalStatusUpdates_of_not_reachesReadyWrite r w request, ?_, ?_, ?_⟩
  · intro inst linseed h
    have hfinal := finalStatusUpdates_of_reachesReadyWrite r w request inst linseed h
    refine ⟨hfinal, ?_⟩
    rw [hsplit, hfinal, entryStatusUpdates_of_reaches r w request inst
      (reachesAPIServerCheck_of_reachesClearDegraded r w request inst linseed h.1)]
  · intro inst hc ht hget hts
    rw [hsplit, entryStatusUpdates_eq r w request inst hc ht hget hts]
    rfl
  · intro hno
    rw [hsplit, entryStatusUpdates_eq_nil r w request hno]
    rfl
  · intro hc
    have hnil := entryStatusUpdates_eq_nil r w request (fun h => hc h.1)
    constructor
    · rintro ⟨inst, linseed, h⟩
      rw [hsplit, hnil, finalStatusUpdates_of_reachesReadyWrite r w request inst linseed h]
      rfl
    · intro hno
      rw [hsplit, hnil, finalStatusUpdates_of_not_reachesReadyWrite r w request hno]
      rfl

/-- For the request named `ResourceName` without a namespace, a pass that
stops at the API-server check has written the instance as fetched, once; for
the request of the default instance the ready cluster writes the status once,
with the Ready state. -/
theorem C17_witness :
    (statusRequest.Name = ResourceName ∧ statusRequest.Namespace = "") ∧
    passesTenantChecks readyReconciler apiServerNotReadyWorld statusRequest ∧
    GetCCS apiServerNotReadyWorld readyReconciler.multiTenant statusRequest.Namespace =
      Except.ok sampleInstance ∧
    apiServerNotReadyWorld.clientGetTigeraStatus ResourceName = none ∧
    finalStatusUpdates
      (Reconcile readyReconciler apiServerNotReadyWorld statusRequest).trace = [] ∧
    statusUpdates (Reconcile readyReconciler apiServerNotReadyWorld statusRequest).trace =
      [sampleInstance] ∧
    ¬ (sampleRequest.Name = ResourceName ∧ sampleRequest.Namespace = "") ∧
    reachesReadyWrite readyReconciler readyWorld sampleRequest sampleInstance sampleLinseed ∧
    statusUpdates (Reconcile readyReconciler readyWorld sampleRequest).trace =
      [readyInstance readyReconciler sampleInstance] :=
  have hc : statusRequest.Name = ResourceName ∧ statusRequest.Namespace = "" := by decide
  have ht : passesTenantChecks readyReconciler apiServerNotReadyWorld statusRequest := by
    unfold passesTenantChecks
    decide
  have hfinal : finalStatusUpdates
      (Reconcile readyReconciler apiServerNotReadyWorld statusRequest).trace = [] := by
    decide
  have h : reachesReadyWrite readyReconciler readyWorld sampleRequest sampleInstance
      sampleLinseed := by
    unfold reachesReadyWrite reachesClearDegraded reachesApply reachesAuthenticationCheck
      reachesAuthenticationRead reachesCertificateStep reachesTopologyCheck
      reachesInstallationQuery reachesLicenseFetch reachesTierWatchCheck
      reachesAPIServerCheck passesTenantChecks
    exact ⟨⟨by decide, fun _ _ => rfl, by decide⟩, rfl⟩
  have hnot : ¬ (sampleRequest.Name = ResourceName ∧ sampleRequest.Namespace = "") := by
    decide
  ⟨hc, ht, rfl, rfl, hfinal,
    hfinal ▸ (C17_status_updates_per_invocation readyReconciler apiServerNotReadyWorld
      statusRequest).2.2.1 sampleInstance hc ht rfl rfl,
    hnot, h,
    ((C17_status_updates_per_invocation readyReconciler readyWorld sampleRequest).1
      sampleInstance sampleLinseed h).2.trans (by rw [if_neg hnot]; rfl)⟩

end CCS
